import Mathlib

/-!
# KeyStoneL front-end: grading, statistics and submission flow

A shallow embedding of the logic of the React components under
`frontend/src/components` (student: `AssignmentView`, `StudentGrades`,
`StudentAssignments`, `StudentOverview`, `StudentMessages`; teacher: `Gradebook`,
`Overview`, `AssignmentGenerator`, `LessonPlanGenerator`, `StudentManagement`,
`Messaging`).

Numbers.  A JavaScript number is modelled by `JSNum`: a finite value is a
rational, and the three non-finite values (`NaN`, `Infinity`, `-Infinity`) are
kept apart, so that a division by zero or a `Math.max()` without arguments is
visible in a result.  A score received from the backend is JSON: a finite number
or `null`.  The sign of zero is not modelled.

Arithmetic.  `binary64` is the rounding of IEEE 754 (round to nearest, ties to
even, overflow to an infinity) on the rationals.  The functions that add and
divide scores come in two forms.  The form with a rounding, such as
`StudentGrades.fetchGradesWith`, passes the exact result of every addition,
division and multiplication through a rounding `fl`; with `fl := binary64` it is
the function as JavaScript evaluates it, and the statements on averages and on
the completion rate are about that instance.  The form without, such as
`StudentGrades.fetchGrades`, is the instance `fl := JSNum.fin` (exact
arithmetic), used for the statements on counts, guards and failures, where no
rounding takes part, and on whole-number scores, where binary64 is exact.

State.  A component is a record of its `useState` cells; a handler is a function
from the state before (and, for an `async` handler, the outcome of each awaited
request) to the state after together with the effects it issued, in order.
Calls on the DOM event (`e.preventDefault()`) are not part of the model.

Strings.  `trim` strips the white space and line terminators of ECMAScript;
`toLowerCase` maps the ASCII letters and leaves every other character as it is.
A timestamp is the number of epoch milliseconds that `new Date(...)` reads from
a valid date.
-/

/-! ## JavaScript numbers -/

/-- A JavaScript number: a finite value (exact rational) or one of the three
non-finite values. -/
inductive JSNum where
  | fin (q : ℚ)
  | nan
  | posInf
  | negInf
  deriving DecidableEq

namespace JSNum

/-- The relational operator `a >= b` on numbers: false as soon as one operand
is `NaN`. -/
def ge : JSNum → JSNum → Bool
  | nan, _ => false
  | _, nan => false
  | fin a, fin b => decide (b ≤ a)
  | posInf, _ => true
  | _, negInf => true
  | fin _, posInf => false
  | negInf, fin _ => false
  | negInf, posInf => false

/-- The relational operator `a > b` on numbers: false as soon as one operand
is `NaN`. -/
def gt : JSNum → JSNum → Bool
  | nan, _ => false
  | _, nan => false
  | fin a, fin b => decide (b < a)
  | posInf, posInf => false
  | posInf, _ => true
  | negInf, _ => false
  | fin _, negInf => true
  | fin _, posInf => false

/-- The division `a / b` of two finite numbers in exact arithmetic: a zero
divisor gives `NaN` (for `0 / 0`) or an infinity. -/
def div (a b : ℚ) : JSNum :=
  if b = 0 then
    if a = 0 then nan else if 0 < a then posInf else negInf
  else fin (a / b)

/-- The product `x * c` of a number with a finite constant in exact
arithmetic. -/
def mulFin : JSNum → ℚ → JSNum
  | fin a, c => fin (a * c)
  | nan, _ => nan
  | posInf, c => if c = 0 then nan else if 0 < c then posInf else negInf
  | negInf, c => if c = 0 then nan else if 0 < c then negInf else posInf

/-- The function `Math.round`: the nearest integer, a tie going up; a
non-finite argument is returned as it is. -/
def round : JSNum → JSNum
  | fin q => fin (⌊q + 1 / 2⌋ : ℤ)
  | x => x

/-- The maximum of two numbers as `Math.max` combines them. -/
def max2 : JSNum → JSNum → JSNum
  | nan, _ => nan
  | _, nan => nan
  | posInf, _ => posInf
  | _, posInf => posInf
  | negInf, y => y
  | x, negInf => x
  | fin a, fin b => fin (max a b)

/-- The minimum of two numbers as `Math.min` combines them. -/
def min2 : JSNum → JSNum → JSNum
  | nan, _ => nan
  | _, nan => nan
  | negInf, _ => negInf
  | _, negInf => negInf
  | posInf, y => y
  | x, posInf => x
  | fin a, fin b => fin (min a b)

end JSNum

/-- The call `Math.max(...xs)` on finite arguments; without arguments the
result is `-Infinity`. -/
def mathMax (xs : List ℚ) : JSNum :=
  xs.foldl (fun acc x => JSNum.max2 acc (.fin x)) .negInf

/-- The call `Math.min(...xs)` on finite arguments; without arguments the
result is `Infinity`. -/
def mathMin (xs : List ℚ) : JSNum :=
  xs.foldl (fun acc x => JSNum.min2 acc (.fin x)) .posInf

/-- The conversion `ToNumber` of a JSON score: `null` converts to `0`. -/
def toNumber : Option ℚ → ℚ
  | none => 0
  | some q => q

/-- The text a template literal gives for a number that `Math.round` returned:
the decimal digits of the integer, or the name of the non-finite value. -/
def roundedText : JSNum → String
  | .fin q => toString ⌊q⌋
  | .nan => "NaN"
  | .posInf => "Infinity"
  | .negInf => "-Infinity"

/-- The call `xs.reduce((sum, x) => sum + x, 0)` on finite numbers in exact
arithmetic. -/
def reduceSum (xs : List ℚ) : ℚ :=
  xs.foldl (fun sum x => sum + x) 0

/-! ## Binary64 arithmetic -/

/-- The integer nearest to a rational, a tie going to the even neighbour. -/
def roundHalfEven (x : ℚ) : ℤ :=
  if x - ⌊x⌋ < 1 / 2 then ⌊x⌋
  else if 1 / 2 < x - ⌊x⌋ then ⌊x⌋ + 1
  else if ⌊x⌋ % 2 = 0 then ⌊x⌋ else ⌊x⌋ + 1

/-- The exponent of the spacing of the binary64 numbers around a rational: 52
below the exponent of its binade, and -1074 throughout the subnormal range. -/
def ulpExponent (x : ℚ) : ℤ := max (Int.log 2 |x|) (-1022) - 52

/-- The binary64 number that an arithmetic operation returns when its exact
result is `x` (IEEE 754 round to nearest, ties to even): the multiple of the
spacing nearest to `x`, or an infinity when that multiple reaches `2 ^ 1024`. -/
def binary64 (x : ℚ) : JSNum :=
  let y : ℚ := roundHalfEven (x / 2 ^ ulpExponent x) * 2 ^ ulpExponent x
  if 2 ^ 1024 ≤ |y| then (if 0 < x then .posInf else .negInf) else .fin y

/-- The sum `x + b` of a number and a finite number, the exact sum of two finite
numbers passing through the rounding `fl`: `binary64` for the arithmetic of
JavaScript, `JSNum.fin` for exact arithmetic. -/
def JSNum.addWith (fl : ℚ → JSNum) : JSNum → ℚ → JSNum
  | .fin a, b => fl (a + b)
  | .nan, _ => .nan
  | .posInf, _ => .posInf
  | .negInf, _ => .negInf

/-- The quotient `x / b` of a number by a finite number, the exact quotient of
two finite numbers passing through the rounding `fl`; a zero divisor is the
positive zero of a count. -/
def JSNum.divWith (fl : ℚ → JSNum) : JSNum → ℚ → JSNum
  | .fin a, b =>
    if b = 0 then
      if a = 0 then .nan else if 0 < a then .posInf else .negInf
    else fl (a / b)
  | .nan, _ => .nan
  | .posInf, b => if 0 ≤ b then .posInf else .negInf
  | .negInf, b => if 0 ≤ b then .negInf else .posInf

/-- The product `x * c` of a number with a finite constant, the exact product of
two finite numbers passing through the rounding `fl`. -/
def JSNum.mulWith (fl : ℚ → JSNum) : JSNum → ℚ → JSNum
  | .fin a, c => fl (a * c)
  | .nan, _ => .nan
  | .posInf, c => if c = 0 then .nan else if 0 < c then .posInf else .negInf
  | .negInf, c => if c = 0 then .nan else if 0 < c then .negInf else .posInf

/-- The call `xs.reduce((sum, x) => sum + x, 0)` with every partial sum passing
through the rounding `fl`. -/
def reduceSumWith (fl : ℚ → JSNum) (xs : List ℚ) : JSNum :=
  xs.foldl (fun sum x => JSNum.addWith fl sum x) (.fin 0)

/-! ## Data model (the JSON payloads) -/

/-- One multiple-choice question of an assignment. -/
structure Question where
  question : String
  options : List String
  correct_answer : Int
  deriving DecidableEq

/-- The assignment a teacher generated: the `assignment` field of a
student-assignment record. -/
structure Assignment where
  title : String
  subject : String
  grade_level : String
  topic : String
  reading_passage : Option String
  questions : List Question
  deriving DecidableEq

/-- One record of `GET /api/student/assignments`.  Timestamps are the epoch
milliseconds that `new Date(...)` reads from them. -/
structure StudentAssignment where
  student_assignment_id : String
  assignment : Assignment
  completed : Bool
  score : Option ℚ
  submitted_at : Option Int
  assigned_at : Int
  deriving DecidableEq

/-! ## Letter grades and colour tiers -/

namespace AssignmentView

/-- `getGradeColor` of `AssignmentView.js`. -/
def getGradeColor (score : JSNum) : String :=
  if score.ge (.fin 90) then "text-green-400"
  else if score.ge (.fin 80) then "text-blue-400"
  else if score.ge (.fin 70) then "text-yellow-400"
  else if score.ge (.fin 60) then "text-orange-400"
  else "text-red-400"

/-- `getLetterGrade` of `AssignmentView.js`. -/
def getLetterGrade (score : JSNum) : String :=
  if score.ge (.fin 90) then "A"
  else if score.ge (.fin 80) then "B"
  else if score.ge (.fin 70) then "C"
  else if score.ge (.fin 60) then "D"
  else "F"

/-- The class of the letter badge beside the score (the conditional chain in
the `className` of the `Badge`, without the fixed `text-lg px-3 py-1` prefix). -/
def scoreBadgeClass (score : JSNum) : String :=
  if score.ge (.fin 90) then "bg-green-500/20 text-green-400 border-green-500/30"
  else if score.ge (.fin 80) then "bg-blue-500/20 text-blue-400 border-blue-500/30"
  else if score.ge (.fin 70) then "bg-yellow-500/20 text-yellow-400 border-yellow-500/30"
  else if score.ge (.fin 60) then "bg-orange-500/20 text-orange-400 border-orange-500/30"
  else "bg-red-500/20 text-red-400 border-red-500/30"

end AssignmentView

/-- The object `{ text, class }` that `getGradeBadge` returns. -/
structure GradeBadge where
  text : String
  «class» : String
  deriving DecidableEq

namespace StudentGrades

/-- `getGradeColor` of `StudentGrades.js`. -/
def getGradeColor (score : JSNum) : String :=
  if score.ge (.fin 90) then "text-green-400"
  else if score.ge (.fin 80) then "text-blue-400"
  else if score.ge (.fin 70) then "text-yellow-400"
  else if score.ge (.fin 60) then "text-orange-400"
  else "text-red-400"

/-- `getGradeBadge` of `StudentGrades.js`. -/
def getGradeBadge (score : JSNum) : GradeBadge :=
  if score.ge (.fin 90) then ⟨"A", "bg-green-500/20 text-green-400 border-green-500/30"⟩
  else if score.ge (.fin 80) then ⟨"B", "bg-blue-500/20 text-blue-400 border-blue-500/30"⟩
  else if score.ge (.fin 70) then ⟨"C", "bg-yellow-500/20 text-yellow-400 border-yellow-500/30"⟩
  else if score.ge (.fin 60) then ⟨"D", "bg-orange-500/20 text-orange-400 border-orange-500/30"⟩
  else ⟨"F", "bg-red-500/20 text-red-400 border-red-500/30"⟩

end StudentGrades

namespace StudentAssignments

/-- `getGradeColor` of `StudentAssignments.js`. -/
def getGradeColor (score : JSNum) : String :=
  if score.ge (.fin 90) then "text-green-400"
  else if score.ge (.fin 80) then "text-blue-400"
  else if score.ge (.fin 70) then "text-yellow-400"
  else if score.ge (.fin 60) then "text-orange-400"
  else "text-red-400"

end StudentAssignments

namespace StudentOverview

/-- `getGradeColor` of `StudentOverview.js`. -/
def getGradeColor (score : JSNum) : String :=
  if score.ge (.fin 90) then "text-green-400"
  else if score.ge (.fin 80) then "text-blue-400"
  else if score.ge (.fin 70) then "text-yellow-400"
  else if score.ge (.fin 60) then "text-orange-400"
  else "text-red-400"

end StudentOverview

namespace Gradebook

/-- `getGradeColor` of `Gradebook.js`. -/
def getGradeColor (score : JSNum) : String :=
  if score.ge (.fin 90) then "text-green-400"
  else if score.ge (.fin 80) then "text-blue-400"
  else if score.ge (.fin 70) then "text-yellow-400"
  else if score.ge (.fin 60) then "text-orange-400"
  else "text-red-400"

/-- `getGradeBadge` of `Gradebook.js`. -/
def getGradeBadge (score : JSNum) : GradeBadge :=
  if score.ge (.fin 90) then ⟨"A", "bg-green-500/20 text-green-400 border-green-500/30"⟩
  else if score.ge (.fin 80) then ⟨"B", "bg-blue-500/20 text-blue-400 border-blue-500/30"⟩
  else if score.ge (.fin 70) then ⟨"C", "bg-yellow-500/20 text-yellow-400 border-yellow-500/30"⟩
  else if score.ge (.fin 60) then ⟨"D", "bg-orange-500/20 text-orange-400 border-orange-500/30"⟩
  else ⟨"F", "bg-red-500/20 text-red-400 border-red-500/30"⟩

end Gradebook

/-! ## Requests, responses and effects -/

/-- A rejected axios request: `error.response?.data?.detail`, when the response
carries one. -/
structure AxiosError where
  detail : Option String
  deriving DecidableEq

/-- The body of `POST /api/student/assignments/submit`. -/
structure SubmitBody where
  student_assignment_id : String
  answers : List Int
  deriving DecidableEq

/-- The data of a successful submit response. -/
structure SubmitResponse where
  score : ℚ
  deriving DecidableEq

/-- The `formData` of the two generators, posted as it is. -/
structure FormData where
  subject : String
  grade_level : String
  topic : String
  deriving DecidableEq

/-- The `newStudent` form of `StudentManagement`, posted as it is. -/
structure NewStudent where
  first_name : String
  last_name : String
  username : String
  password : String
  deriving DecidableEq

/-- The bodies of the teacher-side and messaging POST requests. -/
inductive RequestBody where
  | form (formData : FormData)
  | student (newStudent : NewStudent)
  | assign (assignment_id : String) (student_ids : List String)
  | message (recipient_id : String) (content : String)
  deriving DecidableEq

/-- What a handler does besides setting state, in the order it does it.  Request
paths are relative to `API_BASE`.  `axiosPost` is the submit request of
`AssignmentView`, `axiosPostJson` every other POST. -/
inductive Effect where
  | axiosGet (path : String)
  | axiosPost (path : String) (body : SubmitBody)
  | toastError (message : String)
  | toastSuccess (message : String)
  | navigate (path : String)
  | consoleError (label : String)
  | axiosPostJson (path : String) (body : RequestBody)
  | axiosDelete (path : String)
  | confirm (message : String)
  deriving DecidableEq

/-- The code points that `String.prototype.trim` strips: the white space of
ECMAScript (tab, vertical tab, form feed, space, no-break space, the zero width
no-break space U+FEFF and the space separators U+1680, U+2000 to U+200A, U+202F,
U+205F, U+3000) and its line terminators (line feed, carriage return, U+2028,
U+2029). -/
def jsWhiteSpace (c : Char) : Bool :=
  decide ((9 ≤ c.toNat ∧ c.toNat ≤ 13) ∨ c.toNat = 32 ∨ c.toNat = 160 ∨ c.toNat = 5760 ∨
    (8192 ≤ c.toNat ∧ c.toNat ≤ 8202) ∨ c.toNat = 8232 ∨ c.toNat = 8233 ∨ c.toNat = 8239 ∨
    c.toNat = 8287 ∨ c.toNat = 12288 ∨ c.toNat = 65279)

/-- The method `String.prototype.trim`: the string without its leading and
trailing white space and line terminators. -/
def jsTrim (s : String) : String :=
  String.mk ((s.data.dropWhile jsWhiteSpace).reverse.dropWhile jsWhiteSpace).reverse

/-- The expression `error.response?.data?.detail || fallback`: the detail when the
response carries a non-empty one, the fallback otherwise. -/
def detailOr (error : AxiosError) (fallback : String) : String :=
  match error.detail with
  | some detail => if detail = "" then fallback else detail
  | none => fallback

/-! ## The answer mapping -/

/-- The assignment `obj[k] = v` on the own properties of an object: an existing
key keeps its place and takes the new value, a new key is added. -/
def setEntry : List (Int × Int) → Int → Int → List (Int × Int)
  | [], k, v => [(k, v)]
  | (k', v') :: rest, k, v =>
    if k' = k then (k, v) :: rest else (k', v') :: setEntry rest k v

/-- The keys of `setEntry l k v`: those of `l`, with `k` added when new. -/
theorem setEntry_keys (l : List (Int × Int)) (k v : Int) :
    (setEntry l k v).map Prod.fst =
      if k ∈ l.map Prod.fst then l.map Prod.fst else l.map Prod.fst ++ [k] := by
  induction l with
  | nil => simp [setEntry]
  | cons e rest ih =>
    obtain ⟨k', v'⟩ := e
    by_cases h : k' = k
    · subst h; simp [setEntry]
    · have h' : ¬ k = k' := fun e => h e.symm
      by_cases hm : k ∈ rest.map Prod.fst
      · simp only [setEntry, h, if_false, List.map_cons, ih, if_pos hm, List.mem_cons, hm,
          or_true, if_true]
      · simp only [setEntry, h, if_false, List.map_cons, ih, if_neg hm, List.mem_cons, hm,
          or_false, h', List.cons_append]

/-- Setting an entry keeps the keys distinct. -/
theorem setEntry_nodup (l : List (Int × Int)) (k v : Int)
    (h : (l.map Prod.fst).Nodup) : ((setEntry l k v).map Prod.fst).Nodup := by
  rw [setEntry_keys]
  split
  · exact h
  · rename_i hk
    exact List.Nodup.append h (List.nodup_singleton k) (by simpa using hk)

/-- The `answers` state cell of `AssignmentView`: an object from question index
to option index.  An object holds each key once. -/
structure AnswerMap where
  entries : List (Int × Int)
  nodup : (entries.map Prod.fst).Nodup

namespace AnswerMap

/-- The initial value `{}`. -/
def empty : AnswerMap := ⟨[], List.nodup_nil⟩

/-- The call `Object.keys(answers)`. -/
def keys (m : AnswerMap) : List Int := m.entries.map Prod.fst

/-- The property read `answers[k]`; `none` is `undefined`. -/
def get (m : AnswerMap) (k : Int) : Option Int :=
  (m.entries.find? (fun e => e.1 == k)).map Prod.snd

/-- The object `{ ...m, [k]: v }`. -/
def set (m : AnswerMap) (k v : Int) : AnswerMap :=
  ⟨setEntry m.entries k v, setEntry_nodup m.entries k v m.nodup⟩

end AnswerMap

/-! ## AssignmentView -/

namespace AssignmentView

/-- The `useState` cells of `AssignmentView`. -/
structure State where
  assignment : Option StudentAssignment
  answers : AnswerMap
  loading : Bool
  submitting : Bool

/-- `fetchAssignment` of `AssignmentView.js`, given the outcome of the awaited
`GET /student/assignments` and the route parameter `assignmentId`. -/
def fetchAssignment (assignmentId : String)
    (response : Except AxiosError (List StudentAssignment)) (st : State) :
    State × List Effect :=
  let st := { st with loading := true }
  match response with
  | .ok data =>
    match data.find? (fun a => a.student_assignment_id == assignmentId) with
    | none =>
      ({ st with loading := false },
        [.axiosGet "/student/assignments", .toastError "Assignment not found",
         .navigate "/student/assignments"])
    | some assignmentData =>
      ({ st with assignment := some assignmentData, loading := false },
        [.axiosGet "/student/assignments"])
  | .error _ =>
    ({ st with loading := false },
      [.axiosGet "/student/assignments", .consoleError "Error fetching assignment:",
       .toastError "Failed to load assignment", .navigate "/student/assignments"])

/-- `handleAnswerChange` of `AssignmentView.js`. -/
def handleAnswerChange (questionIndex answerIndex : Int) (st : State) : State :=
  { st with answers := st.answers.set questionIndex answerIndex }

/-- A sequence of `handleAnswerChange` calls `(questionIndex, answerIndex)`,
applied in order. -/
def answerAll (calls : List (Int × Int)) (st : State) : State :=
  calls.foldl (fun st call => handleAnswerChange call.1 call.2 st) st

/-- The loop `for (let i = 0; i < totalQuestions; i++) answersArray[i] = ...` of
`handleSubmit`, with `remaining = totalQuestions - i` iterations to go. -/
def fillAnswers (answers : AnswerMap) : (remaining i : Nat) → List Int → List Int
  | 0, _, answersArray => answersArray
  | remaining + 1, i, answersArray =>
    fillAnswers answers remaining (i + 1)
      (answersArray ++ [match answers.get i with
                        | some answer => answer
                        | none => -1])

/-- `handleSubmit` of `AssignmentView.js`, given the outcome of the awaited POST
and, for the refresh after a success, of the awaited GET. -/
def handleSubmit (assignmentId : String)
    (postResponse : Except AxiosError SubmitResponse)
    (getResponse : Except AxiosError (List StudentAssignment)) (st : State) :
    State × List Effect :=
  match st.assignment with
  | none => (st, [])
  | some assignment =>
    if assignment.completed then (st, [])
    else
      let totalQuestions := assignment.assignment.questions.length
      let answeredQuestions := st.answers.keys.length
      if answeredQuestions < totalQuestions then
        (st, [.toastError
          ("Please answer all " ++ toString totalQuestions ++ " questions before submitting.")])
      else
        let answersArray := fillAnswers st.answers totalQuestions 0 []
        let st := { st with submitting := true }
        let request := Effect.axiosPost "/student/assignments/submit"
          { student_assignment_id := assignmentId, answers := answersArray }
        match postResponse with
        | .ok response =>
          let message := "Assignment submitted! Score: " ++
            roundedText (JSNum.round (.fin response.score)) ++ "%"
          let (st, refresh) := fetchAssignment assignmentId getResponse st
          ({ st with submitting := false }, request :: .toastSuccess message :: refresh)
        | .error error =>
          let message := match error.detail with
            | some detail => if detail = "" then "Failed to submit assignment" else detail
            | none => "Failed to submit assignment"
          ({ st with submitting := false },
            [request, .consoleError "Error submitting assignment:", .toastError message])

/-- Modelled from the spec: the `RadioGroup` of `../ui/radio-group`, which is not
among the sources.  "UI must disable further answer changes once Completed": a
group rendered with `disabled` true does not call `onValueChange`; otherwise a
selection of the option with index `answerIndex` calls it with that value. -/
def radioGroupSelect (disabled : Bool) (onValueChange : Int → State → State)
    (answerIndex : Int) (st : State) : State :=
  if disabled then st else onValueChange answerIndex st

/-- The selection of option `answerIndex` in the radio group rendered for
question `questionIndex`: `disabled={assignment.completed}` and
`onValueChange={(value) => handleAnswerChange(questionIndex, parseInt(value))}`.
Without a loaded assignment no question is rendered. -/
def selectAnswer (questionIndex answerIndex : Int) (st : State) : State :=
  match st.assignment with
  | none => st
  | some assignment =>
    radioGroupSelect assignment.completed (handleAnswerChange questionIndex) answerIndex st

end AssignmentView

/-! ## StudentGrades -/

namespace StudentGrades

/-- The `stats` state cell of `StudentGrades`. -/
structure Stats where
  totalCompleted : Nat
  averageGrade : JSNum
  highestGrade : JSNum
  lowestGrade : JSNum
  deriving DecidableEq

/-- The `useState` cells of `StudentGrades`. -/
structure State where
  assignments : List StudentAssignment
  loading : Bool
  searchTerm : String
  stats : Stats

/-- `fetchGrades` of `StudentGrades.js`, given the outcome of the awaited GET.
The scores mapped out of the filtered records enter the sum and `Math.max` /
`Math.min` as numbers (`toNumber`).  The sum and the quotient are exact here;
`fetchGradesWith binary64` rounds them as JavaScript does. -/
def fetchGrades (response : Except AxiosError (List StudentAssignment)) (st : State) :
    State × List Effect :=
  let st := { st with loading := true }
  match response with
  | .ok assignmentsData =>
    let completedAssignments :=
      assignmentsData.filter (fun a => a.completed && a.score != none)
    let st := { st with assignments := assignmentsData }
    let st :=
      if completedAssignments.length > 0 then
        let scores := completedAssignments.map (fun a => toNumber a.score)
        let total := reduceSum scores
        { st with stats :=
            { totalCompleted := completedAssignments.length
              averageGrade := JSNum.round (JSNum.div total scores.length)
              highestGrade := mathMax scores
              lowestGrade := mathMin scores } }
      else
        { st with stats :=
            { totalCompleted := 0
              averageGrade := .fin 0
              highestGrade := .fin 0
              lowestGrade := .fin 0 } }
    ({ st with loading := false }, [.axiosGet "/student/assignments"])
  | .error _ =>
    ({ st with loading := false },
      [.axiosGet "/student/assignments", .consoleError "Error fetching grades:",
       .toastError "Failed to load grades"])

/-- `fetchGrades` of `StudentGrades.js` with the results of `sum + score` and
`total / scores.length` passing through the rounding `fl`: `fetchGradesWith
binary64` is the function as JavaScript evaluates it, `fetchGradesWith
JSNum.fin` is `fetchGrades`. -/
def fetchGradesWith (fl : ℚ → JSNum) (response : Except AxiosError (List StudentAssignment))
    (st : State) : State × List Effect :=
  let st := { st with loading := true }
  match response with
  | .ok assignmentsData =>
    let completedAssignments :=
      assignmentsData.filter (fun a => a.completed && a.score != none)
    let st := { st with assignments := assignmentsData }
    let st :=
      if completedAssignments.length > 0 then
        let scores := completedAssignments.map (fun a => toNumber a.score)
        let total := reduceSumWith fl scores
        { st with stats :=
            { totalCompleted := completedAssignments.length
              averageGrade := JSNum.round (JSNum.divWith fl total scores.length)
              highestGrade := mathMax scores
              lowestGrade := mathMin scores } }
      else
        { st with stats :=
            { totalCompleted := 0
              averageGrade := .fin 0
              highestGrade := .fin 0
              lowestGrade := .fin 0 } }
    ({ st with loading := false }, [.axiosGet "/student/assignments"])
  | .error _ =>
    ({ st with loading := false },
      [.axiosGet "/student/assignments", .consoleError "Error fetching grades:",
       .toastError "Failed to load grades"])

end StudentGrades

/-! ## StudentOverview -/

namespace StudentOverview

/-- The `stats` state cell of `StudentOverview`. -/
structure Stats where
  totalAssignments : Nat
  completedAssignments : Nat
  pendingAssignments : Nat
  averageGrade : JSNum
  deriving DecidableEq

/-- The `useState` cells of `StudentOverview`. -/
structure State where
  assignments : List StudentAssignment
  loading : Bool
  stats : Stats

/-- The body of `completed.forEach(...)` in `fetchAssignments`, on the pair
`(totalGrade, gradeCount)`. -/
def addGrade (acc : ℚ × Nat) (assignment : StudentAssignment) : ℚ × Nat :=
  match assignment.score with
  | some score => (acc.1 + score, acc.2 + 1)
  | none => acc

/-- `fetchAssignments` of `StudentOverview.js`, given the outcome of the awaited
GET.  The sum and the quotient are exact here; `fetchAssignmentsWith binary64`
rounds them as JavaScript does. -/
def fetchAssignments (response : Except AxiosError (List StudentAssignment)) (st : State) :
    State × List Effect :=
  let st := { st with loading := true }
  match response with
  | .ok assignmentsData =>
    let st := { st with assignments := assignmentsData }
    let completed := assignmentsData.filter (fun a => a.completed)
    let pending := assignmentsData.filter (fun a => !a.completed)
    let (totalGrade, gradeCount) := completed.foldl addGrade (0, 0)
    let st := { st with stats :=
      { totalAssignments := assignmentsData.length
        completedAssignments := completed.length
        pendingAssignments := pending.length
        averageGrade :=
          if gradeCount > 0 then JSNum.round (JSNum.div totalGrade gradeCount) else .fin 0 } }
    ({ st with loading := false }, [.axiosGet "/student/assignments"])
  | .error _ =>
    ({ st with loading := false },
      [.axiosGet "/student/assignments", .consoleError "Error fetching assignments:",
       .toastError "Failed to load assignments"])

/-- The body of `completed.forEach(...)` in `fetchAssignments`, on the pair
`(totalGrade, gradeCount)`, with the sum passing through the rounding `fl`. -/
def addGradeWith (fl : ℚ → JSNum) (acc : JSNum × Nat) (assignment : StudentAssignment) :
    JSNum × Nat :=
  match assignment.score with
  | some score => (JSNum.addWith fl acc.1 score, acc.2 + 1)
  | none => acc

/-- `fetchAssignments` of `StudentOverview.js` with the results of
`totalGrade += score` and `totalGrade / gradeCount` passing through the rounding
`fl`: `binary64` for JavaScript, `JSNum.fin` for `fetchAssignments`. -/
def fetchAssignmentsWith (fl : ℚ → JSNum)
    (response : Except AxiosError (List StudentAssignment)) (st : State) :
    State × List Effect :=
  let st := { st with loading := true }
  match response with
  | .ok assignmentsData =>
    let st := { st with assignments := assignmentsData }
    let completed := assignmentsData.filter (fun a => a.completed)
    let pending := assignmentsData.filter (fun a => !a.completed)
    let (totalGrade, gradeCount) := completed.foldl (addGradeWith fl) (.fin 0, 0)
    let st := { st with stats :=
      { totalAssignments := assignmentsData.length
        completedAssignments := completed.length
        pendingAssignments := pending.length
        averageGrade :=
          if gradeCount > 0 then JSNum.round (JSNum.divWith fl totalGrade gradeCount)
          else .fin 0 } }
    ({ st with loading := false }, [.axiosGet "/student/assignments"])
  | .error _ =>
    ({ st with loading := false },
      [.axiosGet "/student/assignments", .consoleError "Error fetching assignments:",
       .toastError "Failed to load assignments"])

end StudentOverview

/-! ## Gradebook -/

/-- The `student` field of a gradebook record. -/
structure Student where
  id : String
  first_name : String
  last_name : String
  deriving DecidableEq

/-- One entry of a student's `assignments` in `GET /api/gradebook`. -/
structure GradebookAssignment where
  assignment_title : String
  subject : String
  score : Option ℚ
  submitted_at : Option Int
  deriving DecidableEq

/-- One record of `GET /api/gradebook`. -/
structure StudentRecord where
  student : Student
  assignments : List GradebookAssignment
  deriving DecidableEq

namespace Gradebook

/-- The `stats` state cell of `Gradebook`. -/
structure Stats where
  totalStudents : Nat
  totalSubmissions : Nat
  averageGrade : JSNum
  completionRate : JSNum
  deriving DecidableEq

/-- The `useState` cells of `Gradebook`. -/
structure State where
  gradebook : List StudentRecord
  loading : Bool
  searchTerm : String
  stats : Stats

/-- The three counters `totalSubmissions`, `totalGrades`, `gradeSum` of
`fetchGradebook`. -/
structure Counters where
  totalSubmissions : Nat
  totalGrades : Nat
  gradeSum : ℚ
  deriving DecidableEq

/-- The body of the inner `studentRecord.assignments.forEach(...)`. -/
def countAssignment (c : Counters) (assignment : GradebookAssignment) : Counters :=
  match assignment.score with
  | some score => { c with gradeSum := c.gradeSum + score, totalGrades := c.totalGrades + 1 }
  | none => c

/-- The body of the outer `data.forEach(...)`. -/
def countStudent (c : Counters) (studentRecord : StudentRecord) : Counters :=
  studentRecord.assignments.foldl countAssignment
    { c with totalSubmissions := c.totalSubmissions + studentRecord.assignments.length }

/-- `fetchGradebook` of `Gradebook.js`, given the outcome of the awaited GET.
The sum, the quotients and the product are exact here; `fetchGradebookWith
binary64` rounds them as JavaScript does. -/
def fetchGradebook (response : Except AxiosError (List StudentRecord)) (st : State) :
    State × List Effect :=
  let st := { st with loading := true }
  match response with
  | .ok data =>
    let st := { st with gradebook := data }
    let c := data.foldl countStudent { totalSubmissions := 0, totalGrades := 0, gradeSum := 0 }
    let st := { st with stats :=
      { totalStudents := data.length
        totalSubmissions := c.totalSubmissions
        averageGrade :=
          if c.totalGrades > 0 then JSNum.round (JSNum.div c.gradeSum c.totalGrades) else .fin 0
        completionRate :=
          if c.totalSubmissions > 0 then
            JSNum.round (JSNum.mulFin (JSNum.div c.totalGrades c.totalSubmissions) 100)
          else .fin 0 } }
    ({ st with loading := false }, [.axiosGet "/gradebook"])
  | .error _ =>
    ({ st with loading := false },
      [.axiosGet "/gradebook", .consoleError "Error fetching gradebook:",
       .toastError "Failed to load gradebook"])

/-- `calculateStudentAverage` of `Gradebook.js`.  The sum and the quotient are
exact here; `calculateStudentAverageWith binary64` rounds them as JavaScript
does. -/
def calculateStudentAverage (assignments : List GradebookAssignment) : JSNum :=
  if assignments.length = 0 then .fin 0
  else
    let scores := (assignments.filter (fun a => a.score != none)).map (fun a => toNumber a.score)
    if scores.length = 0 then .fin 0
    else JSNum.round (JSNum.div (reduceSum scores) scores.length)

/-- The three counters of `fetchGradebook`, `gradeSum` being the JavaScript
number that the additions leave in it. -/
structure Accumulators where
  totalSubmissions : Nat
  totalGrades : Nat
  gradeSum : JSNum
  deriving DecidableEq

/-- The body of the inner `studentRecord.assignments.forEach(...)`, with
`gradeSum += assignment.score` passing through the rounding `fl`. -/
def countAssignmentWith (fl : ℚ → JSNum) (c : Accumulators)
    (assignment : GradebookAssignment) : Accumulators :=
  match assignment.score with
  | some score =>
    { c with gradeSum := JSNum.addWith fl c.gradeSum score, totalGrades := c.totalGrades + 1 }
  | none => c

/-- The body of the outer `data.forEach(...)`, with the rounding `fl`. -/
def countStudentWith (fl : ℚ → JSNum) (c : Accumulators) (studentRecord : StudentRecord) :
    Accumulators :=
  studentRecord.assignments.foldl (countAssignmentWith fl)
    { c with totalSubmissions := c.totalSubmissions + studentRecord.assignments.length }

/-- `fetchGradebook` of `Gradebook.js` with the results of `gradeSum += score`,
`gradeSum / totalGrades`, `totalGrades / totalSubmissions` and `... * 100`
passing through the rounding `fl`: `binary64` for JavaScript, `JSNum.fin` for
`fetchGradebook`. -/
def fetchGradebookWith (fl : ℚ → JSNum) (response : Except AxiosError (List StudentRecord))
    (st : State) : State × List Effect :=
  let st := { st with loading := true }
  match response with
  | .ok data =>
    let st := { st with gradebook := data }
    let c := data.foldl (countStudentWith fl)
      { totalSubmissions := 0, totalGrades := 0, gradeSum := .fin 0 }
    let st := { st with stats :=
      { totalStudents := data.length
        totalSubmissions := c.totalSubmissions
        averageGrade :=
          if c.totalGrades > 0 then JSNum.round (JSNum.divWith fl c.gradeSum c.totalGrades)
          else .fin 0
        completionRate :=
          if c.totalSubmissions > 0 then
            JSNum.round (JSNum.mulWith fl
              (JSNum.divWith fl (.fin c.totalGrades) c.totalSubmissions) 100)
          else .fin 0 } }
    ({ st with loading := false }, [.axiosGet "/gradebook"])
  | .error _ =>
    ({ st with loading := false },
      [.axiosGet "/gradebook", .consoleError "Error fetching gradebook:",
       .toastError "Failed to load gradebook"])

/-- `calculateStudentAverage` of `Gradebook.js` with the results of
`sum + score` and `... / scores.length` passing through the rounding `fl`. -/
def calculateStudentAverageWith (fl : ℚ → JSNum) (assignments : List GradebookAssignment) :
    JSNum :=
  if assignments.length = 0 then .fin 0
  else
    let scores := (assignments.filter (fun a => a.score != none)).map (fun a => toNumber a.score)
    if scores.length = 0 then .fin 0
    else JSNum.round (JSNum.divWith fl (reduceSumWith fl scores) scores.length)

end Gradebook

/-! ## StudentAssignments -/

namespace StudentAssignments

/-- The `useState` cells of `StudentAssignments`; `filter` is one of `all`,
`pending`, `completed`. -/
structure State where
  assignments : List StudentAssignment
  loading : Bool
  searchTerm : String
  filter : String

/-- `fetchAssignments` of `StudentAssignments.js`, given the outcome of the
awaited GET. -/
def fetchAssignments (response : Except AxiosError (List StudentAssignment)) (st : State) :
    State × List Effect :=
  let st := { st with loading := true }
  match response with
  | .ok data =>
    ({ st with assignments := data, loading := false }, [.axiosGet "/student/assignments"])
  | .error _ =>
    ({ st with loading := false },
      [.axiosGet "/student/assignments", .consoleError "Error fetching assignments:",
       .toastError "Failed to load assignments"])

/-- The method `String.prototype.toLowerCase`, on the ASCII letters; other
characters are left as they are. -/
def toLowerCase (s : String) : String := String.mk (s.data.map Char.toLower)

/-- The method `String.prototype.includes`: `t` occurs in `s` as a substring. -/
def includes (s t : String) : Bool := decide (t.data <:+: s.data)

/-- The constant `matchesSearch` of the filter callback. -/
def matchesSearch (searchTerm : String) (assignment : StudentAssignment) : Bool :=
  includes (toLowerCase assignment.assignment.title) (toLowerCase searchTerm) ||
  includes (toLowerCase assignment.assignment.subject) (toLowerCase searchTerm) ||
  includes (toLowerCase assignment.assignment.topic) (toLowerCase searchTerm)

/-- The comparator passed to `sort`: pending before completed, then the later
`assigned_at` first (`new Date(b.assigned_at) - new Date(a.assigned_at)`). -/
def compareAssignments (a b : StudentAssignment) : Int :=
  if !a.completed && b.completed then -1
  else if a.completed && !b.completed then 1
  else b.assigned_at - a.assigned_at

/-- The constant `filteredAssignments` of `StudentAssignments.js`: the filter,
then the (stable) `sort`, in which `a` is put before `b` when the comparator is
not positive. -/
def filteredAssignments (st : State) : List StudentAssignment :=
  (st.assignments.filter (fun assignment =>
    if st.filter = "pending" then
      matchesSearch st.searchTerm assignment && !assignment.completed
    else if st.filter = "completed" then
      matchesSearch st.searchTerm assignment && assignment.completed
    else matchesSearch st.searchTerm assignment)).insertionSort
    (fun a b => compareAssignments a b ≤ 0)

end StudentAssignments

/-! ## Overview (teacher) -/

namespace Overview

/-- The `stats` state cell of the teacher `Overview`. -/
structure Stats where
  totalStudents : Nat
  totalAssignments : Nat
  completedAssignments : Nat
  averageGrade : JSNum
  deriving DecidableEq

/-- One entry of `recentActivity`; `timestamp` is the epoch milliseconds that
`new Date(activity.timestamp)` reads. -/
structure Activity where
  id : String
  type : String
  student : String
  assignment : String
  score : Option ℚ
  timestamp : Int
  deriving DecidableEq

/-- The `useState` cells of the teacher `Overview`. -/
structure State where
  stats : Stats
  recentActivity : List Activity
  loading : Bool

/-- The three counters `completedCount`, `totalGrades`, `gradeCount` of
`fetchOverviewData`. -/
structure Counters where
  completedCount : Nat
  totalGrades : ℚ
  gradeCount : Nat
  deriving DecidableEq

/-- The body of the inner `student.assignments.forEach(...)` of the stats loop. -/
def countAssignment (c : Counters) (assignment : GradebookAssignment) : Counters :=
  let c := { c with completedCount := c.completedCount + 1 }
  match assignment.score with
  | some score => { c with totalGrades := c.totalGrades + score, gradeCount := c.gradeCount + 1 }
  | none => c

/-- The body of the outer `gradebook.forEach(...)` of the stats loop. -/
def countStudent (c : Counters) (student : StudentRecord) : Counters :=
  student.assignments.foldl countAssignment c

/-- The body of the inner `forEach` of the activity loop: an entry with a
`submitted_at` is pushed onto `activities`. -/
def pushActivity (student : StudentRecord) (activities : List Activity)
    (assignment : GradebookAssignment) : List Activity :=
  match assignment.submitted_at with
  | some submitted_at =>
    activities ++ [{ id := student.student.id ++ "-" ++ assignment.assignment_title
                     type := "submission"
                     student := student.student.first_name ++ " " ++ student.student.last_name
                     assignment := assignment.assignment_title
                     score := assignment.score
                     timestamp := submitted_at }]
  | none => activities

/-- The body of the outer `gradebook.forEach(...)` of the activity loop. -/
def pushStudent (activities : List Activity) (student : StudentRecord) : List Activity :=
  student.assignments.foldl (pushActivity student) activities

/-- The call `activities.sort((a, b) => new Date(b.timestamp) - new Date(a.timestamp))`:
a stable sort, latest timestamp first. -/
def sortActivities (activities : List Activity) : List Activity :=
  activities.insertionSort (fun a b => b.timestamp ≤ a.timestamp)

/-- `fetchOverviewData` of the teacher `Overview.js`, given the outcomes of the
three awaited GETs; a request is issued only when the one before succeeded.
The sum and the quotient are exact here; `fetchOverviewDataWith binary64` rounds
them as JavaScript does. -/
def fetchOverviewData (studentsResponse : Except AxiosError (List Student))
    (assignmentsResponse : Except AxiosError (List Assignment))
    (gradebookResponse : Except AxiosError (List StudentRecord)) (st : State) :
    State × List Effect :=
  let st := { st with loading := true }
  let failure := [Effect.consoleError "Error fetching overview data:",
    Effect.toastError "Failed to load overview data"]
  match studentsResponse with
  | .error _ => ({ st with loading := false }, .axiosGet "/students" :: failure)
  | .ok students =>
    match assignmentsResponse with
    | .error _ =>
      ({ st with loading := false }, .axiosGet "/students" :: .axiosGet "/assignments" :: failure)
    | .ok assignments =>
      match gradebookResponse with
      | .error _ =>
        ({ st with loading := false },
          .axiosGet "/students" :: .axiosGet "/assignments" :: .axiosGet "/gradebook" :: failure)
      | .ok gradebook =>
        let c := gradebook.foldl countStudent
          { completedCount := 0, totalGrades := 0, gradeCount := 0 }
        let averageGrade :=
          if c.gradeCount > 0 then JSNum.round (JSNum.div c.totalGrades c.gradeCount) else .fin 0
        let st := { st with stats :=
          { totalStudents := students.length
            totalAssignments := assignments.length
            completedAssignments := c.completedCount
            averageGrade := averageGrade } }
        let activities := gradebook.foldl pushStudent []
        let activities := sortActivities activities
        let st := { st with recentActivity := activities.take 5 }
        ({ st with loading := false },
          [.axiosGet "/students", .axiosGet "/assignments", .axiosGet "/gradebook"])

/-- The three counters of `fetchOverviewData`, `totalGrades` being the
JavaScript number that the additions leave in it. -/
structure Accumulators where
  completedCount : Nat
  totalGrades : JSNum
  gradeCount : Nat
  deriving DecidableEq

/-- The body of the inner `forEach` of the stats loop, with
`totalGrades += assignment.score` passing through the rounding `fl`. -/
def countAssignmentWith (fl : ℚ → JSNum) (c : Accumulators)
    (assignment : GradebookAssignment) : Accumulators :=
  let c := { c with completedCount := c.completedCount + 1 }
  match assignment.score with
  | some score =>
    { c with totalGrades := JSNum.addWith fl c.totalGrades score, gradeCount := c.gradeCount + 1 }
  | none => c

/-- The body of the outer `gradebook.forEach(...)` of the stats loop, with the
rounding `fl`. -/
def countStudentWith (fl : ℚ → JSNum) (c : Accumulators) (student : StudentRecord) :
    Accumulators :=
  student.assignments.foldl (countAssignmentWith fl) c

/-- `fetchOverviewData` of the teacher `Overview.js` with the results of
`totalGrades += score` and `totalGrades / gradeCount` passing through the
rounding `fl`: `binary64` for JavaScript, `JSNum.fin` for `fetchOverviewData`. -/
def fetchOverviewDataWith (fl : ℚ → JSNum) (studentsResponse : Except AxiosError (List Student))
    (assignmentsResponse : Except AxiosError (List Assignment))
    (gradebookResponse : Except AxiosError (List StudentRecord)) (st : State) :
    State × List Effect :=
  let st := { st with loading := true }
  let failure := [Effect.consoleError "Error fetching overview data:",
    Effect.toastError "Failed to load overview data"]
  match studentsResponse with
  | .error _ => ({ st with loading := false }, .axiosGet "/students" :: failure)
  | .ok students =>
    match assignmentsResponse with
    | .error _ =>
      ({ st with loading := false }, .axiosGet "/students" :: .axiosGet "/assignments" :: failure)
    | .ok assignments =>
      match gradebookResponse with
      | .error _ =>
        ({ st with loading := false },
          .axiosGet "/students" :: .axiosGet "/assignments" :: .axiosGet "/gradebook" :: failure)
      | .ok gradebook =>
        let c := gradebook.foldl (countStudentWith fl)
          { completedCount := 0, totalGrades := .fin 0, gradeCount := 0 }
        let averageGrade :=
          if c.gradeCount > 0 then JSNum.round (JSNum.divWith fl c.totalGrades c.gradeCount)
          else .fin 0
        let st := { st with stats :=
          { totalStudents := students.length
            totalAssignments := assignments.length
            completedAssignments := c.completedCount
            averageGrade := averageGrade } }
        let activities := gradebook.foldl pushStudent []
        let activities := sortActivities activities
        let st := { st with recentActivity := activities.take 5 }
        ({ st with loading := false },
          [.axiosGet "/students", .axiosGet "/assignments", .axiosGet "/gradebook"])

end Overview

/-! ## Records of the teacher-side endpoints -/

/-- One record of `GET /api/students`. -/
structure StudentAccount where
  id : String
  first_name : String
  last_name : String
  username : String
  created_at : Int
  deriving DecidableEq

/-- One record of `GET /api/assignments`, and the data of a successful
`POST /api/assignments/generate`. -/
structure TeacherAssignment where
  id : String
  title : String
  subject : String
  grade_level : String
  topic : String
  reading_passage : Option String
  questions : List Question
  created_at : Int
  deriving DecidableEq

/-- One record of `GET /api/lesson-plans`, and the data of a successful
`POST /api/lesson-plans/generate`. -/
structure LessonPlan where
  id : String
  title : String
  subject : String
  grade_level : String
  topic : String
  content : String
  created_at : Int
  deriving DecidableEq

/-- The other party of a conversation. -/
structure Contact where
  id : String
  name : String
  type : String
  deriving DecidableEq

/-- One message of `GET /api/messages/{contactId}`. -/
structure Message where
  id : String
  sender_id : String
  content : String
  sent_at : Int
  deriving DecidableEq

/-- One record of `GET /api/messages`. -/
structure Conversation where
  contact : Contact
  last_message : Option Message
  deriving DecidableEq

/-! ## AssignmentGenerator -/

namespace AssignmentGenerator

/-- The `useState` cells of `AssignmentGenerator`. -/
structure State where
  students : List StudentAccount
  assignments : List TeacherAssignment
  loading : Bool
  generating : Bool
  showAssignDialog : Bool
  generatedAssignment : Option TeacherAssignment
  selectedStudents : List String
  formData : FormData

/-- `fetchStudents` of `AssignmentGenerator.js`. -/
def fetchStudents (response : Except AxiosError (List StudentAccount)) (st : State) :
    State × List Effect :=
  match response with
  | .ok data => ({ st with students := data }, [.axiosGet "/students"])
  | .error _ =>
    (st, [.axiosGet "/students", .consoleError "Error fetching students:",
      .toastError "Failed to load students"])

/-- `fetchAssignments` of `AssignmentGenerator.js`. -/
def fetchAssignments (response : Except AxiosError (List TeacherAssignment)) (st : State) :
    State × List Effect :=
  let st := { st with loading := true }
  match response with
  | .ok data => ({ st with assignments := data, loading := false }, [.axiosGet "/assignments"])
  | .error _ =>
    ({ st with loading := false },
      [.axiosGet "/assignments", .consoleError "Error fetching assignments:",
       .toastError "Failed to load assignments"])

/-- `handleGenerate` of `AssignmentGenerator.js`, given the outcome of the
awaited POST. -/
def handleGenerate (response : Except AxiosError TeacherAssignment) (st : State) :
    State × List Effect :=
  if st.formData.subject = "" || st.formData.grade_level = "" ||
      jsTrim st.formData.topic = "" then
    (st, [.toastError "Please fill in all fields"])
  else
    let request := Effect.axiosPostJson "/assignments/generate" (.form st.formData)
    let assignments := st.assignments
    let st := { st with generating := true }
    match response with
    | .ok data =>
      let st := { st with generatedAssignment := some data }
      let st := { st with assignments := data :: assignments }
      let st := { st with showAssignDialog := true }
      ({ st with generating := false },
        [request, .toastSuccess "Assignment generated successfully!"])
    | .error error =>
      ({ st with generating := false },
        [request, .consoleError "Error generating assignment:",
         .toastError (detailOr error "Failed to generate assignment")])

/-- `handleAssignToStudents` of `AssignmentGenerator.js`, given the outcome of
the awaited POST.  Without a generated assignment the read of
`generatedAssignment.id` throws inside the `try`, before any request. -/
def handleAssignToStudents (response : Except AxiosError Unit) (st : State) :
    State × List Effect :=
  if st.selectedStudents.length = 0 then
    (st, [.toastError "Please select at least one student"])
  else
    let failure := [Effect.consoleError "Error assigning assignment:",
      Effect.toastError "Failed to assign assignment"]
    match st.generatedAssignment with
    | none => (st, failure)
    | some generatedAssignment =>
      let request := Effect.axiosPostJson "/assignments/assign"
        (.assign generatedAssignment.id st.selectedStudents)
      match response with
      | .ok _ =>
        ({ st with showAssignDialog := false, selectedStudents := []
                   generatedAssignment := none },
          [request, .toastSuccess ("Assignment assigned to " ++
            toString st.selectedStudents.length ++ " student(s)")])
      | .error _ => (st, request :: failure)

/-- The updater that `handleStudentToggle` passes to `setSelectedStudents`. -/
def toggleStudent (studentId : String) (prev : List String) : List String :=
  if prev.contains studentId then prev.filter (fun id => id != studentId)
  else prev ++ [studentId]

/-- `handleStudentToggle` of `AssignmentGenerator.js`. -/
def handleStudentToggle (studentId : String) (st : State) : State :=
  { st with selectedStudents := toggleStudent studentId st.selectedStudents }

end AssignmentGenerator

/-! ## LessonPlanGenerator -/

namespace LessonPlanGenerator

/-- The `useState` cells of `LessonPlanGenerator`. -/
structure State where
  lessonPlans : List LessonPlan
  loading : Bool
  generating : Bool
  expandedPlan : Option String
  formData : FormData

/-- `fetchLessonPlans` of `LessonPlanGenerator.js`. -/
def fetchLessonPlans (response : Except AxiosError (List LessonPlan)) (st : State) :
    State × List Effect :=
  let st := { st with loading := true }
  match response with
  | .ok data => ({ st with lessonPlans := data, loading := false }, [.axiosGet "/lesson-plans"])
  | .error _ =>
    ({ st with loading := false },
      [.axiosGet "/lesson-plans", .consoleError "Error fetching lesson plans:",
       .toastError "Failed to load lesson plans"])

/-- `handleGenerate` of `LessonPlanGenerator.js`, given the outcome of the
awaited POST. -/
def handleGenerate (response : Except AxiosError LessonPlan) (st : State) :
    State × List Effect :=
  if st.formData.subject = "" || st.formData.grade_level = "" ||
      jsTrim st.formData.topic = "" then
    (st, [.toastError "Please fill in all fields"])
  else
    let request := Effect.axiosPostJson "/lesson-plans/generate" (.form st.formData)
    let lessonPlans := st.lessonPlans
    let st := { st with generating := true }
    match response with
    | .ok data =>
      let st := { st with lessonPlans := data :: lessonPlans }
      let st := { st with expandedPlan := some data.id }
      let st := { st with formData := { subject := "", grade_level := "", topic := "" } }
      ({ st with generating := false },
        [request, .toastSuccess "Lesson plan generated successfully!"])
    | .error error =>
      ({ st with generating := false },
        [request, .consoleError "Error generating lesson plan:",
         .toastError (detailOr error "Failed to generate lesson plan")])

end LessonPlanGenerator

/-! ## StudentManagement -/

namespace StudentManagement

/-- The `useState` cells of `StudentManagement`. -/
structure State where
  students : List StudentAccount
  loading : Bool
  searchTerm : String
  showAddDialog : Bool
  showPassword : Bool
  newStudent : NewStudent

/-- `fetchStudents` of `StudentManagement.js`. -/
def fetchStudents (response : Except AxiosError (List StudentAccount)) (st : State) :
    State × List Effect :=
  let st := { st with loading := true }
  match response with
  | .ok data => ({ st with students := data, loading := false }, [.axiosGet "/students"])
  | .error _ =>
    ({ st with loading := false },
      [.axiosGet "/students", .consoleError "Error fetching students:",
       .toastError "Failed to load students"])

/-- `handleAddStudent` of `StudentManagement.js`, given the outcome of the
awaited POST. -/
def handleAddStudent (response : Except AxiosError StudentAccount) (st : State) :
    State × List Effect :=
  let request := Effect.axiosPostJson "/students" (.student st.newStudent)
  match response with
  | .ok data =>
    ({ st with students := st.students ++ [data]
               newStudent := { first_name := "", last_name := "", username := "", password := "" }
               showAddDialog := false },
      [request, .toastSuccess "Student added successfully!"])
  | .error error =>
    (st, [request, .consoleError "Error adding student:",
      .toastError (detailOr error "Failed to add student")])

/-- `handleDeleteStudent` of `StudentManagement.js`, given the answer to the
`confirm` dialog and the outcome of the awaited DELETE. -/
def handleDeleteStudent (studentId : String) (confirmed : Bool)
    (response : Except AxiosError Unit) (st : State) : State × List Effect :=
  let dialog := Effect.confirm
    "Are you sure you want to delete this student? This action cannot be undone."
  if !confirmed then (st, [dialog])
  else
    let request := Effect.axiosDelete ("/students/" ++ studentId)
    match response with
    | .ok _ =>
      ({ st with students := st.students.filter (fun student => student.id != studentId) },
        [dialog, request, .toastSuccess "Student deleted successfully"])
    | .error _ =>
      (st, [dialog, request, .consoleError "Error deleting student:",
        .toastError "Failed to delete student"])

end StudentManagement

/-! ## Messaging (teacher) -/

namespace Messaging

/-- The `useState` cells of the teacher `Messaging`. -/
structure State where
  conversations : List Conversation
  activeConversation : Option Conversation
  messages : List Message
  newMessage : String
  loading : Bool
  searchTerm : String

/-- `fetchConversations` of `Messaging.js`. -/
def fetchConversations (response : Except AxiosError (List Conversation)) (st : State) :
    State × List Effect :=
  let st := { st with loading := true }
  match response with
  | .ok data => ({ st with conversations := data, loading := false }, [.axiosGet "/messages"])
  | .error _ =>
    ({ st with loading := false },
      [.axiosGet "/messages", .consoleError "Error fetching conversations:",
       .toastError "Failed to load conversations"])

/-- `fetchMessages` of `Messaging.js`. -/
def fetchMessages (contactId : String) (response : Except AxiosError (List Message))
    (st : State) : State × List Effect :=
  match response with
  | .ok data => ({ st with messages := data }, [.axiosGet ("/messages/" ++ contactId)])
  | .error _ =>
    (st, [.axiosGet ("/messages/" ++ contactId), .consoleError "Error fetching messages:",
      .toastError "Failed to load messages"])

/-- `sendMessage` of `Messaging.js`, given the outcome of the awaited POST and of
the two refreshes it starts (without awaiting them) after a success; the
refreshes write different state cells, and are run here in the order they are
started. -/
def sendMessage (postResponse : Except AxiosError Unit)
    (messagesResponse : Except AxiosError (List Message))
    (conversationsResponse : Except AxiosError (List Conversation)) (st : State) :
    State × List Effect :=
  match st.activeConversation with
  | none => (st, [])
  | some activeConversation =>
    if jsTrim st.newMessage = "" then (st, [])
    else
      let request := Effect.axiosPostJson "/messages"
        (.message activeConversation.contact.id (jsTrim st.newMessage))
      match postResponse with
      | .ok _ =>
        let st := { st with newMessage := "" }
        let (st, messages) := fetchMessages activeConversation.contact.id messagesResponse st
        let (st, conversations) := fetchConversations conversationsResponse st
        (st, request :: (messages ++ conversations))
      | .error _ =>
        (st, [request, .consoleError "Error sending message:",
          .toastError "Failed to send message"])

end Messaging

/-! ## StudentMessages -/

namespace StudentMessages

/-- The `useState` cells of `StudentMessages`. -/
structure State where
  conversations : List Conversation
  messages : List Message
  newMessage : String
  loading : Bool
  teacher : Option Contact

/-- `fetchConversations` of `StudentMessages.js`. -/
def fetchConversations (response : Except AxiosError (List Conversation)) (st : State) :
    State × List Effect :=
  let st := { st with loading := true }
  match response with
  | .ok conversationsData =>
    let st := { st with conversations := conversationsData }
    let st :=
      match conversationsData with
      | first :: _ => { st with teacher := some first.contact }
      | [] => st
    ({ st with loading := false }, [.axiosGet "/messages"])
  | .error _ =>
    ({ st with loading := false },
      [.axiosGet "/messages", .consoleError "Error fetching conversations:",
       .toastError "Failed to load conversations"])

/-- `fetchMessages` of `StudentMessages.js`. -/
def fetchMessages (teacherId : String) (response : Except AxiosError (List Message))
    (st : State) : State × List Effect :=
  match response with
  | .ok data => ({ st with messages := data }, [.axiosGet ("/messages/" ++ teacherId)])
  | .error _ =>
    (st, [.axiosGet ("/messages/" ++ teacherId), .consoleError "Error fetching messages:",
      .toastError "Failed to load messages"])

/-- `sendMessage` of `StudentMessages.js`, given the outcome of the awaited POST
and of the two refreshes it starts after a success, run here in the order they
are started. -/
def sendMessage (postResponse : Except AxiosError Unit)
    (messagesResponse : Except AxiosError (List Message))
    (conversationsResponse : Except AxiosError (List Conversation)) (st : State) :
    State × List Effect :=
  match st.teacher with
  | none => (st, [])
  | some teacher =>
    if jsTrim st.newMessage = "" then (st, [])
    else
      let request := Effect.axiosPostJson "/messages"
        (.message teacher.id (jsTrim st.newMessage))
      match postResponse with
      | .ok _ =>
        let st := { st with newMessage := "" }
        let (st, messages) := fetchMessages teacher.id messagesResponse st
        let (st, conversations) := fetchConversations conversationsResponse st
        (st, request :: (messages ++ conversations))
      | .error _ =>
        (st, [request, .consoleError "Error sending message:",
          .toastError "Failed to send message"])

end StudentMessages

/-! ## The Average Grade card -/

/-- The text of the Average Grade card of `StudentGrades`:
`stats.averageGrade > 0 ? (averageGrade + '%') : 'N/A'`. -/
def StudentGrades.averageGradeText (stats : StudentGrades.Stats) : String :=
  if stats.averageGrade.gt (.fin 0) then roundedText stats.averageGrade ++ "%" else "N/A"

/-- The value of the Average Grade entry of `statCards` in `StudentOverview`:
`stats.averageGrade > 0 ? (averageGrade + '%') : 'N/A'`. -/
def StudentOverview.averageGradeText (stats : StudentOverview.Stats) : String :=
  if stats.averageGrade.gt (.fin 0) then roundedText stats.averageGrade ++ "%" else "N/A"

/-! ## Vocabulary of the notifications -/

/-- The texts of the error notifications among the effects of a handler, in
order. -/
def errorToasts (effects : List Effect) : List String :=
  effects.filterMap (fun effect =>
    match effect with
    | .toastError message => some message
    | _ => none)

/-- The paths of the GET requests among the effects of a handler, in order. -/
def getRequests (effects : List Effect) : List String :=
  effects.filterMap (fun effect =>
    match effect with
    | .axiosGet path => some path
    | _ => none)

/-! ## Vocabulary of the grade bands -/

/-- The place of a letter in the ordering F < D < C < B < A. -/
def gradeRank (letter : String) : Nat :=
  if letter = "A" then 4
  else if letter = "B" then 3
  else if letter = "C" then 2
  else if letter = "D" then 1
  else 0

/-- The five colours of the severity scale, best first. -/
def tierColours : List String := ["green", "blue", "yellow", "orange", "red"]

/-- The text class `getGradeColor` returns for a colour. -/
def textClass (colour : String) : String := "text-" ++ colour ++ "-400"

/-- The badge class `getGradeBadge` returns for a colour. -/
def badgeClass (colour : String) : String :=
  "bg-" ++ colour ++ "-500/20 text-" ++ colour ++ "-400 border-" ++ colour ++ "-500/30"

/-- A score just below a band edge: in `[k - 1/2, k)` for one of the thresholds
`k` = 60, 70, 80, 90, so that it rounds up to `k` or above while it is below `k`. -/
def nearThreshold (s : ℚ) : Prop :=
  ∃ k ∈ ([60, 70, 80, 90] : List ℚ), k - 1 / 2 ≤ s ∧ s < k

/-! ## Vocabulary of the recent activity -/

/-- The activity of a gradebook entry that has a `submitted_at`; none for an
entry without one. -/
def submissionActivity (student : StudentRecord) (assignment : GradebookAssignment) :
    Option Overview.Activity :=
  assignment.submitted_at.map (fun submitted_at =>
    { id := student.student.id ++ "-" ++ assignment.assignment_title
      type := "submission"
      student := student.student.first_name ++ " " ++ student.student.last_name
      assignment := assignment.assignment_title
      score := assignment.score
      timestamp := submitted_at })

/-- The submissions of a gradebook: the activities of all entries that have a
`submitted_at`, student by student. -/
def submissions (gradebook : List StudentRecord) : List Overview.Activity :=
  gradebook.flatMap (fun student => student.assignments.filterMap (submissionActivity student))

/-! ## Vocabulary of the answer collector -/

/-- The value of the last call of a sequence that names question `q`, if any. -/
def lastAnswer (calls : List (Int × Int)) (q : Int) : Option Int :=
  (calls.reverse.find? (fun call => call.1 == q)).map Prod.snd

/-! ## Vocabulary of the aggregations -/

/-- The scores of the records of a student's list that are completed and have a
non-null score, in the order of the list. -/
def scoredScores (data : List StudentAssignment) : List ℚ :=
  data.filterMap (fun a => if a.completed then a.score else none)

/-- The non-null scores of a list of gradebook entries, in order. -/
def gradebookScores (assignments : List GradebookAssignment) : List ℚ :=
  assignments.filterMap (fun a => a.score)

/-- The arithmetic mean of a list of rationals. -/
def mean (xs : List ℚ) : ℚ := xs.sum / xs.length

/-- The mean of a list of scores rounded to the nearest integer (a tie going
up), or 0 for the empty list. -/
def roundedMean (xs : List ℚ) : JSNum :=
  if xs = [] then .fin 0 else .fin ((round (mean xs) : ℤ) : ℚ)

/-- The guarded rounded quotient that every component computes from a list of
scores, with the sum and the quotient passing through the rounding `fl`: 0 for
the empty list. -/
def roundedMeanWith (fl : ℚ → JSNum) (xs : List ℚ) : JSNum :=
  if xs = [] then .fin 0 else JSNum.round (JSNum.divWith fl (reduceSumWith fl xs) xs.length)

/-- Scores that binary64 adds up without error: whole numbers whose absolute
values sum to less than `2 ^ 52`, fewer than `2 ^ 52` of them. -/
def wholeScores (xs : List ℚ) : Prop :=
  (∀ x ∈ xs, x.den = 1) ∧ (xs.map abs).sum < 2 ^ 52 ∧ xs.length < 2 ^ 52

/-! ## Sample data -/

/-- A question used in the examples. -/
def sampleQuestion : Question :=
  { question := "2 + 2 = ?", options := ["3", "4", "5"], correct_answer := 1 }

/-- A pending student-assignment record with three questions. -/
def sampleRecord : StudentAssignment :=
  { student_assignment_id := "sa-1"
    assignment :=
      { title := "Sums", subject := "Math", grade_level := "3rd Grade", topic := "Addition"
        reading_passage := none
        questions := [sampleQuestion, sampleQuestion, sampleQuestion] }
    completed := false
    score := none
    submitted_at := none
    assigned_at := 0 }

/-- An `AssignmentView` showing `sampleRecord` with the given answers. -/
def sampleView (answers : AnswerMap) : AssignmentView.State :=
  { assignment := some sampleRecord, answers := answers, loading := false, submitting := false }

/-- A copy of the sample record with the given id, completion flag and score. -/
def gradedRecord (id : String) (completed : Bool) (score : Option ℚ) : StudentAssignment :=
  { sampleRecord with student_assignment_id := id, completed := completed, score := score }

/-- A fetched list: three completed records scored 100, 80 and 60, a pending
record, a pending record that carries a score, and a completed record whose
score is `null`. -/
def sampleGrades : List StudentAssignment :=
  [gradedRecord "g-1" true (some 100), gradedRecord "g-2" false none,
   gradedRecord "g-3" true (some 80), gradedRecord "g-4" false (some 10),
   gradedRecord "g-5" true none, gradedRecord "g-6" true (some 60)]

/-- The initial state of `StudentGrades`. -/
def initialGrades : StudentGrades.State :=
  { assignments := [], loading := true, searchTerm := ""
    stats := { totalCompleted := 0, averageGrade := .fin 0, highestGrade := .fin 0,
               lowestGrade := .fin 0 } }

/-- The initial state of `StudentOverview`. -/
def initialOverview : StudentOverview.State :=
  { assignments := [], loading := true
    stats := { totalAssignments := 0, completedAssignments := 0, pendingAssignments := 0,
               averageGrade := .fin 0 } }

/-- The initial state of `Gradebook`. -/
def initialGradebook : Gradebook.State :=
  { gradebook := [], loading := true, searchTerm := ""
    stats := { totalStudents := 0, totalSubmissions := 0, averageGrade := .fin 0,
               completionRate := .fin 0 } }

/-- A gradebook entry that has not been graded. -/
def ungradedEntry : GradebookAssignment :=
  { assignment_title := "Sums", subject := "Math", score := none, submitted_at := none }

/-- A gradebook of one student with two entries, neither of them graded. -/
def ungradedGradebook : List StudentRecord :=
  [{ student := { id := "s-1", first_name := "Ada", last_name := "Byron" }
     assignments := [ungradedEntry, ungradedEntry] }]

/-- A graded gradebook entry with the given score. -/
def gradedEntry (score : ℚ) : GradebookAssignment :=
  { assignment_title := "Sums", subject := "Math", score := some score, submitted_at := some 0 }

/-- The completed records of a student as the gradebook lists them: scores 100,
80, 60 and one entry without a score. -/
def sampleEntries : List GradebookAssignment :=
  [gradedEntry 100, gradedEntry 80, ungradedEntry, gradedEntry 60]

/-- The same four records as the student's own list has them, all completed. -/
def sampleCompleted : List StudentAssignment :=
  [gradedRecord "g-1" true (some 100), gradedRecord "g-3" true (some 80),
   gradedRecord "g-5" true none, gradedRecord "g-6" true (some 60)]

/-- A gradebook of two students: one with the four sample entries, one with a
single entry scored 90. -/
def sampleGradebook : List StudentRecord :=
  [{ student := { id := "s-1", first_name := "Ada", last_name := "Byron" }
     assignments := sampleEntries },
   { student := { id := "s-2", first_name := "Alan", last_name := "Turing" }
     assignments := [gradedEntry 90] }]

/-- The initial state of the teacher `Overview`. -/
def initialTeacherOverview : Overview.State :=
  { stats := { totalStudents := 0, totalAssignments := 0, completedAssignments := 0,
               averageGrade := .fin 0 }
    recentActivity := [], loading := true }

/-- A `StudentAssignments` view that already shows the sample list. -/
def loadedAssignments : StudentAssignments.State :=
  { assignments := sampleGrades, loading := false, searchTerm := "", filter := "all" }

/-- The sample view with all three questions answered: `{0: 1, 1: 0, 2: 2}`. -/
def answeredView : AssignmentView.State :=
  sampleView (((AnswerMap.empty.set 0 1).set 1 0).set 2 2)

/-- The sample record as the backend returns it after grading. -/
def submittedRecord : StudentAssignment :=
  { sampleRecord with completed := true, score := some (200 / 3), submitted_at := some 1000 }

/-- A pending student-assignment record with two questions. -/
def twoQuestionRecord : StudentAssignment :=
  { sampleRecord with
    student_assignment_id := "sa-2"
    assignment := { sampleRecord.assignment with questions := [sampleQuestion, sampleQuestion] } }

/-- An `AssignmentView` on the two-question record whose answers are the sparse
mapping `{0: 1, 5: 0}`. -/
def sparseView : AssignmentView.State :=
  { assignment := some twoQuestionRecord, answers := (AnswerMap.empty.set 0 1).set 5 0
    loading := false, submitting := false }

/-- An `AssignmentGenerator` with the students `s-1` and `s-2` selected. -/
def sampleGenerator : AssignmentGenerator.State :=
  { students := [], assignments := [], loading := false, generating := false
    showAssignDialog := true, generatedAssignment := none
    selectedStudents := ["s-1", "s-2"]
    formData := { subject := "Math", grade_level := "3rd Grade", topic := "Addition" } }

/-- A fetched list whose only record is completed with the score 0. -/
def zeroGrades : List StudentAssignment := [gradedRecord "z-1" true (some 0)]

/-- A copy of the sample record with the given id, completion flag and
`assigned_at`. -/
def datedRecord (id : String) (completed : Bool) (assigned_at : Int) : StudentAssignment :=
  { sampleRecord with student_assignment_id := id, completed := completed
                      assigned_at := assigned_at }

/-- A `StudentAssignments` view of four records: completed at 30, pending at 10,
completed at 40, pending at 20; no search term, filter `all`. -/
def datedAssignments : StudentAssignments.State :=
  { assignments := [datedRecord "d-1" true 30, datedRecord "d-2" false 10,
                    datedRecord "d-3" true 40, datedRecord "d-4" false 20]
    loading := false, searchTerm := "", filter := "all" }

/-- A gradebook entry submitted at the given time. -/
def submittedEntry (title : String) (submitted_at : Int) : GradebookAssignment :=
  { assignment_title := title, subject := "Math", score := some 70
    submitted_at := some submitted_at }

/-- A gradebook of two students with seven entries, six of them submitted, at
the times 10, 60, 30 and 50, 20, 40. -/
def activeGradebook : List StudentRecord :=
  [{ student := { id := "s-1", first_name := "Ada", last_name := "Byron" }
     assignments := [submittedEntry "a" 10, submittedEntry "b" 60, ungradedEntry,
                     submittedEntry "c" 30] },
   { student := { id := "s-2", first_name := "Alan", last_name := "Turing" }
     assignments := [submittedEntry "d" 50, submittedEntry "e" 20, submittedEntry "f" 40] }]

/-- A `StudentManagement` with one student and a filled add-student form. -/
def sampleManagement : StudentManagement.State :=
  { students := [{ id := "s-1", first_name := "Ada", last_name := "Byron", username := "ada"
                   created_at := 0 }]
    loading := false, searchTerm := "", showAddDialog := true, showPassword := false
    newStudent := { first_name := "Alan", last_name := "Turing", username := "alan"
                    password := "enigma" } }

/-- The student record that the backend returns for the filled form. -/
def addedStudent : StudentAccount :=
  { id := "s-2", first_name := "Alan", last_name := "Turing", username := "alan"
    created_at := 5 }

/-- A teacher `Messaging` view with an open conversation and a typed message. -/
def sampleMessaging : Messaging.State :=
  { conversations := [{ contact := { id := "s-1", name := "Ada Byron", type := "student" }
                        last_message := none }]
    activeConversation := some { contact := { id := "s-1", name := "Ada Byron", type := "student" }
                                 last_message := none }
    messages := [], newMessage := " Well done! ", loading := false, searchTerm := "" }

/-- The message as the backend lists it after it was sent. -/
def sentMessage : Message :=
  { id := "m-1", sender_id := "t-1", content := "Well done!", sent_at := 100 }

/-- The binary64 number that JavaScript prints as `58.333333333333336`
(the value of `175 / 3`). -/
def scoreSevenOfTwelve : ℚ := 8209686820727467 / 140737488355328

/-- The binary64 number that JavaScript prints as `66.66666666666666`
(the value of `2 / 3 * 100`). -/
def scoreTwoOfThree : ℚ := 2345624805922133 / 35184372088832

/-- A fetched list of two completed records with the two fractional scores. -/
def fractionalGrades : List StudentAssignment :=
  [gradedRecord "f-1" true (some scoreSevenOfTwelve),
   gradedRecord "f-2" true (some scoreTwoOfThree)]

/-- The same two records as the gradebook lists them. -/
def fractionalEntries : List GradebookAssignment :=
  [gradedEntry scoreSevenOfTwelve, gradedEntry scoreTwoOfThree]

/-- A gradebook of two students, each with one of the two fractional scores. -/
def fractionalGradebook : List StudentRecord :=
  [{ student := { id := "s-1", first_name := "Ada", last_name := "Byron" }
     assignments := [gradedEntry scoreSevenOfTwelve] },
   { student := { id := "s-2", first_name := "Alan", last_name := "Turing" }
     assignments := [gradedEntry scoreTwoOfThree] }]

/-- A gradebook of one student with 40 entries, 23 of them graded. -/
def partialGradebook : List StudentRecord :=
  [{ student := { id := "s-1", first_name := "Ada", last_name := "Byron" }
     assignments := List.replicate 23 (gradedEntry 100) ++ List.replicate 17 ungradedEntry }]

/-! ## Theorems -/

/-- The comparison of two finite numbers is the comparison of the rationals. -/
theorem JSNum.ge_fin (a b : ℚ) : (JSNum.fin a).ge (.fin b) = decide (b ≤ a) := rfl

/-- C1: for every numeric score `s`, `getLetterGrade s` is `A` from 90 up, `B`
on `[80, 90)`, `C` on `[70, 80)`, `D` on `[60, 70)` and `F` below 60. -/
theorem C1_getLetterGrade_bands (s : ℚ) :
    (90 ≤ s → AssignmentView.getLetterGrade (.fin s) = "A") ∧
    (80 ≤ s ∧ s < 90 → AssignmentView.getLetterGrade (.fin s) = "B") ∧
    (70 ≤ s ∧ s < 80 → AssignmentView.getLetterGrade (.fin s) = "C") ∧
    (60 ≤ s ∧ s < 70 → AssignmentView.getLetterGrade (.fin s) = "D") ∧
    (s < 60 → AssignmentView.getLetterGrade (.fin s) = "F") := by
  simp only [AssignmentView.getLetterGrade, JSNum.ge_fin, decide_eq_true_eq]
  refine ⟨?_, ?_, ?_, ?_, ?_⟩
  · intro h; simp [h]
  · rintro ⟨h1, h2⟩; simp [h1, not_le.mpr h2]
  · rintro ⟨h1, h2⟩
    have h3 : ¬ (90 : ℚ) ≤ s := by linarith
    simp [h1, not_le.mpr h2, h3]
  · rintro ⟨h1, h2⟩
    have h3 : ¬ (90 : ℚ) ≤ s := by linarith
    have h4 : ¬ (80 : ℚ) ≤ s := by linarith
    simp [h1, not_le.mpr h2, h3, h4]
  · intro h
    have h3 : ¬ (90 : ℚ) ≤ s := by linarith
    have h4 : ¬ (80 : ℚ) ≤ s := by linarith
    have h5 : ¬ (70 : ℚ) ≤ s := by linarith
    simp [not_le.mpr h, h3, h4, h5]

/-- C1 at the band edges: 90, 80, 70 and 60 fall in the upper band, and a score
just below an edge in the lower one. -/
theorem C1_getLetterGrade_bands_witness :
    AssignmentView.getLetterGrade (.fin 90) = "A" ∧
    AssignmentView.getLetterGrade (.fin 80) = "B" ∧
    AssignmentView.getLetterGrade (.fin (159 / 2)) = "C" ∧
    AssignmentView.getLetterGrade (.fin 60) = "D" ∧
    AssignmentView.getLetterGrade (.fin (599 / 10)) = "F" :=
  ⟨(C1_getLetterGrade_bands 90).1 (by norm_num),
   (C1_getLetterGrade_bands 80).2.1 (by norm_num),
   (C1_getLetterGrade_bands (159 / 2)).2.2.1 (by norm_num),
   (C1_getLetterGrade_bands 60).2.2.2.1 (by norm_num),
   (C1_getLetterGrade_bands (599 / 10)).2.2.2.2 (by norm_num)⟩

/-! ### Submission (`AssignmentView.handleSubmit`) -/

/-- C2: with a loaded, not-completed assignment of `N` questions and an answer
mapping of fewer than `N` keys, `handleSubmit` only shows the error
`Please answer all N questions before submitting.`: it sends no request and
leaves every state cell as it was, whatever the backend would have answered. -/
theorem C2_handleSubmit_incomplete (assignmentId : String)
    (postResponse : Except AxiosError SubmitResponse)
    (getResponse : Except AxiosError (List StudentAssignment))
    (st : AssignmentView.State) (assignment : StudentAssignment)
    (hloaded : st.assignment = some assignment)
    (hpending : assignment.completed = false)
    (hfew : st.answers.keys.length < assignment.assignment.questions.length) :
    AssignmentView.handleSubmit assignmentId postResponse getResponse st =
      (st, [Effect.toastError ("Please answer all " ++
        toString assignment.assignment.questions.length ++
        " questions before submitting.")]) := by
  simp [AssignmentView.handleSubmit, hloaded, hpending, hfew]

/-- C2 at `N = 3` with answers `{0: 1, 1: 0}`: the error names 3 questions and
nothing is sent, even though the backend would have accepted. -/
theorem C2_handleSubmit_incomplete_witness :
    AssignmentView.handleSubmit "sa-1" (.ok ⟨100⟩) (.ok [sampleRecord])
        (sampleView ((AnswerMap.empty.set 0 1).set 1 0)) =
      (sampleView ((AnswerMap.empty.set 0 1).set 1 0),
        [Effect.toastError "Please answer all 3 questions before submitting."]) :=
  C2_handleSubmit_incomplete "sa-1" (.ok ⟨100⟩) (.ok [sampleRecord])
    (sampleView ((AnswerMap.empty.set 0 1).set 1 0)) sampleRecord rfl rfl (by decide)

/-- The entry that the fill loop of `handleSubmit` writes at index `i`: the
stored option, or the sentinel `-1`. -/
theorem fillAnswers_eq (answers : AnswerMap) (remaining i : Nat) (answersArray : List Int) :
    AssignmentView.fillAnswers answers remaining i answersArray =
      answersArray ++ (List.range' i remaining).map
        (fun j : Nat => (answers.get (j : Int)).getD (-1)) := by
  induction remaining generalizing i answersArray with
  | zero => simp [AssignmentView.fillAnswers]
  | succ n ih =>
    rw [AssignmentView.fillAnswers, ih, List.range'_succ, List.map_cons, List.append_assoc]
    congr 1
    cases answers.get (i : Int) <;> rfl

/-- The array submitted for `N` questions has length `N`. -/
theorem fillAnswers_length (answers : AnswerMap) (N : Nat) :
    (AssignmentView.fillAnswers answers N 0 []).length = N := by
  simp [fillAnswers_eq]

/-- Entry `i` of the array submitted for `N` questions. -/
theorem fillAnswers_getElem? (answers : AnswerMap) (N i : Nat) (h : i < N) :
    (AssignmentView.fillAnswers answers N 0 [])[i]? =
      some ((answers.get (i : Int)).getD (-1)) := by
  simp [fillAnswers_eq, List.getElem?_map, List.getElem?_range', h]

/-- C3: with a loaded, not-completed assignment of `N` questions and an answer
mapping that passes the completeness check, `handleSubmit` issues exactly one
POST, as its first effect; its `student_assignment_id` is the route's
`assignmentId`, and its `answers` has length `N`, entry `i` being the option
stored for question `i`, or `-1` when the mapping has none. -/
theorem C3_handleSubmit_body (assignmentId : String)
    (postResponse : Except AxiosError SubmitResponse)
    (getResponse : Except AxiosError (List StudentAssignment))
    (st : AssignmentView.State) (assignment : StudentAssignment)
    (hloaded : st.assignment = some assignment)
    (hpending : assignment.completed = false)
    (hall : assignment.assignment.questions.length ≤ st.answers.keys.length) :
    ∃ (body : SubmitBody) (rest : List Effect),
      (AssignmentView.handleSubmit assignmentId postResponse getResponse st).2 =
        Effect.axiosPost "/student/assignments/submit" body :: rest ∧
      (∀ path body', Effect.axiosPost path body' ∉ rest) ∧
      body.student_assignment_id = assignmentId ∧
      body.answers.length = assignment.assignment.questions.length ∧
      ∀ i : Nat, i < assignment.assignment.questions.length →
        body.answers[i]? = some ((st.answers.get (i : Int)).getD (-1)) := by
  refine ⟨⟨assignmentId,
    AssignmentView.fillAnswers st.answers assignment.assignment.questions.length 0 []⟩, ?_⟩
  have hnot : ¬ st.answers.keys.length < assignment.assignment.questions.length :=
    Nat.not_lt.mpr hall
  cases postResponse with
  | error err =>
    refine ⟨[.consoleError "Error submitting assignment:", .toastError
      (match err.detail with
        | some detail => if detail = "" then "Failed to submit assignment" else detail
        | none => "Failed to submit assignment")], ?_, ?_, rfl, fillAnswers_length _ _,
      fun i hi => fillAnswers_getElem? _ _ i hi⟩
    · simp [AssignmentView.handleSubmit, hloaded, hpending, hnot]
    · intro path body' hmem
      simp at hmem
  | ok response =>
    refine ⟨.toastSuccess ("Assignment submitted! Score: " ++
        roundedText (JSNum.round (.fin response.score)) ++ "%") ::
      (AssignmentView.fetchAssignment assignmentId getResponse
        { st with submitting := true }).2, ?_, ?_, rfl, fillAnswers_length _ _,
      fun i hi => fillAnswers_getElem? _ _ i hi⟩
    · simp [AssignmentView.handleSubmit, hloaded, hpending, hnot]
    · intro path body' hmem
      rcases List.mem_cons.mp hmem with h | h
      · cases h
      · unfold AssignmentView.fetchAssignment at h
        cases getResponse with
        | error e => simp at h
        | ok data =>
          simp only at h
          split at h <;> simp at h

/-- C3 at `N = 3` with answers `{0: 1, 1: 0, 2: 2}`: the request carries
`[1, 0, 2]` for `sa-1`. -/
theorem C3_handleSubmit_body_witness :
    (AssignmentView.handleSubmit "sa-1" (.error ⟨none⟩) (.ok [sampleRecord])
        (sampleView (((AnswerMap.empty.set 0 1).set 1 0).set 2 2))).2.head? =
      some (Effect.axiosPost "/student/assignments/submit"
        { student_assignment_id := "sa-1", answers := [1, 0, 2] }) := by
  obtain ⟨body, rest, heff, -, hid, hlen, hget⟩ :=
    C3_handleSubmit_body "sa-1" (.error ⟨none⟩) (.ok [sampleRecord])
      (sampleView (((AnswerMap.empty.set 0 1).set 1 0).set 2 2)) sampleRecord rfl rfl
      (by decide)
  rw [heff]
  obtain ⟨id, answers⟩ := body
  simp only at hid hlen hget
  subst hid
  have h0 := hget 0 (by decide)
  have h1 := hget 1 (by decide)
  have h2 := hget 2 (by decide)
  match answers, hlen, h0, h1, h2 with
  | [a, b, c], _, h0, h1, h2 =>
    simp only [List.getElem?_cons_zero, List.getElem?_cons_succ, Option.some.injEq] at h0 h1 h2
    subst h0 h1 h2
    rfl

/-- C6: when the loaded assignment is completed, and also when none is loaded,
`handleSubmit` does nothing for every answer mapping: no effect at all (so no
request and no success message) and every state cell as it was. -/
theorem C6_handleSubmit_completed_rejected (assignmentId : String)
    (postResponse : Except AxiosError SubmitResponse)
    (getResponse : Except AxiosError (List StudentAssignment))
    (st : AssignmentView.State)
    (hdone : st.assignment = none ∨
      ∃ assignment, st.assignment = some assignment ∧ assignment.completed = true) :
    AssignmentView.handleSubmit assignmentId postResponse getResponse st = (st, []) := by
  rcases hdone with h | ⟨assignment, h, hc⟩
  · simp [AssignmentView.handleSubmit, h]
  · simp [AssignmentView.handleSubmit, h, hc]

/-- C6 on a completed copy of the sample record with all three questions
answered, and on a view without a loaded assignment. -/
theorem C6_handleSubmit_completed_rejected_witness :
    AssignmentView.handleSubmit "sa-1" (.ok ⟨100⟩) (.ok [sampleRecord])
        { sampleView (((AnswerMap.empty.set 0 1).set 1 0).set 2 2) with
          assignment := some { sampleRecord with completed := true, score := some 100 } } =
      ({ sampleView (((AnswerMap.empty.set 0 1).set 1 0).set 2 2) with
          assignment := some { sampleRecord with completed := true, score := some 100 } }, []) ∧
    AssignmentView.handleSubmit "sa-1" (.ok ⟨100⟩) (.ok [sampleRecord])
        { sampleView AnswerMap.empty with assignment := none } =
      ({ sampleView AnswerMap.empty with assignment := none }, []) :=
  ⟨C6_handleSubmit_completed_rejected "sa-1" (.ok ⟨100⟩) (.ok [sampleRecord]) _
      (Or.inr ⟨_, rfl, rfl⟩),
   C6_handleSubmit_completed_rejected "sa-1" (.ok ⟨100⟩) (.ok [sampleRecord]) _ (Or.inl rfl)⟩

/-- C7: on a view whose loaded assignment is completed, selecting any option of
any question changes nothing: the radio groups are rendered disabled, so the
answer mapping (and the whole state) after the attempt is the one before. -/
theorem C7_selectAnswer_completed (questionIndex answerIndex : Int)
    (st : AssignmentView.State) (assignment : StudentAssignment)
    (hloaded : st.assignment = some assignment)
    (hdone : assignment.completed = true) :
    (AssignmentView.selectAnswer questionIndex answerIndex st).answers = st.answers ∧
    AssignmentView.selectAnswer questionIndex answerIndex st = st := by
  simp [AssignmentView.selectAnswer, AssignmentView.radioGroupSelect, hloaded, hdone]

/-- C7 on a completed copy of the sample record: selecting option 2 of question
0 leaves the stored answer 1. -/
theorem C7_selectAnswer_completed_witness :
    (AssignmentView.selectAnswer 0 2
        { sampleView (AnswerMap.empty.set 0 1) with
          assignment := some { sampleRecord with completed := true, score := some 50 } }
      ).answers.get 0 = some 1 := by
  rw [(C7_selectAnswer_completed 0 2
        { sampleView (AnswerMap.empty.set 0 1) with
          assignment := some { sampleRecord with completed := true, score := some 50 } }
        { sampleRecord with completed := true, score := some 50 } rfl rfl).1]
  decide

/-! ### Grade bands -/

/-- C8: for every numeric score `s`, `getGradeColor s` is the green class from
90 up, blue on `[80, 90)`, yellow on `[70, 80)`, orange on `[60, 70)` and red
below 60; the five copies of `getGradeColor` are one and the same function. -/
theorem C8_getGradeColor_bands :
    (∀ s : ℚ,
      (90 ≤ s → AssignmentView.getGradeColor (.fin s) = "text-green-400") ∧
      (80 ≤ s ∧ s < 90 → AssignmentView.getGradeColor (.fin s) = "text-blue-400") ∧
      (70 ≤ s ∧ s < 80 → AssignmentView.getGradeColor (.fin s) = "text-yellow-400") ∧
      (60 ≤ s ∧ s < 70 → AssignmentView.getGradeColor (.fin s) = "text-orange-400") ∧
      (s < 60 → AssignmentView.getGradeColor (.fin s) = "text-red-400")) ∧
    StudentGrades.getGradeColor = AssignmentView.getGradeColor ∧
    StudentAssignments.getGradeColor = AssignmentView.getGradeColor ∧
    StudentOverview.getGradeColor = AssignmentView.getGradeColor ∧
    Gradebook.getGradeColor = AssignmentView.getGradeColor := by
  refine ⟨fun s => ?_, rfl, rfl, rfl, rfl⟩
  simp only [AssignmentView.getGradeColor, JSNum.ge_fin, decide_eq_true_eq]
  refine ⟨?_, ?_, ?_, ?_, ?_⟩
  · intro h; simp [h]
  · rintro ⟨h1, h2⟩; simp [h1, not_le.mpr h2]
  · rintro ⟨h1, h2⟩
    have h3 : ¬ (90 : ℚ) ≤ s := by linarith
    simp [h1, not_le.mpr h2, h3]
  · rintro ⟨h1, h2⟩
    have h3 : ¬ (90 : ℚ) ≤ s := by linarith
    have h4 : ¬ (80 : ℚ) ≤ s := by linarith
    simp [h1, not_le.mpr h2, h3, h4]
  · intro h
    have h3 : ¬ (90 : ℚ) ≤ s := by linarith
    have h4 : ¬ (80 : ℚ) ≤ s := by linarith
    have h5 : ¬ (70 : ℚ) ≤ s := by linarith
    simp [not_le.mpr h, h3, h4, h5]

/-- C8 at one score of each band, read through a different copy each time. -/
theorem C8_getGradeColor_bands_witness :
    AssignmentView.getGradeColor (.fin 90) = "text-green-400" ∧
    StudentGrades.getGradeColor (.fin (899 / 10)) = "text-blue-400" ∧
    StudentAssignments.getGradeColor (.fin 70) = "text-yellow-400" ∧
    StudentOverview.getGradeColor (.fin 60) = "text-orange-400" ∧
    Gradebook.getGradeColor (.fin 0) = "text-red-400" :=
  ⟨(C8_getGradeColor_bands.1 90).1 (by norm_num),
   C8_getGradeColor_bands.2.1 ▸ (C8_getGradeColor_bands.1 (899 / 10)).2.1 (by norm_num),
   C8_getGradeColor_bands.2.2.1 ▸ (C8_getGradeColor_bands.1 70).2.2.1 (by norm_num),
   C8_getGradeColor_bands.2.2.2.1 ▸ (C8_getGradeColor_bands.1 60).2.2.2.1 (by norm_num),
   C8_getGradeColor_bands.2.2.2.2 ▸ (C8_getGradeColor_bands.1 0).2.2.2.2 (by norm_num)⟩

/-- The letter of a finite score, by comparisons of rationals. -/
theorem getLetterGrade_fin (s : ℚ) :
    AssignmentView.getLetterGrade (.fin s) =
      if 90 ≤ s then "A" else if 80 ≤ s then "B" else if 70 ≤ s then "C"
      else if 60 ≤ s then "D" else "F" := by
  simp only [AssignmentView.getLetterGrade, JSNum.ge_fin, decide_eq_true_eq]

/-- The rank of the letter of a finite score, by band. -/
theorem gradeRank_getLetterGrade (s : ℚ) :
    gradeRank (AssignmentView.getLetterGrade (.fin s)) =
      if 90 ≤ s then 4 else if 80 ≤ s then 3 else if 70 ≤ s then 2 else if 60 ≤ s then 1
      else 0 := by
  rw [getLetterGrade_fin]
  split_ifs <;> decide

/-- The letter is monotone in the score. -/
theorem gradeRank_mono (s t : ℚ) (hst : s ≤ t) :
    gradeRank (AssignmentView.getLetterGrade (.fin s)) ≤
      gradeRank (AssignmentView.getLetterGrade (.fin t)) := by
  rw [gradeRank_getLetterGrade, gradeRank_getLetterGrade]
  split_ifs <;> first | omega | (exfalso; linarith)

/-- Two finite scores of the same rank have the same letter. -/
theorem getLetterGrade_eq_of_rank (s u : ℚ)
    (h : gradeRank (AssignmentView.getLetterGrade (.fin u)) =
      gradeRank (AssignmentView.getLetterGrade (.fin s))) :
    AssignmentView.getLetterGrade (.fin u) = AssignmentView.getLetterGrade (.fin s) := by
  rw [gradeRank_getLetterGrade, gradeRank_getLetterGrade] at h
  rw [getLetterGrade_fin, getLetterGrade_fin]
  split_ifs at h ⊢ <;> first | rfl | omega

/-- C9: on `[0, 100]` the letter is one of A, B, C, D, F; each of the five is
attained there; the letter is monotone in the score for the ordering
F < D < C < B < A; hence a band is an interval: between two scores with the
same letter every score has that letter. -/
theorem C9_letter_bands_contiguous :
    (∀ s : ℚ, 0 ≤ s → s ≤ 100 →
      AssignmentView.getLetterGrade (.fin s) ∈ ["A", "B", "C", "D", "F"]) ∧
    (∀ letter ∈ ["A", "B", "C", "D", "F"],
      ∃ s : ℚ, 0 ≤ s ∧ s ≤ 100 ∧ AssignmentView.getLetterGrade (.fin s) = letter) ∧
    (∀ s t : ℚ, s ≤ t →
      gradeRank (AssignmentView.getLetterGrade (.fin s)) ≤
        gradeRank (AssignmentView.getLetterGrade (.fin t))) ∧
    (∀ s u t : ℚ, s ≤ u → u ≤ t →
      AssignmentView.getLetterGrade (.fin s) = AssignmentView.getLetterGrade (.fin t) →
      AssignmentView.getLetterGrade (.fin u) = AssignmentView.getLetterGrade (.fin s)) := by
  refine ⟨?_, ?_, gradeRank_mono, ?_⟩
  · intro s _ _
    rw [getLetterGrade_fin]
    split_ifs <;> decide
  · intro letter hl
    simp only [List.mem_cons, List.mem_singleton, List.not_mem_nil, or_false] at hl
    rcases hl with h | h | h | h | h <;> subst h
    · exact ⟨95, by norm_num, by norm_num, by rw [getLetterGrade_fin]; norm_num⟩
    · exact ⟨85, by norm_num, by norm_num, by rw [getLetterGrade_fin]; norm_num⟩
    · exact ⟨75, by norm_num, by norm_num, by rw [getLetterGrade_fin]; norm_num⟩
    · exact ⟨65, by norm_num, by norm_num, by rw [getLetterGrade_fin]; norm_num⟩
    · exact ⟨30, by norm_num, by norm_num, by rw [getLetterGrade_fin]; norm_num⟩
  · intro s u t hsu hut heq
    apply getLetterGrade_eq_of_rank
    have h1 := gradeRank_mono s u hsu
    have h2 := gradeRank_mono u t hut
    rw [← heq] at h2
    omega

/-- C9 between 81 and 89, which share the letter B: 85 has it too, and 50 ranks
no higher than 85. -/
theorem C9_letter_bands_contiguous_witness :
    AssignmentView.getLetterGrade (.fin 85) = AssignmentView.getLetterGrade (.fin 81) ∧
    gradeRank (AssignmentView.getLetterGrade (.fin 50)) ≤
      gradeRank (AssignmentView.getLetterGrade (.fin 85)) :=
  ⟨C9_letter_bands_contiguous.2.2.2 81 85 89 (by norm_num) (by norm_num)
      (by rw [getLetterGrade_fin, getLetterGrade_fin]; norm_num),
   C9_letter_bands_contiguous.2.2.1 50 85 (by norm_num)⟩

/-- C10: for every score (finite or not) the two copies of `getGradeBadge` agree,
the badge text is the letter of `getLetterGrade`, and one colour of the scale
names the badge class, the class of `getGradeColor` and the inline badge class
of `AssignmentView`. -/
theorem C10_badge_letter_colour_same_band (score : JSNum) :
    StudentGrades.getGradeBadge score = Gradebook.getGradeBadge score ∧
    (StudentGrades.getGradeBadge score).text = AssignmentView.getLetterGrade score ∧
    ∃ colour ∈ tierColours,
      (StudentGrades.getGradeBadge score).class = badgeClass colour ∧
      StudentGrades.getGradeColor score = textClass colour ∧
      Gradebook.getGradeColor score = textClass colour ∧
      AssignmentView.getGradeColor score = textClass colour ∧
      AssignmentView.scoreBadgeClass score = badgeClass colour := by
  simp only [StudentGrades.getGradeBadge, Gradebook.getGradeBadge,
    AssignmentView.getLetterGrade, StudentGrades.getGradeColor, Gradebook.getGradeColor,
    AssignmentView.getGradeColor, AssignmentView.scoreBadgeClass]
  cases score.ge (.fin 90) <;> cases score.ge (.fin 80) <;> cases score.ge (.fin 70) <;>
    cases score.ge (.fin 60) <;> decide

/-! ### Aggregation of scores -/

/-- The accumulation of `reduce` from any start value. -/
theorem foldl_add_eq (xs : List ℚ) (a : ℚ) :
    xs.foldl (fun sum x => sum + x) a = a + xs.sum := by
  induction xs generalizing a with
  | nil => simp
  | cons x xs ih => simp [ih, add_assoc]

/-- The call `reduce((sum, x) => sum + x, 0)` is the sum of the list. -/
theorem reduceSum_eq_sum (xs : List ℚ) : reduceSum xs = xs.sum := by
  simp [reduceSum, foldl_add_eq]

/-- `Math.max` of two finite numbers. -/
theorem max2_fin_fin (a b : ℚ) : JSNum.max2 (.fin a) (.fin b) = .fin (max a b) := rfl

/-- `Math.min` of two finite numbers. -/
theorem min2_fin_fin (a b : ℚ) : JSNum.min2 (.fin a) (.fin b) = .fin (min a b) := rfl

/-- `Math.max` of its start value and a finite number. -/
theorem max2_negInf_fin (b : ℚ) : JSNum.max2 .negInf (.fin b) = .fin b := rfl

/-- `Math.min` of its start value and a finite number. -/
theorem min2_posInf_fin (b : ℚ) : JSNum.min2 .posInf (.fin b) = .fin b := rfl

/-- Once the running maximum is finite it stays finite. -/
theorem foldl_max2_fin (xs : List ℚ) (a : ℚ) :
    xs.foldl (fun acc x => JSNum.max2 acc (.fin x)) (.fin a) = .fin (xs.foldl max a) := by
  induction xs generalizing a with
  | nil => rfl
  | cons x xs ih => rw [List.foldl_cons, max2_fin_fin, ih, List.foldl_cons]

/-- Once the running minimum is finite it stays finite. -/
theorem foldl_min2_fin (xs : List ℚ) (a : ℚ) :
    xs.foldl (fun acc x => JSNum.min2 acc (.fin x)) (.fin a) = .fin (xs.foldl min a) := by
  induction xs generalizing a with
  | nil => rfl
  | cons x xs ih => rw [List.foldl_cons, min2_fin_fin, ih, List.foldl_cons]

/-- The running maximum is an upper bound of its start and of the list, and is
one of them. -/
theorem foldl_max_spec (xs : List ℚ) (a : ℚ) :
    (xs.foldl max a = a ∨ xs.foldl max a ∈ xs) ∧ a ≤ xs.foldl max a ∧
      ∀ x ∈ xs, x ≤ xs.foldl max a := by
  induction xs generalizing a with
  | nil => simp
  | cons y ys ih =>
    obtain ⟨hmem, hge, hall⟩ := ih (max a y)
    refine ⟨?_, le_trans (le_max_left a y) hge, ?_⟩
    · simp only [List.foldl_cons, List.mem_cons]
      rcases hmem with h | h
      · rcases max_choice a y with h' | h'
        · left; rw [h, h']
        · right; left; rw [h, h']
      · right; right; exact h
    · intro x hx
      rcases List.mem_cons.mp hx with h | h
      · subst h; exact le_trans (le_max_right a x) hge
      · exact hall x h

/-- The running minimum is a lower bound of its start and of the list, and is
one of them. -/
theorem foldl_min_spec (xs : List ℚ) (a : ℚ) :
    (xs.foldl min a = a ∨ xs.foldl min a ∈ xs) ∧ xs.foldl min a ≤ a ∧
      ∀ x ∈ xs, xs.foldl min a ≤ x := by
  induction xs generalizing a with
  | nil => simp
  | cons y ys ih =>
    obtain ⟨hmem, hle, hall⟩ := ih (min a y)
    refine ⟨?_, le_trans hle (min_le_left a y), ?_⟩
    · simp only [List.foldl_cons, List.mem_cons]
      rcases hmem with h | h
      · rcases min_choice a y with h' | h'
        · left; rw [h, h']
        · right; left; rw [h, h']
      · right; right; exact h
    · intro x hx
      rcases List.mem_cons.mp hx with h | h
      · subst h; exact le_trans hle (min_le_right a x)
      · exact hall x h

/-- The call `Math.max(...xs)` on a non-empty list is its greatest element. -/
theorem mathMax_spec (xs : List ℚ) (hne : xs ≠ []) :
    ∃ m ∈ xs, mathMax xs = .fin m ∧ ∀ x ∈ xs, x ≤ m := by
  cases xs with
  | nil => exact absurd rfl hne
  | cons a rest =>
    obtain ⟨hmem, hge, hall⟩ := foldl_max_spec rest a
    refine ⟨rest.foldl max a, ?_, ?_, ?_⟩
    · rcases hmem with h | h
      · rw [h]; exact List.mem_cons_self a rest
      · exact List.mem_cons_of_mem a h
    · rw [mathMax, List.foldl_cons, max2_negInf_fin, foldl_max2_fin]
    · intro x hx
      rcases List.mem_cons.mp hx with h | h
      · rw [h]; exact hge
      · exact hall x h

/-- The call `Math.min(...xs)` on a non-empty list is its least element. -/
theorem mathMin_spec (xs : List ℚ) (hne : xs ≠ []) :
    ∃ m ∈ xs, mathMin xs = .fin m ∧ ∀ x ∈ xs, m ≤ x := by
  cases xs with
  | nil => exact absurd rfl hne
  | cons a rest =>
    obtain ⟨hmem, hle, hall⟩ := foldl_min_spec rest a
    refine ⟨rest.foldl min a, ?_, ?_, ?_⟩
    · rcases hmem with h | h
      · rw [h]; exact List.mem_cons_self a rest
      · exact List.mem_cons_of_mem a h
    · rw [mathMin, List.foldl_cons, min2_posInf_fin, foldl_min2_fin]
    · intro x hx
      rcases List.mem_cons.mp hx with h | h
      · rw [h]; exact hle
      · exact hall x h

/-- The rounded quotient by a non-zero count is the rounded mean: no division by
zero takes place. -/
theorem round_div_length (total : ℚ) (n : Nat) (hn : n ≠ 0) :
    JSNum.round (JSNum.div total n) = .fin ((round (total / n) : ℤ) : ℚ) := by
  have hq : (n : ℚ) ≠ 0 := Nat.cast_ne_zero.mpr hn
  simp only [JSNum.div, hq, if_false, JSNum.round, round_eq]

/-- A non-null score converts to itself. -/
theorem toNumber_some (q : ℚ) : toNumber (some q) = q := rfl

/-- The scores that `fetchGrades` maps out of its filtered records are the
scores of the completed records with a non-null score. -/
theorem fetchGrades_scores (data : List StudentAssignment) :
    (data.filter (fun a => a.completed && a.score != none)).map (fun a => toNumber a.score) =
      scoredScores data := by
  induction data with
  | nil => rfl
  | cons a rest ih =>
    unfold scoredScores at ih ⊢
    cases hc : a.completed <;> cases hs : a.score <;>
      simp [List.filter_cons, List.filterMap_cons, hc, hs, ih, toNumber_some]

/-- The stats that `fetchGrades` stores after a successful fetch, in terms of
the scores of the completed records with a non-null score. -/
theorem fetchGrades_stats (data : List StudentAssignment) (st : StudentGrades.State) :
    (StudentGrades.fetchGrades (.ok data) st).1.stats =
      if 0 < (scoredScores data).length then
        { totalCompleted := (scoredScores data).length
          averageGrade :=
            JSNum.round (JSNum.div (scoredScores data).sum (scoredScores data).length)
          highestGrade := mathMax (scoredScores data)
          lowestGrade := mathMin (scoredScores data) }
      else
        { totalCompleted := 0, averageGrade := .fin 0, highestGrade := .fin 0,
          lowestGrade := .fin 0 } := by
  have hlen : (data.filter (fun a => a.completed && a.score != none)).length =
      (scoredScores data).length := by
    rw [← fetchGrades_scores, List.length_map]
  simp only [StudentGrades.fetchGrades, gt_iff_lt, hlen, fetchGrades_scores, reduceSum_eq_sum]
  split <;> rfl

/-- The scored scores of the sample list. -/
theorem scoredScores_sampleGrades : scoredScores sampleGrades = [100, 80, 60] := by
  decide

/-- The loop of `StudentOverview.fetchAssignments` adds the non-null scores to
`totalGrade` and their number to `gradeCount`. -/
theorem foldl_addGrade (l : List StudentAssignment) (acc : ℚ × Nat) :
    l.foldl StudentOverview.addGrade acc =
      (acc.1 + (l.filterMap (fun a => a.score)).sum,
       acc.2 + (l.filterMap (fun a => a.score)).length) := by
  induction l generalizing acc with
  | nil => simp
  | cons a rest ih =>
    rw [List.foldl_cons, ih]
    cases hs : a.score <;>
      simp [StudentOverview.addGrade, List.filterMap_cons, hs, add_assoc, Nat.add_comm]

/-- The non-null scores of the completed records are the scored scores. -/
theorem filterMap_score_completed (data : List StudentAssignment) :
    (data.filter (fun a => a.completed)).filterMap (fun a => a.score) = scoredScores data := by
  induction data with
  | nil => rfl
  | cons a rest ih =>
    unfold scoredScores at ih ⊢
    cases hc : a.completed <;> cases hs : a.score <;>
      simp [List.filter_cons, List.filterMap_cons, hc, hs, ih]

/-- The average that `StudentOverview.fetchAssignments` stores after a successful
fetch, in terms of the scored scores. -/
theorem overview_averageGrade (data : List StudentAssignment) (st : StudentOverview.State) :
    (StudentOverview.fetchAssignments (.ok data) st).1.stats.averageGrade =
      if 0 < (scoredScores data).length then
        JSNum.round (JSNum.div (scoredScores data).sum (scoredScores data).length)
      else .fin 0 := by
  simp only [StudentOverview.fetchAssignments, foldl_addGrade, filterMap_score_completed,
    gt_iff_lt, zero_add]

/-- The inner loop of `fetchGradebook` adds the non-null scores of one student
to `gradeSum` and their number to `totalGrades`. -/
theorem foldl_countAssignment (l : List GradebookAssignment) (c : Gradebook.Counters) :
    l.foldl Gradebook.countAssignment c =
      { totalSubmissions := c.totalSubmissions
        totalGrades := c.totalGrades + (gradebookScores l).length
        gradeSum := c.gradeSum + (gradebookScores l).sum } := by
  induction l generalizing c with
  | nil => simp [gradebookScores]
  | cons a rest ih =>
    rw [List.foldl_cons, ih]
    unfold gradebookScores
    cases hs : a.score <;>
      simp [Gradebook.countAssignment, List.filterMap_cons, hs, add_assoc, Nat.add_comm]

/-- The outer loop of `fetchGradebook` counts every entry of every student and
adds up every non-null score. -/
theorem foldl_countStudent (data : List StudentRecord) (c : Gradebook.Counters) :
    data.foldl Gradebook.countStudent c =
      { totalSubmissions := c.totalSubmissions + (data.flatMap (fun r => r.assignments)).length
        totalGrades :=
          c.totalGrades + (gradebookScores (data.flatMap (fun r => r.assignments))).length
        gradeSum :=
          c.gradeSum + (gradebookScores (data.flatMap (fun r => r.assignments))).sum } := by
  induction data generalizing c with
  | nil => simp [gradebookScores]
  | cons r rest ih =>
    rw [List.foldl_cons, ih, Gradebook.countStudent, foldl_countAssignment]
    simp [gradebookScores, List.flatMap_cons, List.filterMap_append, add_assoc]

/-- The two figures that `fetchGradebook` stores after a successful fetch, in
terms of all entries of all students. -/
theorem fetchGradebook_stats (data : List StudentRecord) (st : Gradebook.State) :
    (Gradebook.fetchGradebook (.ok data) st).1.stats.averageGrade =
      (if 0 < (gradebookScores (data.flatMap (fun r => r.assignments))).length then
        JSNum.round (JSNum.div (gradebookScores (data.flatMap (fun r => r.assignments))).sum
          (gradebookScores (data.flatMap (fun r => r.assignments))).length)
      else .fin 0) ∧
    (Gradebook.fetchGradebook (.ok data) st).1.stats.completionRate =
      (if 0 < (data.flatMap (fun r => r.assignments)).length then
        JSNum.round (JSNum.mulFin
          (JSNum.div (gradebookScores (data.flatMap (fun r => r.assignments))).length
            (data.flatMap (fun r => r.assignments)).length) 100)
      else .fin 0) := by
  simp only [Gradebook.fetchGradebook, foldl_countStudent, gt_iff_lt, zero_add, and_self]

/-- The scores that `calculateStudentAverage` maps out of its filtered entries
are the non-null scores. -/
theorem calculateStudentAverage_scores (l : List GradebookAssignment) :
    (l.filter (fun a => a.score != none)).map (fun a => toNumber a.score) =
      gradebookScores l := by
  induction l with
  | nil => rfl
  | cons a rest ih =>
    unfold gradebookScores at ih ⊢
    cases hs : a.score <;> simp [List.filter_cons, List.filterMap_cons, hs, ih, toNumber_some]

/-- The value of `calculateStudentAverage`, in terms of the non-null scores. -/
theorem calculateStudentAverage_eq (l : List GradebookAssignment) :
    Gradebook.calculateStudentAverage l =
      if (gradebookScores l).length = 0 then .fin 0
      else JSNum.round (JSNum.div (gradebookScores l).sum (gradebookScores l).length) := by
  simp only [Gradebook.calculateStudentAverage, calculateStudentAverage_scores,
    reduceSum_eq_sum]
  by_cases h : l.length = 0
  · have hl : l = [] := List.length_eq_zero.mp h
    subst hl
    simp [gradebookScores]
  · simp only [h, if_false]

/-- Without a completed record that has a score there are no scored scores. -/
theorem scoredScores_eq_nil (data : List StudentAssignment)
    (h : ∀ a ∈ data, a.completed = true → a.score = none) : scoredScores data = [] := by
  rw [scoredScores, List.filterMap_eq_nil_iff]
  intro a ha
  cases hc : a.completed
  · simp
  · simp [h a ha hc]

/-- Without a graded entry there are no non-null scores. -/
theorem gradebookScores_eq_nil (l : List GradebookAssignment)
    (h : ∀ a ∈ l, a.score = none) : gradebookScores l = [] := by
  rw [gradebookScores, List.filterMap_eq_nil_iff]
  exact h

/-- A rounded quotient by a non-zero count is a finite number. -/
theorem round_div_finite (total : ℚ) (n : Nat) (hn : 0 < n) :
    ∃ q : ℚ, JSNum.round (JSNum.div total n) = .fin q :=
  ⟨_, round_div_length total n (Nat.pos_iff_ne_zero.mp hn)⟩

/-- A rounded percentage of a non-zero count is the rounded quotient times 100. -/
theorem round_percent (k n : Nat) (hn : 0 < n) :
    JSNum.round (JSNum.mulFin (JSNum.div k n) 100) =
      .fin ((round ((k : ℚ) / n * 100) : ℤ) : ℚ) := by
  have hq : (n : ℚ) ≠ 0 := Nat.cast_ne_zero.mpr (Nat.pos_iff_ne_zero.mp hn)
  simp only [JSNum.div, hq, if_false, JSNum.mulFin, JSNum.round, round_eq]

/-- C5: without scored records every aggregation yields zero: the four stats of
`StudentGrades.fetchGrades`, the average of `StudentOverview`, the value of
`calculateStudentAverage` (on the empty list and on a list of null scores), the
average and completion rate of `fetchGradebook`.  No division by zero takes
place on any input: each of these averages and rates is always a finite
number. -/
theorem C5_empty_aggregations_zero :
    (∀ (data : List StudentAssignment) (st : StudentGrades.State),
      (∀ a ∈ data, a.completed = true → a.score = none) →
      (StudentGrades.fetchGrades (.ok data) st).1.stats =
        { totalCompleted := 0, averageGrade := .fin 0, highestGrade := .fin 0,
          lowestGrade := .fin 0 }) ∧
    (∀ (data : List StudentAssignment) (st : StudentOverview.State),
      (∀ a ∈ data, a.completed = true → a.score = none) →
      (StudentOverview.fetchAssignments (.ok data) st).1.stats.averageGrade = .fin 0) ∧
    Gradebook.calculateStudentAverage [] = .fin 0 ∧
    (∀ l : List GradebookAssignment, (∀ a ∈ l, a.score = none) →
      Gradebook.calculateStudentAverage l = .fin 0) ∧
    (∀ (data : List StudentRecord) (st : Gradebook.State),
      (∀ r ∈ data, ∀ a ∈ r.assignments, a.score = none) →
      (Gradebook.fetchGradebook (.ok data) st).1.stats.averageGrade = .fin 0 ∧
      (Gradebook.fetchGradebook (.ok data) st).1.stats.completionRate = .fin 0) ∧
    (∀ (data : List StudentAssignment) (st : StudentGrades.State),
      ∃ q : ℚ, (StudentGrades.fetchGrades (.ok data) st).1.stats.averageGrade = .fin q) ∧
    (∀ (data : List StudentAssignment) (st : StudentOverview.State),
      ∃ q : ℚ, (StudentOverview.fetchAssignments (.ok data) st).1.stats.averageGrade = .fin q) ∧
    (∀ l : List GradebookAssignment, ∃ q : ℚ, Gradebook.calculateStudentAverage l = .fin q) ∧
    (∀ (data : List StudentRecord) (st : Gradebook.State),
      ∃ q r : ℚ, (Gradebook.fetchGradebook (.ok data) st).1.stats.averageGrade = .fin q ∧
        (Gradebook.fetchGradebook (.ok data) st).1.stats.completionRate = .fin r) := by
  refine ⟨?_, ?_, rfl, ?_, ?_, ?_, ?_, ?_, ?_⟩
  · intro data st h
    rw [fetchGrades_stats, scoredScores_eq_nil data h]
    rfl
  · intro data st h
    rw [overview_averageGrade, scoredScores_eq_nil data h]
    rfl
  · intro l h
    rw [calculateStudentAverage_eq, gradebookScores_eq_nil l h]
    rfl
  · intro data st h
    have hnil : gradebookScores (data.flatMap (fun r => r.assignments)) = [] := by
      apply gradebookScores_eq_nil
      intro a ha
      obtain ⟨r, hr, har⟩ := List.mem_flatMap.mp ha
      exact h r hr a har
    obtain ⟨havg, hrate⟩ := fetchGradebook_stats data st
    rw [hnil] at havg hrate
    refine ⟨havg, ?_⟩
    rw [hrate]
    split
    · rename_i hpos
      rw [List.length_nil, round_percent 0 _ hpos]
      simp
    · rfl
  · intro data st
    rw [fetchGrades_stats]
    split
    · rename_i hpos
      exact round_div_finite _ _ hpos
    · exact ⟨0, rfl⟩
  · intro data st
    rw [overview_averageGrade]
    split
    · rename_i hpos
      exact round_div_finite _ _ hpos
    · exact ⟨0, rfl⟩
  · intro l
    rw [calculateStudentAverage_eq]
    split
    · exact ⟨0, rfl⟩
    · rename_i hne
      exact round_div_finite _ _ (Nat.pos_of_ne_zero hne)
  · intro data st
    obtain ⟨havg, hrate⟩ := fetchGradebook_stats data st
    rw [havg, hrate]
    have h1 : ∃ q : ℚ, (if 0 < (gradebookScores (data.flatMap (fun r => r.assignments))).length
        then JSNum.round (JSNum.div
          (gradebookScores (data.flatMap (fun r => r.assignments))).sum
          (gradebookScores (data.flatMap (fun r => r.assignments))).length)
        else .fin 0) = .fin q := by
      split
      · rename_i hpos
        exact round_div_finite _ _ hpos
      · exact ⟨0, rfl⟩
    have h2 : ∃ r : ℚ, (if 0 < (data.flatMap (fun r => r.assignments)).length
        then JSNum.round (JSNum.mulFin
          (JSNum.div (gradebookScores (data.flatMap (fun r => r.assignments))).length
            (data.flatMap (fun r => r.assignments)).length) 100)
        else .fin 0) = .fin r := by
      split
      · rename_i hpos
        exact ⟨_, round_percent _ _ hpos⟩
      · exact ⟨0, rfl⟩
    obtain ⟨q, hq⟩ := h1
    obtain ⟨r, hr⟩ := h2
    exact ⟨q, r, hq, hr⟩

/-- C5 on concrete inputs: a student list whose only completed record has a null
score, the empty list, an ungraded entry, and a gradebook of two ungraded
entries (a non-zero number of submissions, none of them graded). -/
theorem C5_empty_aggregations_zero_witness :
    (StudentGrades.fetchGrades (.ok [gradedRecord "g-5" true none, gradedRecord "g-4" false
        (some 10)]) initialGrades).1.stats =
      { totalCompleted := 0, averageGrade := .fin 0, highestGrade := .fin 0,
        lowestGrade := .fin 0 } ∧
    (StudentOverview.fetchAssignments (.ok []) initialOverview).1.stats.averageGrade = .fin 0 ∧
    Gradebook.calculateStudentAverage [ungradedEntry] = .fin 0 ∧
    (Gradebook.fetchGradebook (.ok ungradedGradebook) initialGradebook).1.stats.averageGrade =
      .fin 0 ∧
    (Gradebook.fetchGradebook (.ok ungradedGradebook) initialGradebook).1.stats.completionRate =
      .fin 0 :=
  ⟨C5_empty_aggregations_zero.1 _ initialGrades (by decide),
   C5_empty_aggregations_zero.2.1 [] initialOverview (by decide),
   C5_empty_aggregations_zero.2.2.2.1 [ungradedEntry] (by decide),
   (C5_empty_aggregations_zero.2.2.2.2.1 ungradedGradebook initialGradebook (by decide)).1,
   (C5_empty_aggregations_zero.2.2.2.2.1 ungradedGradebook initialGradebook (by decide)).2⟩

/-- C10 at the score 85: both badges are the blue B badge, and the letter and
the text class are those of the same band. -/
theorem C10_badge_letter_colour_same_band_witness :
    Gradebook.getGradeBadge (.fin 85) =
      { text := "B", «class» := "bg-blue-500/20 text-blue-400 border-blue-500/30" } ∧
    AssignmentView.getLetterGrade (.fin 85) = "B" := by
  obtain ⟨hsame, htext, -⟩ := C10_badge_letter_colour_same_band (.fin 85)
  refine ⟨?_, ?_⟩
  · rw [← hsame]; decide
  · rw [← htext]; decide

/-! ### The answer collector (`AssignmentView.handleAnswerChange`) -/

/-- After `obj[k] = v` the first entry with key `k` is `(k, v)`. -/
theorem setEntry_find_self (l : List (Int × Int)) (k v : Int) :
    (setEntry l k v).find? (fun e => e.1 == k) = some (k, v) := by
  induction l with
  | nil => simp [setEntry]
  | cons e rest ih =>
    obtain ⟨k', v'⟩ := e
    by_cases h : k' = k
    · simp [setEntry, h]
    · simp [setEntry, h, List.find?_cons, ih]

/-- After `obj[k] = v` the lookup of another key is what it was. -/
theorem setEntry_find_ne (l : List (Int × Int)) (k v k' : Int) (hne : k' ≠ k) :
    (setEntry l k v).find? (fun e => e.1 == k') = l.find? (fun e => e.1 == k') := by
  induction l with
  | nil => simp [setEntry, List.find?_cons, hne.symm]
  | cons e rest ih =>
    obtain ⟨k₀, v₀⟩ := e
    by_cases h : k₀ = k
    · subst h
      simp [setEntry, List.find?_cons, hne.symm]
    · by_cases h' : k₀ = k'
      · subst h'
        simp [setEntry, hne, List.find?_cons]
      · simp [setEntry, h, List.find?_cons, h', ih]

/-- The read `{ ...m, [k]: v }[k]` gives `v`. -/
theorem AnswerMap.get_set_self (m : AnswerMap) (k v : Int) : (m.set k v).get k = some v := by
  simp [AnswerMap.get, AnswerMap.set, setEntry_find_self]

/-- The read `{ ...m, [k]: v }[k']` of another key gives `m[k']`. -/
theorem AnswerMap.get_set_ne (m : AnswerMap) (k v k' : Int) (hne : k' ≠ k) :
    (m.set k v).get k' = m.get k' := by
  simp [AnswerMap.get, AnswerMap.set, setEntry_find_ne _ _ _ _ hne]

/-- The keys of `{ ...m, [k]: v }`: those of `m`, with `k` added when new. -/
theorem AnswerMap.keys_set (m : AnswerMap) (k v : Int) :
    (m.set k v).keys = if k ∈ m.keys then m.keys else m.keys ++ [k] :=
  setEntry_keys m.entries k v

/-- A key has an entry exactly when its read is defined. -/
theorem AnswerMap.mem_keys_iff (m : AnswerMap) (k : Int) :
    k ∈ m.keys ↔ ∃ v, m.get k = some v := by
  obtain ⟨entries, nodup⟩ := m
  simp only [AnswerMap.keys, AnswerMap.get]
  clear nodup
  induction entries with
  | nil => simp
  | cons e rest ih =>
    obtain ⟨k₀, v₀⟩ := e
    by_cases h : k₀ = k
    · simp [List.find?_cons, h]
    · have h' : ¬ k = k₀ := fun e => h e.symm
      have hb : (k₀ == k) = false := by simp [h]
      simp only [List.map_cons, List.mem_cons, h', false_or, ih, List.find?_cons, hb]

/-- C11: for every state, question index `q` (any integer, in range or not) and
option index `a`, `handleAnswerChange q a` yields a mapping that reads `a` at
`q`, whatever was stored there, and reads as before at every other index; its
keys are the former keys and `q`; the assignment and the loading and submitting
flags are left as they were. -/
theorem C11_handleAnswerChange_frame (q a : Int) (st : AssignmentView.State) :
    (AssignmentView.handleAnswerChange q a st).answers.get q = some a ∧
    (∀ k : Int, k ≠ q →
      (AssignmentView.handleAnswerChange q a st).answers.get k = st.answers.get k) ∧
    (∀ k : Int, k ∈ (AssignmentView.handleAnswerChange q a st).answers.keys ↔
      k = q ∨ k ∈ st.answers.keys) ∧
    (AssignmentView.handleAnswerChange q a st).assignment = st.assignment ∧
    (AssignmentView.handleAnswerChange q a st).loading = st.loading ∧
    (AssignmentView.handleAnswerChange q a st).submitting = st.submitting := by
  refine ⟨AnswerMap.get_set_self _ _ _, fun k hk => AnswerMap.get_set_ne _ _ _ _ hk, ?_,
    rfl, rfl, rfl⟩
  intro k
  simp only [AssignmentView.handleAnswerChange, AnswerMap.keys_set]
  split
  · rename_i hmem
    constructor
    · exact Or.inr
    · rintro (h | h)
      · rw [h]; exact hmem
      · exact h
  · simp [or_comm]

/-- C11 on the sample view with answers `{0: 1}`: answering question 0 again
overwrites, and answering the out-of-range indices 7 and -1 is accepted and
leaves question 0 alone. -/
theorem C11_handleAnswerChange_frame_witness :
    (AssignmentView.handleAnswerChange 0 2 (sampleView (AnswerMap.empty.set 0 1))).answers.get 0 =
      some 2 ∧
    (AssignmentView.handleAnswerChange 7 0 (sampleView (AnswerMap.empty.set 0 1))).answers.get 7 =
      some 0 ∧
    (AssignmentView.handleAnswerChange (-1) 3
      (sampleView (AnswerMap.empty.set 0 1))).answers.get 0 = some 1 :=
  ⟨(C11_handleAnswerChange_frame 0 2 _).1,
   (C11_handleAnswerChange_frame 7 0 _).1,
   ((C11_handleAnswerChange_frame (-1) 3 (sampleView (AnswerMap.empty.set 0 1))).2.1 0
      (by decide)).trans (by decide)⟩

/-- The answers after a sequence of calls: the entries set one after another. -/
theorem answerAll_answers (calls : List (Int × Int)) (st : AssignmentView.State) :
    (AssignmentView.answerAll calls st).answers =
      calls.foldl (fun m call => m.set call.1 call.2) st.answers := by
  induction calls generalizing st with
  | nil => rfl
  | cons c rest ih =>
    rw [AssignmentView.answerAll, List.foldl_cons, List.foldl_cons]
    exact ih _

/-- The last call that names `q`, for a sequence with one more call in front. -/
theorem lastAnswer_cons (c : Int × Int) (rest : List (Int × Int)) (q : Int) :
    lastAnswer (c :: rest) q =
      (lastAnswer rest q).or (if c.1 = q then some c.2 else none) := by
  simp only [lastAnswer, List.reverse_cons, List.find?_append, List.find?_cons, List.find?_nil]
  cases List.find? (fun call => call.1 == q) rest.reverse with
  | some e => rfl
  | none =>
    by_cases h : c.1 = q
    · simp [h]
    · have hb : (c.1 == q) = false := by simp [h]
      simp [h, hb]

/-- What a sequence of `set` calls reads at `q`: the value of the last call that
names `q`, or the former value when none does. -/
theorem foldl_set_get (calls : List (Int × Int)) (m : AnswerMap) (q : Int) :
    (calls.foldl (fun m call => m.set call.1 call.2) m).get q =
      (lastAnswer calls q).or (m.get q) := by
  induction calls generalizing m with
  | nil => simp [lastAnswer]
  | cons c rest ih =>
    rw [List.foldl_cons, ih, lastAnswer_cons]
    cases lastAnswer rest q with
    | some v => rfl
    | none =>
      by_cases h : c.1 = q
      · subst h
        simp [AnswerMap.get_set_self]
      · have hne : q ≠ c.1 := fun e => h e.symm
        simp [h, AnswerMap.get_set_ne _ _ _ _ hne]

/-- The set of keys of `{ ...m, [k]: v }`. -/
theorem AnswerMap.keys_set_toFinset (m : AnswerMap) (k v : Int) :
    (m.set k v).keys.toFinset = insert k m.keys.toFinset := by
  rw [AnswerMap.keys_set]
  split
  · rename_i hmem
    rw [Finset.insert_eq_of_mem (List.mem_toFinset.mpr hmem)]
  · ext x
    simp [or_comm]

/-- The set of keys after a sequence of `set` calls. -/
theorem foldl_set_keys (calls : List (Int × Int)) (m : AnswerMap) :
    (calls.foldl (fun m call => m.set call.1 call.2) m).keys.toFinset =
      m.keys.toFinset ∪ (calls.map Prod.fst).toFinset := by
  induction calls generalizing m with
  | nil => simp
  | cons c rest ih =>
    rw [List.foldl_cons, ih, AnswerMap.keys_set_toFinset]
    ext x
    simp only [Finset.mem_union, Finset.mem_insert, List.mem_toFinset, List.map_cons,
      List.mem_cons]
    tauto

/-- The number of keys of an answer mapping is the size of its key set. -/
theorem AnswerMap.keys_length (m : AnswerMap) : m.keys.length = m.keys.toFinset.card :=
  (List.toFinset_card_of_nodup m.nodup).symm

/-- C12: starting from the empty mapping, the mapping built by a sequence of
`handleAnswerChange` calls reads, at every index, the value of the last call
that names it, so two sequences with the same last values build mappings that
read alike; two calls on distinct indices commute (same reads, same keys up to
order); of two calls on one index the second wins; the answered count is the
number of distinct indices that occur in the sequence. -/
theorem C12_answers_last_write_wins :
    (∀ (calls : List (Int × Int)) (st : AssignmentView.State) (q : Int),
      st.answers = AnswerMap.empty →
      (AssignmentView.answerAll calls st).answers.get q = lastAnswer calls q) ∧
    (∀ (calls calls' : List (Int × Int)) (st : AssignmentView.State),
      st.answers = AnswerMap.empty →
      (∀ q, lastAnswer calls q = lastAnswer calls' q) →
      ∀ q, (AssignmentView.answerAll calls st).answers.get q =
        (AssignmentView.answerAll calls' st).answers.get q) ∧
    (∀ (st : AssignmentView.State) (q₁ a₁ q₂ a₂ : Int), q₁ ≠ q₂ →
      (∀ k, (AssignmentView.handleAnswerChange q₂ a₂
              (AssignmentView.handleAnswerChange q₁ a₁ st)).answers.get k =
            (AssignmentView.handleAnswerChange q₁ a₁
              (AssignmentView.handleAnswerChange q₂ a₂ st)).answers.get k) ∧
      (AssignmentView.handleAnswerChange q₂ a₂
          (AssignmentView.handleAnswerChange q₁ a₁ st)).answers.keys.Perm
        (AssignmentView.handleAnswerChange q₁ a₁
          (AssignmentView.handleAnswerChange q₂ a₂ st)).answers.keys) ∧
    (∀ (st : AssignmentView.State) (q a₁ a₂ : Int),
      (AssignmentView.handleAnswerChange q a₂
          (AssignmentView.handleAnswerChange q a₁ st)).answers.get q = some a₂ ∧
      (∀ k, (AssignmentView.handleAnswerChange q a₂
              (AssignmentView.handleAnswerChange q a₁ st)).answers.get k =
            (AssignmentView.handleAnswerChange q a₂ st).answers.get k) ∧
      (AssignmentView.handleAnswerChange q a₂
          (AssignmentView.handleAnswerChange q a₁ st)).answers.keys.length =
        (AssignmentView.handleAnswerChange q a₁ st).answers.keys.length) ∧
    (∀ (calls : List (Int × Int)) (st : AssignmentView.State),
      st.answers = AnswerMap.empty →
      (AssignmentView.answerAll calls st).answers.keys.length =
        (calls.map Prod.fst).toFinset.card) := by
  have hread : ∀ (calls : List (Int × Int)) (st : AssignmentView.State) (q : Int),
      st.answers = AnswerMap.empty →
      (AssignmentView.answerAll calls st).answers.get q = lastAnswer calls q := by
    intro calls st q hempty
    rw [answerAll_answers, foldl_set_get, hempty]
    cases lastAnswer calls q <;> rfl
  refine ⟨hread, ?_, ?_, ?_, ?_⟩
  · intro calls calls' st hempty hlast q
    rw [hread calls st q hempty, hread calls' st q hempty, hlast q]
  · intro st q₁ a₁ q₂ a₂ hne
    refine ⟨?_, ?_⟩
    · intro k
      simp only [AssignmentView.handleAnswerChange]
      by_cases h₁ : k = q₁
      · subst h₁
        rw [AnswerMap.get_set_ne _ _ _ _ hne, AnswerMap.get_set_self, AnswerMap.get_set_self]
      · by_cases h₂ : k = q₂
        · subst h₂
          rw [AnswerMap.get_set_self, AnswerMap.get_set_ne _ _ _ _ h₁, AnswerMap.get_set_self]
        · rw [AnswerMap.get_set_ne _ _ _ _ h₂, AnswerMap.get_set_ne _ _ _ _ h₁,
            AnswerMap.get_set_ne _ _ _ _ h₁, AnswerMap.get_set_ne _ _ _ _ h₂]
    · apply List.perm_of_nodup_nodup_toFinset_eq (AnswerMap.nodup _) (AnswerMap.nodup _)
      simp only [AssignmentView.handleAnswerChange]
      have h := fun (m : AnswerMap) (k v : Int) => AnswerMap.keys_set_toFinset m k v
      simp only [AnswerMap.keys] at h
      rw [h, h, h, h, Finset.Insert.comm]
  · intro st q a₁ a₂
    refine ⟨AnswerMap.get_set_self _ _ _, ?_, ?_⟩
    · intro k
      simp only [AssignmentView.handleAnswerChange]
      by_cases h : k = q
      · subst h
        rw [AnswerMap.get_set_self, AnswerMap.get_set_self]
      · rw [AnswerMap.get_set_ne _ _ _ _ h, AnswerMap.get_set_ne _ _ _ _ h,
          AnswerMap.get_set_ne _ _ _ _ h]
    · simp only [AssignmentView.handleAnswerChange]
      rw [AnswerMap.keys_length, AnswerMap.keys_length, AnswerMap.keys_set_toFinset,
        AnswerMap.keys_set_toFinset, Finset.insert_idem]
  · intro calls st hempty
    rw [AnswerMap.keys_length, answerAll_answers, foldl_set_keys, hempty]
    simp [AnswerMap.keys, AnswerMap.empty]

/-- C12 on the calls (0,1), (2,0), (0,3) from the empty mapping: question 0 reads
3, the last value given, and two questions are counted as answered. -/
theorem C12_answers_last_write_wins_witness :
    (AssignmentView.answerAll [(0, 1), (2, 0), (0, 3)] (sampleView AnswerMap.empty)).answers.get 0 =
      some 3 ∧
    (AssignmentView.answerAll [(0, 1), (2, 0), (0, 3)]
      (sampleView AnswerMap.empty)).answers.keys.length = 2 :=
  ⟨(C12_answers_last_write_wins.1 [(0, 1), (2, 0), (0, 3)] (sampleView AnswerMap.empty) 0
      rfl).trans (by decide),
   (C12_answers_last_write_wins.2.2.2.2 [(0, 1), (2, 0), (0, 3)] (sampleView AnswerMap.empty)
      rfl).trans (by decide)⟩

/-! ### One aggregation, several components -/

/-- The guarded rounded quotient that every component computes is the rounded
mean, or 0 for no scores. -/
theorem guarded_average_eq (xs : List ℚ) :
    (if 0 < xs.length then JSNum.round (JSNum.div xs.sum xs.length) else .fin 0) =
      roundedMean xs := by
  unfold roundedMean
  cases xs with
  | nil => rfl
  | cons x rest =>
    rw [if_pos (by simp), if_neg (by simp), round_div_length _ _ (by simp)]
    rfl

/-- The average of `StudentGrades.fetchGrades` is the rounded mean of the scored
scores. -/
theorem grades_averageGrade (data : List StudentAssignment) (st : StudentGrades.State) :
    (StudentGrades.fetchGrades (.ok data) st).1.stats.averageGrade =
      roundedMean (scoredScores data) := by
  rw [fetchGrades_stats, ← guarded_average_eq]
  split <;> rfl

/-- The average of `StudentOverview.fetchAssignments` is the rounded mean of the
scored scores. -/
theorem overview_averageGrade_eq (data : List StudentAssignment) (st : StudentOverview.State) :
    (StudentOverview.fetchAssignments (.ok data) st).1.stats.averageGrade =
      roundedMean (scoredScores data) := by
  rw [overview_averageGrade, guarded_average_eq]

/-- The value of `calculateStudentAverage` is the rounded mean of the non-null
scores. -/
theorem calculateStudentAverage_roundedMean (l : List GradebookAssignment) :
    Gradebook.calculateStudentAverage l = roundedMean (gradebookScores l) := by
  rw [calculateStudentAverage_eq, ← guarded_average_eq]
  cases gradebookScores l with
  | nil => rfl
  | cons x rest => simp

/-- A list of completed records and a list of gradebook entries with the same
scores, record by record, have the same scored scores. -/
theorem scoredScores_eq_gradebookScores (data : List StudentAssignment)
    (l : List GradebookAssignment) (hdone : ∀ a ∈ data, a.completed = true)
    (hsame : data.map (fun a => a.score) = l.map (fun a => a.score)) :
    scoredScores data = gradebookScores l := by
  have h1 : scoredScores data = (data.map (fun a => a.score)).filterMap id := by
    rw [List.filterMap_map, scoredScores]
    apply List.filterMap_congr
    intro a ha
    simp [hdone a ha]
  have h2 : gradebookScores l = (l.map (fun a => a.score)).filterMap id := by
    rw [List.filterMap_map, gradebookScores]
    rfl
  rw [h1, h2, hsame]

/-- The inner stats loop of the teacher `Overview` counts every entry of one
student and adds up the non-null scores. -/
theorem overview_foldl_countAssignment (l : List GradebookAssignment) (c : Overview.Counters) :
    l.foldl Overview.countAssignment c =
      { completedCount := c.completedCount + l.length
        totalGrades := c.totalGrades + (gradebookScores l).sum
        gradeCount := c.gradeCount + (gradebookScores l).length } := by
  induction l generalizing c with
  | nil => simp [gradebookScores]
  | cons a rest ih =>
    rw [List.foldl_cons, ih]
    unfold gradebookScores
    cases hs : a.score <;>
      simp [Overview.countAssignment, List.filterMap_cons, hs, add_assoc, Nat.add_comm]

/-- The outer stats loop of the teacher `Overview` counts every entry of every
student and adds up every non-null score. -/
theorem overview_foldl_countStudent (data : List StudentRecord) (c : Overview.Counters) :
    data.foldl Overview.countStudent c =
      { completedCount := c.completedCount + (data.flatMap (fun r => r.assignments)).length
        totalGrades :=
          c.totalGrades + (gradebookScores (data.flatMap (fun r => r.assignments))).sum
        gradeCount :=
          c.gradeCount + (gradebookScores (data.flatMap (fun r => r.assignments))).length } := by
  induction data generalizing c with
  | nil => simp [gradebookScores]
  | cons r rest ih =>
    rw [List.foldl_cons, ih, Overview.countStudent, overview_foldl_countAssignment]
    simp [gradebookScores, List.flatMap_cons, List.filterMap_append, add_assoc]

/-- The stats that the teacher `Overview` stores when its three fetches succeed. -/
theorem fetchOverviewData_stats (students : List Student) (assignments : List Assignment)
    (gradebook : List StudentRecord) (st : Overview.State) :
    (Overview.fetchOverviewData (.ok students) (.ok assignments) (.ok gradebook) st).1.stats =
      { totalStudents := students.length
        totalAssignments := assignments.length
        completedAssignments := (gradebook.flatMap (fun r => r.assignments)).length
        averageGrade := roundedMean (gradebookScores (gradebook.flatMap (fun r => r.assignments))) }
      := by
  simp only [Overview.fetchOverviewData, overview_foldl_countStudent, gt_iff_lt, zero_add,
    guarded_average_eq]

/-- The number of submissions that `fetchGradebook` stores: all entries of all
students. -/
theorem fetchGradebook_totalSubmissions (data : List StudentRecord) (st : Gradebook.State) :
    (Gradebook.fetchGradebook (.ok data) st).1.stats.totalSubmissions =
      (data.flatMap (fun r => r.assignments)).length := by
  simp only [Gradebook.fetchGradebook, foldl_countStudent, zero_add]

/-- The non-null scores of a list of entries are at most as many as the
entries, and as many when every entry has a score. -/
theorem gradebookScores_length (l : List GradebookAssignment) :
    (gradebookScores l).length ≤ l.length ∧
    ((∀ a ∈ l, a.score ≠ none) → (gradebookScores l).length = l.length) := by
  unfold gradebookScores
  induction l with
  | nil => simp
  | cons a rest ih =>
    obtain ⟨hle, heq⟩ := ih
    cases hs : a.score with
    | none =>
      refine ⟨?_, ?_⟩
      · simp only [List.filterMap_cons, hs, List.length_cons]; omega
      · intro h
        exact absurd hs (h a (List.mem_cons_self a rest))
    | some q =>
      refine ⟨?_, ?_⟩
      · simp only [List.filterMap_cons, hs, List.length_cons]; omega
      · intro h
        simp only [List.filterMap_cons, hs, List.length_cons]
        rw [heq (fun b hb => h b (List.mem_cons_of_mem a hb))]

/-- A rounded value between 0 and 100 lies between 0 and 100. -/
theorem round_mem_percent (x : ℚ) (h0 : 0 ≤ x) (h100 : x ≤ 100) :
    0 ≤ round x ∧ round x ≤ 100 := by
  rw [round_eq]
  constructor
  · apply Int.floor_nonneg.mpr
    linarith
  · have h : ⌊x + 1 / 2⌋ < 101 := by
      apply Int.floor_lt.mpr
      push_cast
      linarith
    omega

/-! ### Binary64 rounding -/

/-- An integer rounds to itself. -/
theorem roundHalfEven_intCast (n : ℤ) : roundHalfEven (n : ℚ) = n := by
  simp [roundHalfEven]

/-- Rounding to the nearest integer moves a rational by at most one half. -/
theorem abs_roundHalfEven_sub_le (x : ℚ) : |(roundHalfEven x : ℚ) - x| ≤ 1 / 2 := by
  have h1 := Int.floor_le x
  have h2 := Int.lt_floor_add_one x
  unfold roundHalfEven
  split_ifs <;> push_cast <;> rw [abs_le] <;> constructor <;> linarith

/-- An integer closer than one half to a rational is what the rational rounds to. -/
theorem roundHalfEven_eq_of_abs_lt (x : ℚ) (r : ℤ) (h : |x - r| < 1 / 2) :
    roundHalfEven x = r := by
  have hb := abs_roundHalfEven_sub_le x
  rw [abs_lt] at h
  rw [abs_le] at hb
  have h1 : ((roundHalfEven x - r : ℤ) : ℚ) < 1 := by push_cast; linarith
  have h2 : (-1 : ℚ) < ((roundHalfEven x - r : ℤ) : ℚ) := by push_cast; linarith
  have h3 : roundHalfEven x - r < 1 := by exact_mod_cast h1
  have h4 : -1 < roundHalfEven x - r := by exact_mod_cast h2
  omega

/-- A rational halfway between two integers rounds to the even one. -/
theorem roundHalfEven_tie (n : ℤ) :
    roundHalfEven ((n : ℚ) + 1 / 2) = if n % 2 = 0 then n else n + 1 := by
  have hf : ⌊(n : ℚ) + 1 / 2⌋ = n := by
    rw [Int.floor_eq_iff]
    constructor <;> linarith
  unfold roundHalfEven
  rw [hf]
  have h1 : ¬ ((n : ℚ) + 1 / 2 - n < 1 / 2) := by simp
  have h2 : ¬ ((1 : ℚ) / 2 < (n : ℚ) + 1 / 2 - n) := by simp
  rw [if_neg h1, if_neg h2]

/-- The binary exponent of a positive rational, from the binade that holds it. -/
theorem int_log_eq (x : ℚ) (e : ℤ) (hlo : 2 ^ e ≤ x) (hhi : x < 2 ^ (e + 1)) :
    Int.log 2 x = e := by
  have hx : 0 < x := lt_of_lt_of_le (by positivity) hlo
  have h1 : e ≤ Int.log 2 x := by
    rw [← Int.zpow_le_iff_le_log (by norm_num) hx]
    exact_mod_cast hlo
  have h2 : Int.log 2 x < e + 1 := by
    rw [← Int.lt_zpow_iff_log_lt (by norm_num) hx]
    exact_mod_cast hhi
  omega

/-- The spacing exponent of a rational in the binade of exponent `e`, in the
normal range. -/
theorem ulpExponent_eq (x : ℚ) (e : ℤ) (hlo : 2 ^ e ≤ |x|) (hhi : |x| < 2 ^ (e + 1))
    (he : -1022 ≤ e) : ulpExponent x = e - 52 := by
  unfold ulpExponent
  rw [int_log_eq |x| e hlo hhi, max_eq_left he]

/-- The binary64 value of a rational in the binade of exponent `e`, given the
integer its scaled value rounds to, short of overflow. -/
theorem binary64_eq_of (x : ℚ) (e r : ℤ) (hlo : 2 ^ e ≤ |x|) (hhi : |x| < 2 ^ (e + 1))
    (he : -1022 ≤ e) (hr : roundHalfEven (x / 2 ^ (e - 52)) = r)
    (hov : |(r : ℚ) * 2 ^ (e - 52)| < 2 ^ 1024) :
    binary64 x = .fin (r * 2 ^ (e - 52)) := by
  unfold binary64
  simp only [ulpExponent_eq x e hlo hhi he, hr]
  rw [if_neg (not_le.mpr hov)]

/-- Zero is a binary64 number. -/
theorem binary64_zero : binary64 0 = .fin 0 := by
  have h : roundHalfEven (0 : ℚ) = 0 := by
    have := roundHalfEven_intCast 0
    simpa using this
  unfold binary64
  simp [h]

/-- In the normal range, short of the last binade, the binary64 value of a
rational is finite and at most half a spacing away from it. -/
theorem binary64_normal (x : ℚ) (e : ℤ) (hlo : 2 ^ e ≤ |x|) (hhi : |x| < 2 ^ (e + 1))
    (he : -1022 ≤ e) (he' : e ≤ 1022) :
    binary64 x = .fin ((roundHalfEven (x / 2 ^ (e - 52)) : ℚ) * 2 ^ (e - 52)) ∧
    |(roundHalfEven (x / 2 ^ (e - 52)) : ℚ) * 2 ^ (e - 52) - x| ≤ 2 ^ (e - 53) := by
  have hu : (0 : ℚ) < 2 ^ (e - 52) := by positivity
  have hhalf : (2 : ℚ) ^ (e - 52) = 2 ^ (e - 53) * 2 := by
    rw [← zpow_add_one₀ (by norm_num : (2 : ℚ) ≠ 0)]
    congr 1
    ring
  have hr := abs_roundHalfEven_sub_le (x / 2 ^ (e - 52))
  have hdiff : (roundHalfEven (x / 2 ^ (e - 52)) : ℚ) * 2 ^ (e - 52) - x =
      ((roundHalfEven (x / 2 ^ (e - 52)) : ℚ) - x / 2 ^ (e - 52)) * 2 ^ (e - 52) := by
    field_simp
  have hclose : |(roundHalfEven (x / 2 ^ (e - 52)) : ℚ) * 2 ^ (e - 52) - x| ≤ 2 ^ (e - 53) := by
    rw [hdiff, abs_mul, abs_of_pos hu]
    calc |(roundHalfEven (x / 2 ^ (e - 52)) : ℚ) - x / 2 ^ (e - 52)| * 2 ^ (e - 52)
        ≤ 1 / 2 * 2 ^ (e - 52) := mul_le_mul_of_nonneg_right hr hu.le
      _ = 2 ^ (e - 53) := by rw [hhalf]; ring
  refine ⟨binary64_eq_of x e _ hlo hhi he rfl ?_, hclose⟩
  have h1 : (2 : ℚ) ^ (e + 1) ≤ 2 ^ (1023 : ℤ) :=
    zpow_le_zpow_right₀ (by norm_num) (by omega)
  have h2 : (2 : ℚ) ^ (e - 53) ≤ 2 ^ (1023 : ℤ) :=
    zpow_le_zpow_right₀ (by norm_num) (by omega)
  have h3 : (2 : ℚ) ^ (1023 : ℤ) + 2 ^ (1023 : ℤ) = 2 ^ 1024 := by
    rw [show ((1023 : ℤ)) = ((1023 : ℕ) : ℤ) from rfl, zpow_natCast]
    ring
  have h4 := abs_sub_abs_le_abs_sub ((roundHalfEven (x / 2 ^ (e - 52)) : ℚ) * 2 ^ (e - 52)) x
  linarith

/-- In the normal range the relative error of the binary64 value is at most
`2 ^ (-53)`. -/
theorem binary64_rel (x : ℚ) (hlo : 2 ^ (-1022 : ℤ) ≤ |x|) (hhi : |x| < 2 ^ (1023 : ℤ)) :
    ∃ y, binary64 x = .fin y ∧ |y - x| ≤ |x| * 2 ^ (-53 : ℤ) := by
  have hx : 0 < |x| := lt_of_lt_of_le (by positivity) hlo
  have h1 : (2 : ℚ) ^ Int.log 2 |x| ≤ |x| := by
    have := Int.zpow_log_le_self (b := 2) (by norm_num) hx
    exact_mod_cast this
  have h2 : |x| < (2 : ℚ) ^ (Int.log 2 |x| + 1) := by
    have := Int.lt_zpow_succ_log_self (b := 2) (by norm_num) |x|
    exact_mod_cast this
  have h3 : -1022 ≤ Int.log 2 |x| := by
    rw [← Int.zpow_le_iff_le_log (by norm_num) hx]
    exact_mod_cast hlo
  have h4 : Int.log 2 |x| < 1023 := by
    rw [← Int.lt_zpow_iff_log_lt (by norm_num) hx]
    exact_mod_cast hhi
  obtain ⟨hy, hclose⟩ := binary64_normal x _ h1 h2 h3 (by omega)
  refine ⟨_, hy, hclose.trans ?_⟩
  have h5 : (2 : ℚ) ^ (Int.log 2 |x| - 53) = 2 ^ Int.log 2 |x| * 2 ^ (-53 : ℤ) := by
    rw [← zpow_add₀ (by norm_num : (2 : ℚ) ≠ 0)]
    congr 1
  rw [h5]
  exact mul_le_mul_of_nonneg_right h1 (by positivity)

/-- A half-integer `m / 2` with `|m| < 2 ^ 53` is a binary64 number. -/
theorem binary64_half_int (m : ℤ) (h : |m| < 2 ^ 53) :
    binary64 ((m : ℚ) / 2) = .fin ((m : ℚ) / 2) := by
  by_cases hm : m = 0
  · subst hm
    simpa using binary64_zero
  have hm1 : (1 : ℚ) ≤ |(m : ℚ)| := by
    have : 1 ≤ |m| := Int.one_le_abs hm
    exact_mod_cast this
  have hm2 : |(m : ℚ)| < 2 ^ 53 := by exact_mod_cast h
  have habs : |(m : ℚ) / 2| = |(m : ℚ)| / 2 := by
    rw [abs_div, abs_of_pos (by norm_num : (0 : ℚ) < 2)]
  have hx : 0 < |(m : ℚ) / 2| := by rw [habs]; linarith
  have h1 : (2 : ℚ) ^ Int.log 2 |(m : ℚ) / 2| ≤ |(m : ℚ) / 2| := by
    have := Int.zpow_log_le_self (b := 2) (by norm_num) hx
    exact_mod_cast this
  have h2 : |(m : ℚ) / 2| < (2 : ℚ) ^ (Int.log 2 |(m : ℚ) / 2| + 1) := by
    have := Int.lt_zpow_succ_log_self (b := 2) (by norm_num) |(m : ℚ) / 2|
    exact_mod_cast this
  have h3 : -1 ≤ Int.log 2 |(m : ℚ) / 2| := by
    rw [← Int.zpow_le_iff_le_log (by norm_num) hx]
    rw [habs]
    norm_num
    linarith
  have h4 : Int.log 2 |(m : ℚ) / 2| < 52 := by
    rw [← Int.lt_zpow_iff_log_lt (by norm_num) hx]
    rw [habs]
    norm_num
    linarith
  generalize Int.log 2 |(m : ℚ) / 2| = e at h1 h2 h3 h4
  obtain ⟨k, hk⟩ : ∃ k : ℕ, (k : ℤ) = 51 - e := ⟨(51 - e).toNat, Int.toNat_of_nonneg (by omega)⟩
  have he : e - 52 = -1 - (k : ℤ) := by omega
  have hpow : (2 : ℚ) ^ (e - 52) = 1 / (2 * 2 ^ k) := by
    rw [he, zpow_sub₀ (by norm_num : (2 : ℚ) ≠ 0), zpow_natCast]
    norm_num
    field_simp
    ring
  have hq : (m : ℚ) / 2 / 2 ^ (e - 52) = ((m * 2 ^ k : ℤ) : ℚ) := by
    rw [hpow]
    push_cast
    field_simp
    ring
  have hval : ((m * 2 ^ k : ℤ) : ℚ) * 2 ^ (e - 52) = (m : ℚ) / 2 := by
    rw [hpow]
    push_cast
    field_simp
    ring
  have hr : roundHalfEven ((m : ℚ) / 2 / 2 ^ (e - 52)) = m * 2 ^ k := by
    rw [hq, roundHalfEven_intCast]
  have hfin := binary64_eq_of ((m : ℚ) / 2) e (m * 2 ^ k) h1 h2 (by omega) hr (by
    rw [hval, habs]
    have : (2 : ℚ) ^ 53 < 2 ^ 1024 := by norm_num
    linarith)
  rw [hfin, hval]

/-- An integer below `2 ^ 52` in absolute value is a binary64 number. -/
theorem binary64_intCast (z : ℤ) (h : |z| < 2 ^ 52) : binary64 (z : ℚ) = .fin (z : ℚ) := by
  have h2 : |2 * z| < 2 ^ 53 := by
    rw [abs_mul]
    norm_num
    omega
  have := binary64_half_int (2 * z) h2
  have hcast : ((2 * z : ℤ) : ℚ) / 2 = (z : ℚ) := by push_cast; ring
  rwa [hcast] at this

/-- The sum of two finite numbers is the rounding of the exact sum. -/
theorem addWith_fin (fl : ℚ → JSNum) (a b : ℚ) : JSNum.addWith fl (.fin a) b = fl (a + b) := rfl

/-- The quotient of two finite numbers by a non-zero divisor is the rounding of
the exact quotient. -/
theorem divWith_fin (fl : ℚ → JSNum) (a b : ℚ) (hb : b ≠ 0) :
    JSNum.divWith fl (.fin a) b = fl (a / b) := by
  simp [JSNum.divWith, hb]

/-- The product of two finite numbers is the rounding of the exact product. -/
theorem mulWith_fin (fl : ℚ → JSNum) (a c : ℚ) : JSNum.mulWith fl (.fin a) c = fl (a * c) := rfl

/-- `Math.round` of a finite number. -/
theorem round_fin (q : ℚ) : JSNum.round (.fin q) = .fin ((⌊q + 1 / 2⌋ : ℤ) : ℚ) := rfl

/-- Without rounding, a sum with a finite number adds to a finite number and
leaves the other values as they are. -/
theorem addWith_exact (x : JSNum) (b : ℚ) :
    JSNum.addWith JSNum.fin x b = match x with
      | .fin a => .fin (a + b)
      | y => y := by
  cases x <;> rfl

/-- Without rounding, the accumulation of `reduce` is the exact sum. -/
theorem foldl_addWith_exact (xs : List ℚ) (a : ℚ) :
    xs.foldl (fun sum x => JSNum.addWith JSNum.fin sum x) (.fin a) = .fin (a + xs.sum) := by
  induction xs generalizing a with
  | nil => simp
  | cons x xs ih => rw [List.foldl_cons, addWith_fin, ih, List.sum_cons, add_assoc]

/-- Without rounding, `reduceSumWith` is the exact sum. -/
theorem reduceSumWith_exact (xs : List ℚ) : reduceSumWith JSNum.fin xs = .fin xs.sum := by
  rw [reduceSumWith, foldl_addWith_exact, zero_add]

/-- Without rounding, `divWith` is `JSNum.div`. -/
theorem divWith_exact (a b : ℚ) : JSNum.divWith JSNum.fin (.fin a) b = JSNum.div a b := rfl

/-- Without rounding, `mulWith` is `JSNum.mulFin`. -/
theorem mulWith_exact (x : JSNum) (c : ℚ) : JSNum.mulWith JSNum.fin x c = JSNum.mulFin x c := by
  cases x <;> rfl

/-- Binary64 adds whole numbers without error as long as the absolute values
stay below `2 ^ 52` in sum. -/
theorem foldl_addWith_binary64_int (xs : List ℚ) (a : ℤ) (hint : ∀ x ∈ xs, x.den = 1)
    (hsum : |(a : ℚ)| + (xs.map abs).sum < 2 ^ 52) :
    xs.foldl (fun sum x => JSNum.addWith binary64 sum x) (.fin a) = .fin (a + xs.sum) := by
  induction xs generalizing a with
  | nil => simp
  | cons x xs ih =>
    have hx : ((x.num : ℤ) : ℚ) = x := Rat.coe_int_num_of_den_eq_one (hint x (List.mem_cons_self x xs))
    rw [List.map_cons, List.sum_cons] at hsum
    have hnn : 0 ≤ (xs.map abs).sum := List.sum_nonneg (by
      intro y hy
      obtain ⟨z, -, rfl⟩ := List.mem_map.mp hy
      exact abs_nonneg z)
    have htri : |(a : ℚ) + x| ≤ |(a : ℚ)| + |x| := abs_add _ _
    have hcast : (a : ℚ) + x = ((a + x.num : ℤ) : ℚ) := by push_cast; rw [hx]
    have hsmall : |a + x.num| < 2 ^ 52 := by
      have : |((a + x.num : ℤ) : ℚ)| < 2 ^ 52 := by rw [← hcast]; linarith
      exact_mod_cast this
    rw [List.foldl_cons, addWith_fin, hcast, binary64_intCast _ hsmall,
      ih (a + x.num) (fun y hy => hint y (List.mem_cons_of_mem x hy)) (by rw [← hcast]; linarith),
      ← hcast, List.sum_cons, add_assoc]

/-- The binary64 sum of whole scores is their exact sum, an integer below
`2 ^ 52` in absolute value. -/
theorem reduceSumWith_binary64_whole (xs : List ℚ) (h : wholeScores xs) :
    reduceSumWith binary64 xs = .fin xs.sum ∧ ∃ t : ℤ, xs.sum = t ∧ |t| < 2 ^ 52 := by
  obtain ⟨hint, hsum, -⟩ := h
  have hfold := foldl_addWith_binary64_int xs 0 hint (by simpa using hsum)
  have hle : ∀ ys : List ℚ, (∀ y ∈ ys, y.den = 1) →
      ∃ t : ℤ, ys.sum = t ∧ |(t : ℚ)| ≤ (ys.map abs).sum := by
    intro ys
    induction ys with
    | nil => intro _; exact ⟨0, by simp, by simp⟩
    | cons y ys ih =>
      intro hy
      obtain ⟨t, ht, hb⟩ := ih (fun z hz => hy z (List.mem_cons_of_mem y hz))
      have hynum : ((y.num : ℤ) : ℚ) = y :=
        Rat.coe_int_num_of_den_eq_one (hy y (List.mem_cons_self y ys))
      refine ⟨y.num + t, by rw [List.sum_cons, ht]; push_cast; rw [hynum], ?_⟩
      rw [List.map_cons, List.sum_cons]
      push_cast
      rw [hynum]
      exact (abs_add _ _).trans (by linarith)
  obtain ⟨t, ht, hb⟩ := hle xs hint
  refine ⟨by simpa [reduceSumWith] using hfold, t, ht, ?_⟩
  have : |(t : ℚ)| < 2 ^ 52 := lt_of_le_of_lt hb hsum
  exact_mod_cast this

/-- `Math.round` of the binary64 quotient of an integer below `2 ^ 52` in
absolute value by a positive count below `2 ^ 52` is the exact quotient rounded
to the nearest integer, a tie going up. -/
theorem round_divWith_binary64_int (t : ℤ) (n : ℕ) (hn : 0 < n) (hsize : n < 2 ^ 52)
    (ht : |t| < 2 ^ 52) :
    JSNum.round (JSNum.divWith binary64 (.fin t) n) = .fin ((round ((t : ℚ) / n) : ℤ) : ℚ) := by
  have hnq : (0 : ℚ) < n := Nat.cast_pos.mpr hn
  have hn1 : (1 : ℚ) ≤ n := by exact_mod_cast hn
  have hnsize : (n : ℚ) < 2 ^ 52 := by exact_mod_cast hsize
  have htq : |(t : ℚ)| < 2 ^ 52 := by exact_mod_cast ht
  rw [divWith_fin _ _ _ (ne_of_gt hnq), round_eq]
  have hk1 : ((⌊(t : ℚ) / n + 1 / 2⌋ : ℤ) : ℚ) ≤ (t : ℚ) / n + 1 / 2 := Int.floor_le _
  have hk2 : (t : ℚ) / n + 1 / 2 < (⌊(t : ℚ) / n + 1 / 2⌋ : ℤ) + 1 := Int.lt_floor_add_one _
  generalize ⌊(t : ℚ) / n + 1 / 2⌋ = k at hk1 hk2
  have hq : (t : ℚ) / n * n = t := div_mul_cancel₀ _ (ne_of_gt hnq)
  -- the two integer inequalities
  have hup : 2 * t + 1 ≤ (n : ℤ) * (2 * k + 1) := by
    have : ((2 * t : ℤ) : ℚ) < (((n : ℤ) * (2 * k + 1) : ℤ) : ℚ) := by
      push_cast
      nlinarith
    have := Int.cast_lt.mp this
    omega
  have hlow : (n : ℤ) * (2 * k - 1) ≤ 2 * t := by
    have : ((((n : ℤ) * (2 * k - 1) : ℤ)) : ℚ) ≤ ((2 * t : ℤ) : ℚ) := by
      push_cast
      nlinarith
    exact Int.cast_le.mp this
  have hupq : (t : ℚ) / n + 1 / (2 * n) ≤ k + 1 / 2 := by
    have h : ((2 * t + 1 : ℤ) : ℚ) ≤ (((n : ℤ) * (2 * k + 1) : ℤ) : ℚ) := Int.cast_le.mpr hup
    push_cast at h
    rw [div_add_div _ _ (ne_of_gt hnq) (by positivity), div_le_iff₀ (by positivity)]
    nlinarith
  by_cases htie : (n : ℤ) * (2 * k - 1) = 2 * t
  · -- the quotient is a half-integer, hence a binary64 number
    have hhalf : (t : ℚ) / n = ((2 * k - 1 : ℤ) : ℚ) / 2 := by
      have h : (((n : ℤ) * (2 * k - 1) : ℤ) : ℚ) = ((2 * t : ℤ) : ℚ) := by rw [htie]
      push_cast at h
      push_cast
      rw [div_eq_div_iff (ne_of_gt hnq) (by norm_num)]
      linarith
    have hm : |2 * k - 1| < 2 ^ 53 := by
      have h1 : |((2 * k - 1 : ℤ) : ℚ)| = 2 * (|(t : ℚ)| / n) := by
        have : ((2 * k - 1 : ℤ) : ℚ) = 2 * ((t : ℚ) / n) := by rw [hhalf]; ring
        rw [this, abs_mul, abs_div, abs_of_pos hnq]
        norm_num
      have h2 : |(t : ℚ)| / n ≤ |(t : ℚ)| := div_le_self (abs_nonneg _) hn1
      have : |((2 * k - 1 : ℤ) : ℚ)| < 2 ^ 53 := by rw [h1]; linarith
      exact_mod_cast this
    rw [hhalf, binary64_half_int _ hm, round_fin]
    congr 2
    rw [Int.floor_eq_iff]
    constructor <;> push_cast <;> linarith
  · have hlow1 : (n : ℤ) * (2 * k - 1) + 1 ≤ 2 * t := by omega
    have hlowq : (k : ℚ) - 1 / 2 + 1 / (2 * n) ≤ (t : ℚ) / n := by
      have h : ((((n : ℤ) * (2 * k - 1) + 1 : ℤ)) : ℚ) ≤ ((2 * t : ℤ) : ℚ) := Int.cast_le.mpr hlow1
      push_cast at h
      rw [le_div_iff₀ hnq]
      have : (1 : ℚ) / (2 * n) * n = 1 / 2 := by
        field_simp
        ring
      nlinarith
    by_cases ht0 : t = 0
    · subst ht0
      have hk0 : k = 0 := by
        have h1 : (k : ℚ) < 1 := by
          simp only [Int.cast_zero, zero_div, zero_add] at hk1
          linarith
        have h2 : (-1 : ℚ) < k := by
          simp only [Int.cast_zero, zero_div, zero_add] at hk2
          linarith
        have h3 : k < 1 := by exact_mod_cast h1
        have h4 : -1 < k := by exact_mod_cast h2
        omega
      subst hk0
      rw [Int.cast_zero, zero_div, binary64_zero, round_fin]
      congr 2
      rw [Int.floor_eq_iff]
      constructor <;> norm_num
    have ht1 : (1 : ℚ) ≤ |(t : ℚ)| := by
      have : 1 ≤ |t| := Int.one_le_abs ht0
      exact_mod_cast this
    have habs : |(t : ℚ) / n| = |(t : ℚ)| / n := by rw [abs_div, abs_of_pos hnq]
    have hge : (2 : ℚ) ^ (-1022 : ℤ) ≤ |(t : ℚ) / n| := by
      rw [habs, le_div_iff₀ hnq]
      have h1 : (2 : ℚ) ^ (-1022 : ℤ) ≤ 2 ^ (-52 : ℤ) :=
        zpow_le_zpow_right₀ (by norm_num) (by norm_num)
      have h2 : (2 : ℚ) ^ (-52 : ℤ) * 2 ^ 52 = 1 := by norm_num
      have h3 : (0 : ℚ) < 2 ^ (-1022 : ℤ) := by positivity
      nlinarith
    have hlt : |(t : ℚ) / n| < 2 ^ (1023 : ℤ) := by
      rw [habs]
      have h1 : |(t : ℚ)| / n ≤ |(t : ℚ)| := div_le_self (abs_nonneg _) hn1
      have h2 : (2 : ℚ) ^ (52 : ℤ) ≤ 2 ^ (1023 : ℤ) :=
        zpow_le_zpow_right₀ (by norm_num) (by norm_num)
      have h3 : (2 : ℚ) ^ (52 : ℤ) = 2 ^ 52 := by norm_num
      linarith
    obtain ⟨y, hy, hclose⟩ := binary64_rel _ hge hlt
    have herr : |(t : ℚ) / n| * 2 ^ (-53 : ℤ) < 1 / (2 * n) := by
      rw [habs]
      have h1 : (2 : ℚ) ^ (-53 : ℤ) = 1 / 2 ^ 53 := by norm_num
      rw [h1, div_mul_div_comm, div_lt_div_iff₀ (by positivity) (by positivity)]
      nlinarith
    rw [hy, round_fin]
    congr 2
    rw [abs_le] at hclose
    rw [Int.floor_eq_iff]
    constructor <;> linarith

/-- The binary64 percentage of 0 out of a positive count is 0. -/
theorem round_percent_binary64_none (n : ℕ) (hn : 0 < n) :
    JSNum.round (JSNum.mulWith binary64 (JSNum.divWith binary64 (.fin ((0 : ℕ) : ℚ)) n) 100) =
      .fin 0 := by
  have hnq : (n : ℚ) ≠ 0 := Nat.cast_ne_zero.mpr (Nat.pos_iff_ne_zero.mp hn)
  rw [divWith_fin _ _ _ hnq, Nat.cast_zero, zero_div, binary64_zero, mulWith_fin, zero_mul,
    binary64_zero, round_fin]
  norm_num

/-- The binary64 percentage of a positive count out of itself is 100. -/
theorem round_percent_binary64_all (n : ℕ) (hn : 0 < n) :
    JSNum.round (JSNum.mulWith binary64 (JSNum.divWith binary64 (.fin (n : ℚ)) n) 100) =
      .fin 100 := by
  have hnq : (n : ℚ) ≠ 0 := Nat.cast_ne_zero.mpr (Nat.pos_iff_ne_zero.mp hn)
  have h1 : binary64 1 = .fin 1 := by
    have := binary64_intCast 1 (by norm_num)
    simpa using this
  have h100 : binary64 100 = .fin 100 := by
    have := binary64_intCast 100 (by norm_num)
    simpa using this
  rw [divWith_fin _ _ _ hnq, div_self hnq, h1, mulWith_fin, one_mul, h100, round_fin]
  congr 1
  have : ⌊(100 : ℚ) + 1 / 2⌋ = 100 := by
    rw [Int.floor_eq_iff]
    constructor <;> norm_num
  rw [this]
  norm_num

/-- A value within `300 * 2 ^ (-53)` of a percentage `k / n * 100` with
`n < 2 ^ 40` rounds to an integer within one half of that percentage. -/
theorem floor_near_percent (k n : ℕ) (hn : 0 < n) (hsize : n < 2 ^ 40) (y : ℚ)
    (herr1 : y - (k : ℚ) / n * 100 ≤ 300 / 9007199254740992)
    (herr2 : -(300 / 9007199254740992) ≤ y - (k : ℚ) / n * 100) :
    |(k : ℚ) / n * 100 - (⌊y + 1 / 2⌋ : ℤ)| ≤ 1 / 2 := by
  have hnq : (0 : ℚ) < n := Nat.cast_pos.mpr hn
  have hnsize : (n : ℚ) < 1099511627776 := by exact_mod_cast hsize
  have hf1 : ((⌊y + 1 / 2⌋ : ℤ) : ℚ) ≤ y + 1 / 2 := Int.floor_le _
  have hf2 : y + 1 / 2 < (⌊y + 1 / 2⌋ : ℤ) + 1 := Int.lt_floor_add_one _
  generalize ⌊y + 1 / 2⌋ = r at hf1 hf2
  have hmul : (k : ℚ) / n * 100 * (2 * n) = 200 * k := by
    field_simp
    ring
  generalize (k : ℚ) / n * 100 = x at herr1 herr2 hmul
  have hsmall : 2 * (n : ℚ) * (300 / 9007199254740992) < 1 := by linarith
  have hup : 2 * (n : ℤ) * r ≤ 200 * k + n := by
    have : ((2 * (n : ℤ) * r : ℤ) : ℚ) < ((200 * (k : ℤ) + n + 1 : ℤ) : ℚ) := by
      push_cast
      have h1 : (r : ℚ) ≤ x + 300 / 9007199254740992 + 1 / 2 := by linarith
      have h2 : 2 * (n : ℚ) * r ≤ 2 * n * (x + 300 / 9007199254740992 + 1 / 2) :=
        mul_le_mul_of_nonneg_left h1 (by positivity)
      have h3 : 2 * (n : ℚ) * (x + 300 / 9007199254740992 + 1 / 2) =
          200 * k + 2 * n * (300 / 9007199254740992) + n := by
        rw [← hmul]
        ring
      linarith
    have := Int.cast_lt.mp this
    omega
  have hlow : 200 * (k : ℤ) - n ≤ 2 * (n : ℤ) * r := by
    have : ((200 * (k : ℤ) - n - 1 : ℤ) : ℚ) < ((2 * (n : ℤ) * r : ℤ) : ℚ) := by
      push_cast
      have h1 : x - 300 / 9007199254740992 - 1 / 2 < r := by linarith
      have h2 : 2 * (n : ℚ) * (x - 300 / 9007199254740992 - 1 / 2) < 2 * n * r :=
        mul_lt_mul_of_pos_left h1 (by positivity)
      have h3 : 2 * (n : ℚ) * (x - 300 / 9007199254740992 - 1 / 2) =
          200 * k - 2 * n * (300 / 9007199254740992) - n := by
        rw [← hmul]
        ring
      linarith
    have := Int.cast_lt.mp this
    omega
  have hupq : ((2 * (n : ℤ) * r : ℤ) : ℚ) ≤ ((200 * (k : ℤ) + n : ℤ) : ℚ) := Int.cast_le.mpr hup
  have hlowq : ((200 * (k : ℤ) - n : ℤ) : ℚ) ≤ ((2 * (n : ℤ) * r : ℤ) : ℚ) :=
    Int.cast_le.mpr hlow
  push_cast at hupq hlowq
  have h2n : (0 : ℚ) < 2 * n := by positivity
  rw [abs_le]
  constructor
  · have hgoal : -(1 / 2) * (2 * (n : ℚ)) ≤ (x - r) * (2 * n) := by
      rw [sub_mul, hmul]
      linarith
    exact le_of_mul_le_mul_right hgoal h2n
  · have hgoal : (x - r) * (2 * n) ≤ 1 / 2 * (2 * (n : ℚ)) := by
      rw [sub_mul, hmul]
      linarith
    exact le_of_mul_le_mul_right hgoal h2n

/-- The binary64 product with 100 of the binary64 value of a ratio between
`2 ^ (-40)` and 1 is within `300 * 2 ^ (-53)` of the exact percentage. -/
theorem binary64_percent_err (x : ℚ) (hlo : 1 / 1099511627776 < x) (hhi : x ≤ 1) :
    ∃ y : ℚ, JSNum.mulWith binary64 (binary64 x) 100 = .fin y ∧
      y - x * 100 ≤ 300 / 9007199254740992 ∧ -(300 / 9007199254740992) ≤ y - x * 100 := by
  have hxpos : 0 < x := lt_trans (by norm_num) hlo
  have hp53 : (2 : ℚ) ^ (-53 : ℤ) = 1 / 9007199254740992 := by norm_num
  have hsmallpow : (2 : ℚ) ^ (-1022 : ℤ) ≤ 1 / 1099511627776 := by
    have h1 : (2 : ℚ) ^ (-1022 : ℤ) ≤ 2 ^ (-40 : ℤ) :=
      zpow_le_zpow_right₀ (by norm_num) (by norm_num)
    have h2 : (2 : ℚ) ^ (-40 : ℤ) = 1 / 1099511627776 := by norm_num
    rwa [h2] at h1
  have hbigpow : (1024 : ℚ) ≤ 2 ^ (1023 : ℤ) := by
    have h2 : (2 : ℚ) ^ (10 : ℤ) ≤ 2 ^ (1023 : ℤ) :=
      zpow_le_zpow_right₀ (by norm_num) (by norm_num)
    have h3 : (2 : ℚ) ^ (10 : ℤ) = 1024 := by norm_num
    rwa [h3] at h2
  have hlo1 : (2 : ℚ) ^ (-1022 : ℤ) ≤ |x| := by
    rw [abs_of_pos hxpos]
    exact hsmallpow.trans hlo.le
  have hhi1 : |x| < 2 ^ (1023 : ℤ) := by
    rw [abs_of_pos hxpos]
    exact lt_of_le_of_lt hhi (lt_of_lt_of_le (by norm_num) hbigpow)
  obtain ⟨y1, hy1, hclose1⟩ := binary64_rel _ hlo1 hhi1
  rw [abs_of_pos hxpos, abs_le, hp53] at hclose1
  have hy1lo : x / 2 ≤ y1 := by linarith
  have hy1hi : y1 ≤ 2 := by linarith
  have hx2pos : (0 : ℚ) < y1 * 100 := by linarith
  have hlo2 : (2 : ℚ) ^ (-1022 : ℤ) ≤ |y1 * 100| := by
    rw [abs_of_pos hx2pos]
    refine hsmallpow.trans ?_
    linarith
  have hhi2 : |y1 * 100| < 2 ^ (1023 : ℤ) := by
    rw [abs_of_pos hx2pos]
    refine lt_of_lt_of_le ?_ hbigpow
    linarith
  obtain ⟨y2, hy2, hclose2⟩ := binary64_rel _ hlo2 hhi2
  rw [abs_of_pos hx2pos, abs_le, hp53] at hclose2
  refine ⟨y2, by rw [hy1, mulWith_fin, hy2], ?_, ?_⟩
  · nlinarith
  · nlinarith

/-- The rounded binary64 percentage of `k` out of `n < 2 ^ 40` is an integer
within one half of the exact percentage. -/
theorem round_percent_binary64 (k n : ℕ) (hn : 0 < n) (hkn : k ≤ n) (hsize : n < 2 ^ 40) :
    ∃ r : ℤ,
      JSNum.round (JSNum.mulWith binary64 (JSNum.divWith binary64 (.fin (k : ℚ)) n) 100) =
        .fin r ∧
      |(k : ℚ) / n * 100 - r| ≤ 1 / 2 := by
  have hnq : (0 : ℚ) < n := Nat.cast_pos.mpr hn
  have hnsize : (n : ℚ) < 1099511627776 := by exact_mod_cast hsize
  have hknq : (k : ℚ) ≤ n := by exact_mod_cast hkn
  rcases Nat.eq_zero_or_pos k with hk0 | hkpos
  · subst hk0
    exact ⟨0, round_percent_binary64_none n hn, by norm_num⟩
  have hk1 : (1 : ℚ) ≤ k := by exact_mod_cast hkpos
  have hx1le : (k : ℚ) / n ≤ 1 := (div_le_one hnq).mpr hknq
  have hx1ge : (1 : ℚ) / 1099511627776 < (k : ℚ) / n := by
    rw [lt_div_iff₀ hnq]
    linarith
  obtain ⟨y, hy, herr1, herr2⟩ := binary64_percent_err _ hx1ge hx1le
  rw [divWith_fin _ _ _ (ne_of_gt hnq), hy, round_fin]
  exact ⟨_, rfl, floor_near_percent k n hn hsize y herr1 herr2⟩

/-- The binary64 value of a positive rational in the binade of exponent `e`,
given the integer its scaled value rounds to. -/
theorem binary64_eq_of_pos (x : ℚ) (e r : ℤ) (hlo : 2 ^ e ≤ x) (hhi : x < 2 ^ (e + 1))
    (he : -1022 ≤ e) (he' : e ≤ 1022) (hr : roundHalfEven (x / 2 ^ (e - 52)) = r) :
    binary64 x = .fin (r * 2 ^ (e - 52)) := by
  have hx : 0 < x := lt_of_lt_of_le (by positivity) hlo
  have habs : |x| = x := abs_of_pos hx
  rw [(binary64_normal x e (by rw [habs]; exact hlo) (by rw [habs]; exact hhi) he he').1, hr]

/-- The first fractional score is a binary64 number. -/
theorem binary64_scoreSevenOfTwelve : binary64 scoreSevenOfTwelve = .fin scoreSevenOfTwelve := by
  have h := binary64_eq_of_pos scoreSevenOfTwelve 5 8209686820727467 (by norm_num [scoreSevenOfTwelve]) (by norm_num [scoreSevenOfTwelve])
    (by norm_num) (by norm_num) (by
      have : scoreSevenOfTwelve / 2 ^ ((5 : ℤ) - 52) = ((8209686820727467 : ℤ) : ℚ) := by norm_num [scoreSevenOfTwelve]
      rw [this, roundHalfEven_intCast])
  rw [h]
  congr 1
  norm_num [scoreSevenOfTwelve]

/-- The second fractional score is a binary64 number. -/
theorem binary64_scoreTwoOfThree : binary64 scoreTwoOfThree = .fin scoreTwoOfThree := by
  have h := binary64_eq_of_pos scoreTwoOfThree 6 4691249611844266 (by norm_num [scoreTwoOfThree]) (by norm_num [scoreTwoOfThree])
    (by norm_num) (by norm_num) (by
      have : scoreTwoOfThree / 2 ^ ((6 : ℤ) - 52) = ((4691249611844266 : ℤ) : ℚ) := by norm_num [scoreTwoOfThree]
      rw [this, roundHalfEven_intCast])
  rw [h]
  congr 1
  norm_num [scoreTwoOfThree]

/-- The exact sum of the two fractional scores is `125 - 2 ^ (-47)`, halfway
between two binary64 numbers; the even one is 125. -/
theorem binary64_fractional_sum : binary64 (scoreSevenOfTwelve + scoreTwoOfThree) = .fin 125 := by
  have h := binary64_eq_of_pos (scoreSevenOfTwelve + scoreTwoOfThree) 6 8796093022208000 (by norm_num [scoreSevenOfTwelve, scoreTwoOfThree])
    (by norm_num [scoreSevenOfTwelve, scoreTwoOfThree]) (by norm_num) (by norm_num) (by
      have : (scoreSevenOfTwelve + scoreTwoOfThree) / 2 ^ ((6 : ℤ) - 52) = ((8796093022207999 : ℤ) : ℚ) + 1 / 2 := by
        norm_num [scoreSevenOfTwelve, scoreTwoOfThree]
      rw [this, roundHalfEven_tie]
      norm_num)
  rw [h]
  congr 1
  norm_num

/-- The binary64 value of `23 / 40`. -/
theorem binary64_ratio_23_of_40 :
    binary64 ((23 : ℚ) / 40) = .fin (2589569785738035 / 4503599627370496) := by
  have h := binary64_eq_of_pos ((23 : ℚ) / 40) (-1) 5179139571476070 (by norm_num)
    (by norm_num) (by norm_num) (by norm_num) (by
      apply roundHalfEven_eq_of_abs_lt
      rw [abs_lt]
      constructor <;> norm_num)
  rw [h]
  congr 1
  norm_num

/-- The binary64 product of the binary64 value of `23 / 40` with 100: the
number printed as `57.49999999999999`. -/
theorem binary64_percent_23_of_40 :
    binary64 ((2589569785738035 : ℚ) / 4503599627370496 * 100) =
      .fin (8092405580431359 / 140737488355328) := by
  have h := binary64_eq_of_pos ((2589569785738035 : ℚ) / 4503599627370496 * 100) 5
    8092405580431359 (by norm_num) (by norm_num) (by norm_num) (by norm_num) (by
      apply roundHalfEven_eq_of_abs_lt
      rw [abs_lt]
      constructor <;> norm_num)
  rw [h]
  congr 1
  norm_num

/-! ### The aggregations with a rounding -/

/-- The guarded quotient of the components, written on the length, is
`roundedMeanWith`. -/
theorem guarded_averageWith_eq (fl : ℚ → JSNum) (xs : List ℚ) :
    (if 0 < xs.length then
      JSNum.round (JSNum.divWith fl (reduceSumWith fl xs) xs.length) else .fin 0) =
      roundedMeanWith fl xs := by
  unfold roundedMeanWith
  cases xs with
  | nil => rfl
  | cons x rest => rw [if_pos (by simp), if_neg (by simp)]

/-- Without rounding, `roundedMeanWith` is the rounded mean. -/
theorem roundedMeanWith_exact (xs : List ℚ) : roundedMeanWith JSNum.fin xs = roundedMean xs := by
  rw [← guarded_averageWith_eq, ← guarded_average_eq, reduceSumWith_exact, divWith_exact]

/-- On whole scores the binary64 computation gives the rounded mean. -/
theorem roundedMeanWith_binary64_whole (xs : List ℚ) (h : wholeScores xs) :
    roundedMeanWith binary64 xs = roundedMean xs := by
  unfold roundedMeanWith roundedMean
  by_cases hnil : xs = []
  · rw [if_pos hnil, if_pos hnil]
  · rw [if_neg hnil, if_neg hnil]
    obtain ⟨hsum, t, ht, hsmall⟩ := reduceSumWith_binary64_whole xs h
    rw [hsum, ht, round_divWith_binary64_int t xs.length (List.length_pos.mpr hnil) h.2.2 hsmall,
      mean, ht]

/-- The stats that `fetchGradesWith` stores after a successful fetch, in terms
of the scores of the completed records with a non-null score. -/
theorem fetchGradesWith_stats (fl : ℚ → JSNum) (data : List StudentAssignment)
    (st : StudentGrades.State) :
    (StudentGrades.fetchGradesWith fl (.ok data) st).1.stats =
      if 0 < (scoredScores data).length then
        { totalCompleted := (scoredScores data).length
          averageGrade := roundedMeanWith fl (scoredScores data)
          highestGrade := mathMax (scoredScores data)
          lowestGrade := mathMin (scoredScores data) }
      else
        { totalCompleted := 0, averageGrade := .fin 0, highestGrade := .fin 0,
          lowestGrade := .fin 0 } := by
  have hlen : (data.filter (fun a => a.completed && a.score != none)).length =
      (scoredScores data).length := by
    rw [← fetchGrades_scores, List.length_map]
  simp only [StudentGrades.fetchGradesWith, gt_iff_lt, hlen, fetchGrades_scores]
  split
  · rename_i hpos
    rw [← guarded_averageWith_eq, if_pos hpos]
  · rfl

/-- The average that `fetchGradesWith` stores after a successful fetch. -/
theorem fetchGradesWith_averageGrade (fl : ℚ → JSNum) (data : List StudentAssignment)
    (st : StudentGrades.State) :
    (StudentGrades.fetchGradesWith fl (.ok data) st).1.stats.averageGrade =
      roundedMeanWith fl (scoredScores data) := by
  rw [fetchGradesWith_stats]
  split
  · rfl
  · rename_i hpos
    have hnil : scoredScores data = [] := by
      cases hs : scoredScores data with
      | nil => rfl
      | cons x rest => rw [hs] at hpos; simp at hpos
    rw [hnil]
    rfl

/-- The loop of `StudentOverview.fetchAssignmentsWith` adds the non-null scores
to `totalGrade` and their number to `gradeCount`. -/
theorem foldl_addGradeWith (fl : ℚ → JSNum) (l : List StudentAssignment) (acc : JSNum × Nat) :
    l.foldl (StudentOverview.addGradeWith fl) acc =
      ((l.filterMap (fun a => a.score)).foldl (fun sum x => JSNum.addWith fl sum x) acc.1,
       acc.2 + (l.filterMap (fun a => a.score)).length) := by
  induction l generalizing acc with
  | nil => simp
  | cons a rest ih =>
    rw [List.foldl_cons, ih]
    cases hs : a.score <;>
      simp [StudentOverview.addGradeWith, List.filterMap_cons, hs, add_assoc, Nat.add_comm]

/-- The average that `StudentOverview.fetchAssignmentsWith` stores after a
successful fetch. -/
theorem fetchAssignmentsWith_averageGrade (fl : ℚ → JSNum) (data : List StudentAssignment)
    (st : StudentOverview.State) :
    (StudentOverview.fetchAssignmentsWith fl (.ok data) st).1.stats.averageGrade =
      roundedMeanWith fl (scoredScores data) := by
  rw [← guarded_averageWith_eq]
  simp only [StudentOverview.fetchAssignmentsWith, foldl_addGradeWith, filterMap_score_completed,
    gt_iff_lt, zero_add, reduceSumWith]

/-- The value of `calculateStudentAverageWith`, in terms of the non-null scores. -/
theorem calculateStudentAverageWith_eq (fl : ℚ → JSNum) (l : List GradebookAssignment) :
    Gradebook.calculateStudentAverageWith fl l = roundedMeanWith fl (gradebookScores l) := by
  simp only [Gradebook.calculateStudentAverageWith, calculateStudentAverage_scores]
  by_cases h : l.length = 0
  · have hl : l = [] := List.length_eq_zero.mp h
    subst hl
    rfl
  · simp only [h, if_false]
    unfold roundedMeanWith
    by_cases hs : gradebookScores l = []
    · rw [hs]
      rfl
    · rw [if_neg (by simpa using hs), if_neg hs]

/-- The inner loop of `fetchGradebookWith` adds the non-null scores of one
student to `gradeSum` and their number to `totalGrades`. -/
theorem foldl_countAssignmentWith (fl : ℚ → JSNum) (l : List GradebookAssignment)
    (c : Gradebook.Accumulators) :
    l.foldl (Gradebook.countAssignmentWith fl) c =
      { totalSubmissions := c.totalSubmissions
        totalGrades := c.totalGrades + (gradebookScores l).length
        gradeSum := (gradebookScores l).foldl (fun sum x => JSNum.addWith fl sum x) c.gradeSum } := by
  induction l generalizing c with
  | nil => simp [gradebookScores]
  | cons a rest ih =>
    rw [List.foldl_cons, ih]
    unfold gradebookScores
    cases hs : a.score <;>
      simp [Gradebook.countAssignmentWith, List.filterMap_cons, hs, add_assoc, Nat.add_comm]

/-- The outer loop of `fetchGradebookWith` counts every entry of every student
and adds up every non-null score, in the order of the gradebook. -/
theorem foldl_countStudentWith (fl : ℚ → JSNum) (data : List StudentRecord)
    (c : Gradebook.Accumulators) :
    data.foldl (Gradebook.countStudentWith fl) c =
      { totalSubmissions := c.totalSubmissions + (data.flatMap (fun r => r.assignments)).length
        totalGrades :=
          c.totalGrades + (gradebookScores (data.flatMap (fun r => r.assignments))).length
        gradeSum := (gradebookScores (data.flatMap (fun r => r.assignments))).foldl
          (fun sum x => JSNum.addWith fl sum x) c.gradeSum } := by
  induction data generalizing c with
  | nil => simp [gradebookScores]
  | cons r rest ih =>
    rw [List.foldl_cons, ih, Gradebook.countStudentWith, foldl_countAssignmentWith]
    simp [gradebookScores, List.flatMap_cons, List.filterMap_append, add_assoc]

/-- The figures that `fetchGradebookWith` stores after a successful fetch, in
terms of all entries of all students. -/
theorem fetchGradebookWith_stats (fl : ℚ → JSNum) (data : List StudentRecord)
    (st : Gradebook.State) :
    (Gradebook.fetchGradebookWith fl (.ok data) st).1.stats.averageGrade =
      roundedMeanWith fl (gradebookScores (data.flatMap (fun r => r.assignments))) ∧
    (Gradebook.fetchGradebookWith fl (.ok data) st).1.stats.completionRate =
      (if 0 < (data.flatMap (fun r => r.assignments)).length then
        JSNum.round (JSNum.mulWith fl
          (JSNum.divWith fl
            (.fin ((gradebookScores (data.flatMap (fun r => r.assignments))).length : ℚ))
            (data.flatMap (fun r => r.assignments)).length) 100)
      else .fin 0) ∧
    (Gradebook.fetchGradebookWith fl (.ok data) st).1.stats.totalSubmissions =
      (data.flatMap (fun r => r.assignments)).length := by
  refine ⟨?_, ?_, ?_⟩
  · rw [← guarded_averageWith_eq]
    simp only [Gradebook.fetchGradebookWith, foldl_countStudentWith, gt_iff_lt, zero_add,
      reduceSumWith]
  · simp only [Gradebook.fetchGradebookWith, foldl_countStudentWith, gt_iff_lt, zero_add]
  · simp only [Gradebook.fetchGradebookWith, foldl_countStudentWith, zero_add]

/-- The inner stats loop of the teacher `Overview` with a rounding counts every
entry of one student and adds up the non-null scores. -/
theorem overview_foldl_countAssignmentWith (fl : ℚ → JSNum) (l : List GradebookAssignment)
    (c : Overview.Accumulators) :
    l.foldl (Overview.countAssignmentWith fl) c =
      { completedCount := c.completedCount + l.length
        totalGrades := (gradebookScores l).foldl (fun sum x => JSNum.addWith fl sum x) c.totalGrades
        gradeCount := c.gradeCount + (gradebookScores l).length } := by
  induction l generalizing c with
  | nil => simp [gradebookScores]
  | cons a rest ih =>
    rw [List.foldl_cons, ih]
    unfold gradebookScores
    cases hs : a.score <;>
      simp [Overview.countAssignmentWith, List.filterMap_cons, hs, add_assoc, Nat.add_comm]

/-- The outer stats loop of the teacher `Overview` with a rounding counts every
entry of every student and adds up every non-null score, in the order of the
gradebook. -/
theorem overview_foldl_countStudentWith (fl : ℚ → JSNum) (data : List StudentRecord)
    (c : Overview.Accumulators) :
    data.foldl (Overview.countStudentWith fl) c =
      { completedCount := c.completedCount + (data.flatMap (fun r => r.assignments)).length
        totalGrades := (gradebookScores (data.flatMap (fun r => r.assignments))).foldl
          (fun sum x => JSNum.addWith fl sum x) c.totalGrades
        gradeCount :=
          c.gradeCount + (gradebookScores (data.flatMap (fun r => r.assignments))).length } := by
  induction data generalizing c with
  | nil => simp [gradebookScores]
  | cons r rest ih =>
    rw [List.foldl_cons, ih, Overview.countStudentWith, overview_foldl_countAssignmentWith]
    simp [gradebookScores, List.flatMap_cons, List.filterMap_append, add_assoc]

/-- The stats that `fetchOverviewDataWith` stores when its three fetches
succeed. -/
theorem fetchOverviewDataWith_stats (fl : ℚ → JSNum) (students : List Student)
    (assignments : List Assignment) (gradebook : List StudentRecord) (st : Overview.State) :
    (Overview.fetchOverviewDataWith fl (.ok students) (.ok assignments) (.ok gradebook)
        st).1.stats =
      { totalStudents := students.length
        totalAssignments := assignments.length
        completedAssignments := (gradebook.flatMap (fun r => r.assignments)).length
        averageGrade :=
          roundedMeanWith fl (gradebookScores (gradebook.flatMap (fun r => r.assignments))) }
      := by
  rw [← guarded_averageWith_eq]
  simp only [Overview.fetchOverviewDataWith, overview_foldl_countStudentWith, gt_iff_lt, zero_add,
    reduceSumWith]

/-- Without rounding, `fetchGradesWith` is `fetchGrades`. -/
theorem fetchGradesWith_exact (response : Except AxiosError (List StudentAssignment))
    (st : StudentGrades.State) :
    StudentGrades.fetchGradesWith JSNum.fin response st = StudentGrades.fetchGrades response st := by
  cases response with
  | error e => rfl
  | ok data =>
    simp only [StudentGrades.fetchGradesWith, StudentGrades.fetchGrades, reduceSumWith_exact,
      reduceSum_eq_sum, divWith_exact]

/-- Without rounding, `calculateStudentAverageWith` is `calculateStudentAverage`. -/
theorem calculateStudentAverageWith_exact (l : List GradebookAssignment) :
    Gradebook.calculateStudentAverageWith JSNum.fin l = Gradebook.calculateStudentAverage l := by
  rw [calculateStudentAverageWith_eq, roundedMeanWith_exact, calculateStudentAverage_roundedMean]

/-- Without rounding, the stats of `fetchGradebookWith` are those of
`fetchGradebook`. -/
theorem fetchGradebookWith_exact (data : List StudentRecord) (st : Gradebook.State) :
    (Gradebook.fetchGradebookWith JSNum.fin (.ok data) st).1.stats =
      (Gradebook.fetchGradebook (.ok data) st).1.stats := by
  obtain ⟨h1, h2, h3⟩ := fetchGradebookWith_stats JSNum.fin data st
  obtain ⟨g1, g2⟩ := fetchGradebook_stats data st
  have g3 := fetchGradebook_totalSubmissions data st
  have h4 : (Gradebook.fetchGradebookWith JSNum.fin (.ok data) st).1.stats.totalStudents =
      (Gradebook.fetchGradebook (.ok data) st).1.stats.totalStudents := rfl
  rw [roundedMeanWith_exact, ← guarded_average_eq, ← g1] at h1
  rw [divWith_exact, mulWith_exact, ← g2] at h2
  rw [← g3] at h3
  generalize (Gradebook.fetchGradebookWith JSNum.fin (.ok data) st).1.stats = a at h1 h2 h3 h4
  generalize (Gradebook.fetchGradebook (.ok data) st).1.stats = b at h1 h2 h3 h4
  cases a
  cases b
  simp only at h1 h2 h3 h4
  subst h1 h2 h3 h4
  rfl

/-- Without rounding, the average of `fetchAssignmentsWith` is that of
`StudentOverview.fetchAssignments`. -/
theorem fetchAssignmentsWith_exact (data : List StudentAssignment) (st : StudentOverview.State) :
    (StudentOverview.fetchAssignmentsWith JSNum.fin (.ok data) st).1.stats.averageGrade =
      (StudentOverview.fetchAssignments (.ok data) st).1.stats.averageGrade := by
  rw [fetchAssignmentsWith_averageGrade, roundedMeanWith_exact, overview_averageGrade_eq]

/-- Without rounding, the stats of `fetchOverviewDataWith` are those of
`fetchOverviewData`. -/
theorem fetchOverviewDataWith_exact (students : List Student) (assignments : List Assignment)
    (gradebook : List StudentRecord) (st : Overview.State) :
    (Overview.fetchOverviewDataWith JSNum.fin (.ok students) (.ok assignments) (.ok gradebook)
        st).1.stats =
      (Overview.fetchOverviewData (.ok students) (.ok assignments) (.ok gradebook) st).1.stats := by
  rw [fetchOverviewDataWith_stats, fetchOverviewData_stats, roundedMeanWith_exact]

/-- The two fractional scores: binary64 adds them up to 125 and halves that to
62.5, which `Math.round` takes to 63. -/
theorem roundedMeanWith_binary64_fractional :
    roundedMeanWith binary64 [scoreSevenOfTwelve, scoreTwoOfThree] = .fin 63 := by
  have hhalf : binary64 ((125 : ℚ) / 2) = .fin (125 / 2) := by
    have := binary64_half_int 125 (by norm_num)
    simpa using this
  have hlen : (([scoreSevenOfTwelve, scoreTwoOfThree] : List ℚ).length : ℚ) = 2 := by
    norm_num
  rw [roundedMeanWith, if_neg (by simp), hlen, reduceSumWith, List.foldl_cons, List.foldl_cons,
    List.foldl_nil, addWith_fin, zero_add, binary64_scoreSevenOfTwelve, addWith_fin,
    binary64_fractional_sum, divWith_fin _ _ _ (by norm_num), hhalf, round_fin]
  congr 1
  have : ⌊(125 : ℚ) / 2 + 1 / 2⌋ = 63 := by
    rw [Int.floor_eq_iff]
    constructor <;> norm_num
  rw [this]
  norm_num

/-- The exact mean of the two fractional scores is below 62.5: the rounded mean
is 62. -/
theorem roundedMean_fractional :
    roundedMean [scoreSevenOfTwelve, scoreTwoOfThree] = .fin 62 := by
  rw [roundedMean, if_neg (by simp), mean, round_eq]
  congr 1
  have : ⌊([scoreSevenOfTwelve, scoreTwoOfThree] : List ℚ).sum /
      (([scoreSevenOfTwelve, scoreTwoOfThree] : List ℚ).length : ℚ) + 1 / 2⌋ = 62 := by
    rw [Int.floor_eq_iff]
    constructor <;> norm_num [scoreSevenOfTwelve, scoreTwoOfThree]
  rw [this]
  norm_num

/-- C4: when the fetched list holds at least one completed record with a
non-null score, `fetchGrades`, evaluated in binary64 as JavaScript does, stores
the number of such records, `Math.round` of the binary64 quotient of their
binary64 sum by their number, the greatest and the least of their scores; on
whole scores that average is the mean rounded to the nearest integer (a tie
going up); the four values depend on the fetched list through those scores
only. -/
theorem C4_fetchGrades_binary64 (data : List StudentAssignment) (st : StudentGrades.State)
    (hscored : ∃ a ∈ data, a.completed = true ∧ a.score ≠ none) :
    (StudentGrades.fetchGradesWith binary64 (.ok data) st).1.stats.totalCompleted =
      (scoredScores data).length ∧
    (StudentGrades.fetchGradesWith binary64 (.ok data) st).1.stats.averageGrade =
      JSNum.round (JSNum.divWith binary64 (reduceSumWith binary64 (scoredScores data))
        (scoredScores data).length) ∧
    (wholeScores (scoredScores data) →
      (StudentGrades.fetchGradesWith binary64 (.ok data) st).1.stats.averageGrade =
        .fin ((round (mean (scoredScores data)) : ℤ) : ℚ) ∧
      |mean (scoredScores data) - (round (mean (scoredScores data)) : ℤ)| ≤ 1 / 2) ∧
    (∃ m ∈ scoredScores data,
      (StudentGrades.fetchGradesWith binary64 (.ok data) st).1.stats.highestGrade = .fin m ∧
      ∀ x ∈ scoredScores data, x ≤ m) ∧
    (∃ m ∈ scoredScores data,
      (StudentGrades.fetchGradesWith binary64 (.ok data) st).1.stats.lowestGrade = .fin m ∧
      ∀ x ∈ scoredScores data, m ≤ x) ∧
    (∀ (data' : List StudentAssignment) (st' : StudentGrades.State),
      scoredScores data' = scoredScores data →
      (StudentGrades.fetchGradesWith binary64 (.ok data') st').1.stats =
        (StudentGrades.fetchGradesWith binary64 (.ok data) st).1.stats) := by
  have hne : scoredScores data ≠ [] := by
    obtain ⟨a, ha, hc, hs⟩ := hscored
    obtain ⟨q, hq⟩ := Option.ne_none_iff_exists'.mp hs
    have hmem : q ∈ scoredScores data :=
      List.mem_filterMap.mpr ⟨a, ha, by simp [hc, hq]⟩
    exact List.ne_nil_of_mem hmem
  have hpos : 0 < (scoredScores data).length := List.length_pos.mpr hne
  have hstats := fetchGradesWith_stats binary64 data st
  rw [if_pos hpos] at hstats
  have havg : (StudentGrades.fetchGradesWith binary64 (.ok data) st).1.stats.averageGrade =
      roundedMeanWith binary64 (scoredScores data) := by rw [hstats]
  refine ⟨by rw [hstats], ?_, ?_, ?_, ?_, ?_⟩
  · rw [havg, roundedMeanWith, if_neg hne]
  · intro hwhole
    refine ⟨?_, abs_sub_round _⟩
    rw [havg, roundedMeanWith_binary64_whole _ hwhole, roundedMean, if_neg hne]
  · rw [hstats]; exact mathMax_spec _ hne
  · rw [hstats]; exact mathMin_spec _ hne
  · intro data' st' heq
    rw [fetchGradesWith_stats binary64 data' st', fetchGradesWith_stats binary64 data st, heq]

/-- The scored scores of the sample list are whole scores. -/
theorem wholeScores_sampleScores : wholeScores [100, 80, 60] := by
  refine ⟨?_, ?_, ?_⟩
  · intro x hx
    simp only [List.mem_cons, List.mem_singleton, List.not_mem_nil, or_false] at hx
    rcases hx with h | h | h <;> subst h <;> rfl
  · norm_num
  · norm_num

/-- C4 on the sample list, whose scored scores are 100, 80 and 60: three
records counted, average 80, highest 100, lowest 60. -/
theorem C4_fetchGrades_binary64_witness :
    (StudentGrades.fetchGradesWith binary64 (.ok sampleGrades) initialGrades).1.stats =
      { totalCompleted := 3, averageGrade := .fin 80, highestGrade := .fin 100,
        lowestGrade := .fin 60 } := by
  obtain ⟨hcount, -, hwhole, ⟨hi, hhi, hhigh, hmax⟩, ⟨lo, hlo, hlow, hmin⟩, -⟩ :=
    C4_fetchGrades_binary64 sampleGrades initialGrades
      ⟨gradedRecord "g-1" true (some 100), by decide, rfl, by decide⟩
  rw [scoredScores_sampleGrades] at hcount hwhole hhi hmax hlo hmin
  have havg := (hwhole wholeScores_sampleScores).1
  have hmean : mean [100, 80, 60] = ((80 : ℤ) : ℚ) := by norm_num [mean]
  rw [hmean, round_intCast] at havg
  have hhi100 : hi = 100 := by
    have h := hmax 100 (by simp)
    simp only [List.mem_cons, List.mem_singleton, List.not_mem_nil, or_false] at hhi
    rcases hhi with h' | h' | h' <;> subst h' <;> first | rfl | (exfalso; norm_num at h)
  have hlo60 : lo = 60 := by
    have h := hmin 60 (by simp)
    simp only [List.mem_cons, List.mem_singleton, List.not_mem_nil, or_false] at hlo
    rcases hlo with h' | h' | h' <;> subst h' <;> first | rfl | (exfalso; norm_num at h)
  subst hhi100 hlo60
  generalize (StudentGrades.fetchGradesWith binary64 (.ok sampleGrades) initialGrades).1.stats =
    stats at hcount havg hhigh hlow
  obtain ⟨c, a, h, l⟩ := stats
  simp only at hcount havg hhigh hlow
  subst hcount havg hhigh hlow
  simp

/-- The scored scores of the two fractional records. -/
theorem scoredScores_fractionalGrades :
    scoredScores fractionalGrades = [scoreSevenOfTwelve, scoreTwoOfThree] := rfl

/-- C4 fails for the mean: on two completed records with the binary64 scores
58.333333333333336 and 66.66666666666666 the stored average is 63, while the
mean of the two scores is below 62.5 and rounds to 62. -/
theorem C4_average_counterexample :
    binary64 scoreSevenOfTwelve = .fin scoreSevenOfTwelve ∧
    binary64 scoreTwoOfThree = .fin scoreTwoOfThree ∧
    (StudentGrades.fetchGradesWith binary64 (.ok fractionalGrades)
      initialGrades).1.stats.averageGrade = .fin 63 ∧
    mean (scoredScores fractionalGrades) < 125 / 2 ∧
    round (mean (scoredScores fractionalGrades)) = 62 := by
  refine ⟨binary64_scoreSevenOfTwelve, binary64_scoreTwoOfThree, ?_, ?_, ?_⟩
  · rw [fetchGradesWith_averageGrade, scoredScores_fractionalGrades,
      roundedMeanWith_binary64_fractional]
  · rw [scoredScores_fractionalGrades]
    norm_num [mean, scoreSevenOfTwelve, scoreTwoOfThree]
  · have h := roundedMean_fractional
    rw [roundedMean, if_neg (by simp)] at h
    rw [scoredScores_fractionalGrades]
    have h2 : ((round (mean [scoreSevenOfTwelve, scoreTwoOfThree]) : ℤ) : ℚ) = ((62 : ℤ) : ℚ) := by
      have := JSNum.fin.inj h
      rw [this]
      norm_num
    exact_mod_cast h2

/-- C13: evaluated in binary64, the average of `StudentOverview.fetchAssignments`
is the average of `StudentGrades.fetchGrades` for every list of student-assignment
records: `Math.round` of the binary64 quotient of the binary64 sum of the
completed non-null scores by their number, or 0 without any;
`calculateStudentAverage` is the same function of the non-null scores of its
entries and returns that same value on the gradebook entries of a list of
completed records (same scores, record by record); on whole scores the common
value is the rounded mean. -/
theorem C13_student_average_binary64 :
    (∀ (data : List StudentAssignment) (sto : StudentOverview.State)
        (stg : StudentGrades.State),
      (StudentOverview.fetchAssignmentsWith binary64 (.ok data) sto).1.stats.averageGrade =
        (StudentGrades.fetchGradesWith binary64 (.ok data) stg).1.stats.averageGrade ∧
      (StudentGrades.fetchGradesWith binary64 (.ok data) stg).1.stats.averageGrade =
        roundedMeanWith binary64 (scoredScores data) ∧
      (wholeScores (scoredScores data) →
        (StudentGrades.fetchGradesWith binary64 (.ok data) stg).1.stats.averageGrade =
          roundedMean (scoredScores data))) ∧
    (∀ l : List GradebookAssignment,
      Gradebook.calculateStudentAverageWith binary64 l =
        roundedMeanWith binary64 (gradebookScores l) ∧
      (wholeScores (gradebookScores l) →
        Gradebook.calculateStudentAverageWith binary64 l = roundedMean (gradebookScores l))) ∧
    (∀ (data : List StudentAssignment) (l : List GradebookAssignment)
        (sto : StudentOverview.State) (stg : StudentGrades.State),
      (∀ a ∈ data, a.completed = true) →
      data.map (fun a => a.score) = l.map (fun a => a.score) →
      Gradebook.calculateStudentAverageWith binary64 l =
        (StudentGrades.fetchGradesWith binary64 (.ok data) stg).1.stats.averageGrade ∧
      Gradebook.calculateStudentAverageWith binary64 l =
        (StudentOverview.fetchAssignmentsWith binary64 (.ok data) sto).1.stats.averageGrade) := by
  refine ⟨fun data sto stg => ⟨?_, fetchGradesWith_averageGrade binary64 data stg, ?_⟩,
    fun l => ⟨calculateStudentAverageWith_eq binary64 l, ?_⟩, ?_⟩
  · rw [fetchAssignmentsWith_averageGrade, fetchGradesWith_averageGrade]
  · intro hwhole
    rw [fetchGradesWith_averageGrade, roundedMeanWith_binary64_whole _ hwhole]
  · intro hwhole
    rw [calculateStudentAverageWith_eq, roundedMeanWith_binary64_whole _ hwhole]
  · intro data l sto stg hdone hsame
    rw [calculateStudentAverageWith_eq, fetchGradesWith_averageGrade,
      fetchAssignmentsWith_averageGrade, scoredScores_eq_gradebookScores data l hdone hsame]
    exact ⟨rfl, rfl⟩

/-- The non-null scores of the sample entries are whole scores. -/
theorem gradebookScores_sampleEntries : gradebookScores sampleEntries = [100, 80, 60] := by
  decide

/-- C13 on four completed records scored 100, 80, null, 60 and their gradebook
entries: the gradebook's student average, the student's own average and the
average of the student's overview are all the rounded mean 80. -/
theorem C13_student_average_binary64_witness :
    Gradebook.calculateStudentAverageWith binary64 sampleEntries = .fin 80 ∧
    (StudentGrades.fetchGradesWith binary64 (.ok sampleCompleted)
      initialGrades).1.stats.averageGrade = .fin 80 ∧
    (StudentOverview.fetchAssignmentsWith binary64 (.ok sampleCompleted)
      initialOverview).1.stats.averageGrade = .fin 80 := by
  obtain ⟨-, hcalc, hsame⟩ := C13_student_average_binary64
  obtain ⟨hg, ho⟩ := hsame sampleCompleted sampleEntries initialOverview initialGrades
    (by decide) (by decide)
  have h80 : Gradebook.calculateStudentAverageWith binary64 sampleEntries = .fin 80 := by
    have hw : wholeScores (gradebookScores sampleEntries) := by
      rw [gradebookScores_sampleEntries]
      exact wholeScores_sampleScores
    rw [(hcalc sampleEntries).2 hw, gradebookScores_sampleEntries, roundedMean,
      if_neg (by simp)]
    have hmean : mean [100, 80, 60] = ((80 : ℤ) : ℚ) := by norm_num [mean]
    rw [hmean, round_intCast]
    norm_num
  exact ⟨h80, hg.symm.trans h80, ho.symm.trans h80⟩

/-- C13 fails for the rounded mean: on two completed records with the binary64
scores 58.333333333333336 and 66.66666666666666 the three components agree on
the average 63, while the rounded mean of the two scores is 62. -/
theorem C13_rounded_mean_counterexample :
    (StudentOverview.fetchAssignmentsWith binary64 (.ok fractionalGrades)
      initialOverview).1.stats.averageGrade = .fin 63 ∧
    (StudentGrades.fetchGradesWith binary64 (.ok fractionalGrades)
      initialGrades).1.stats.averageGrade = .fin 63 ∧
    Gradebook.calculateStudentAverageWith binary64 fractionalEntries = .fin 63 ∧
    roundedMean (scoredScores fractionalGrades) = .fin 62 ∧
    roundedMean (gradebookScores fractionalEntries) = .fin 62 := by
  have hg : gradebookScores fractionalEntries = [scoreSevenOfTwelve, scoreTwoOfThree] := rfl
  refine ⟨?_, ?_, ?_, ?_, ?_⟩
  · rw [fetchAssignmentsWith_averageGrade, scoredScores_fractionalGrades,
      roundedMeanWith_binary64_fractional]
  · rw [fetchGradesWith_averageGrade, scoredScores_fractionalGrades,
      roundedMeanWith_binary64_fractional]
  · rw [calculateStudentAverageWith_eq, hg, roundedMeanWith_binary64_fractional]
  · rw [scoredScores_fractionalGrades, roundedMean_fractional]
  · rw [hg, roundedMean_fractional]

/-- C14: evaluated in binary64, the classroom average of `fetchGradebook` is, for
every gradebook, `calculateStudentAverage` of all students' entries put together:
`Math.round` of the binary64 quotient of the binary64 sum of every non-null score
by their number (0 without any); the teacher `Overview` stores the same average
from the same gradebook, and its `completedAssignments` is the gradebook's
`totalSubmissions`; on whole scores the average is the rounded mean. -/
theorem C14_classroom_average_binary64 (data : List StudentRecord) (stg : Gradebook.State)
    (students : List Student) (assignments : List Assignment) (sto : Overview.State) :
    (Gradebook.fetchGradebookWith binary64 (.ok data) stg).1.stats.averageGrade =
      Gradebook.calculateStudentAverageWith binary64 (data.flatMap (fun r => r.assignments)) ∧
    (Gradebook.fetchGradebookWith binary64 (.ok data) stg).1.stats.averageGrade =
      roundedMeanWith binary64 (gradebookScores (data.flatMap (fun r => r.assignments))) ∧
    (wholeScores (gradebookScores (data.flatMap (fun r => r.assignments))) →
      (Gradebook.fetchGradebookWith binary64 (.ok data) stg).1.stats.averageGrade =
        roundedMean (gradebookScores (data.flatMap (fun r => r.assignments)))) ∧
    (Overview.fetchOverviewDataWith binary64 (.ok students) (.ok assignments) (.ok data)
        sto).1.stats.averageGrade =
      (Gradebook.fetchGradebookWith binary64 (.ok data) stg).1.stats.averageGrade ∧
    (Overview.fetchOverviewDataWith binary64 (.ok students) (.ok assignments) (.ok data)
        sto).1.stats.completedAssignments =
      (Gradebook.fetchGradebookWith binary64 (.ok data) stg).1.stats.totalSubmissions := by
  obtain ⟨havg, -, hcount⟩ := fetchGradebookWith_stats binary64 data stg
  refine ⟨?_, havg, ?_, ?_, ?_⟩
  · rw [havg, calculateStudentAverageWith_eq]
  · intro hwhole
    rw [havg, roundedMeanWith_binary64_whole _ hwhole]
  · rw [havg, fetchOverviewDataWith_stats]
  · rw [hcount, fetchOverviewDataWith_stats]

/-- The non-null scores of the sample gradebook are whole scores. -/
theorem wholeScores_sampleGradebook :
    gradebookScores (sampleGradebook.flatMap (fun r => r.assignments)) = [100, 80, 60, 90] ∧
    wholeScores [100, 80, 60, 90] := by
  refine ⟨by decide, ?_, ?_, ?_⟩
  · intro x hx
    simp only [List.mem_cons, List.mem_singleton, List.not_mem_nil, or_false] at hx
    rcases hx with h | h | h | h <;> subst h <;> rfl
  · norm_num
  · norm_num

/-- C14 on the sample gradebook (scores 100, 80, null, 60 and 90): the average is
the rounded mean 83 of the four scores (82.5, the tie going up) in both
components, and five submissions are counted. -/
theorem C14_classroom_average_binary64_witness :
    (Gradebook.fetchGradebookWith binary64 (.ok sampleGradebook)
      initialGradebook).1.stats.averageGrade = .fin 83 ∧
    (Overview.fetchOverviewDataWith binary64 (.ok []) (.ok []) (.ok sampleGradebook)
        initialTeacherOverview).1.stats.averageGrade = .fin 83 ∧
    (Overview.fetchOverviewDataWith binary64 (.ok []) (.ok []) (.ok sampleGradebook)
        initialTeacherOverview).1.stats.completedAssignments = 5 := by
  obtain ⟨-, -, hwhole, hsame, hcount⟩ :=
    C14_classroom_average_binary64 sampleGradebook initialGradebook [] []
      initialTeacherOverview
  obtain ⟨hs, hw⟩ := wholeScores_sampleGradebook
  have h83 : (Gradebook.fetchGradebookWith binary64 (.ok sampleGradebook)
      initialGradebook).1.stats.averageGrade = .fin 83 := by
    rw [hwhole (by rw [hs]; exact hw), hs, roundedMean, if_neg (by simp)]
    have hm : mean [100, 80, 60, 90] = 165 / 2 := by norm_num [mean]
    rw [hm, round_eq]
    norm_num
  refine ⟨h83, hsame.trans h83, hcount.trans ?_⟩
  rw [(fetchGradebookWith_stats binary64 sampleGradebook initialGradebook).2.2]
  decide

/-- C14 fails for the rounded mean: on a gradebook of two students with the
binary64 scores 58.333333333333336 and 66.66666666666666 the classroom average
is 63 in `Gradebook` and in the teacher `Overview`, while the rounded mean of
the two scores is 62. -/
theorem C14_rounded_mean_counterexample :
    (Gradebook.fetchGradebookWith binary64 (.ok fractionalGradebook)
      initialGradebook).1.stats.averageGrade = .fin 63 ∧
    (Overview.fetchOverviewDataWith binary64 (.ok []) (.ok []) (.ok fractionalGradebook)
      initialTeacherOverview).1.stats.averageGrade = .fin 63 ∧
    roundedMean (gradebookScores (fractionalGradebook.flatMap (fun r => r.assignments))) =
      .fin 62 := by
  have hg : gradebookScores (fractionalGradebook.flatMap (fun r => r.assignments)) =
      [scoreSevenOfTwelve, scoreTwoOfThree] := rfl
  refine ⟨?_, ?_, ?_⟩
  · rw [(fetchGradebookWith_stats binary64 fractionalGradebook initialGradebook).1, hg,
      roundedMeanWith_binary64_fractional]
  · rw [fetchOverviewDataWith_stats, hg, roundedMeanWith_binary64_fractional]
  · rw [hg, roundedMean_fractional]

/-- Two integers within one half of the same rational are equal unless the
rational is halfway between two integers. -/
theorem eq_round_of_abs_le_half (x : ℚ) (r : ℤ) (h : |x - r| ≤ 1 / 2)
    (htie : ¬ ∃ m : ℤ, x = m + 1 / 2) : r = round x := by
  have hr := abs_sub_round x
  rw [abs_le] at h hr
  by_contra hne
  rcases lt_or_gt_of_ne hne with hlt | hgt
  · have h1 : r + 1 ≤ round x := hlt
    have h2 : ((r + 1 : ℤ) : ℚ) ≤ ((round x : ℤ) : ℚ) := Int.cast_le.mpr h1
    push_cast at h2
    exact htie ⟨r, by linarith⟩
  · have h1 : round x + 1 ≤ r := hgt
    have h2 : ((round x + 1 : ℤ) : ℚ) ≤ ((r : ℤ) : ℚ) := Int.cast_le.mpr h1
    push_cast at h2
    exact htie ⟨round x, by linarith⟩

/-- C15: for every gradebook with at least one and fewer than `2 ^ 40`
assignment records, the completion rate of `fetchGradebook`, evaluated in
binary64 as JavaScript does, is an integer within one half of the exact
percentage (records with a non-null score divided by all records, times 100); it
lies in `[0, 100]` and is the exact percentage rounded to the nearest integer
unless that percentage is halfway between two integers.  For every gradebook
with at least one record the rate is 100 when every record has a score and 0
when none has. -/
theorem C15_completionRate_binary64 (data : List StudentRecord) (st : Gradebook.State)
    (hrecords : 0 < (data.flatMap (fun r => r.assignments)).length) :
    ((data.flatMap (fun r => r.assignments)).length < 2 ^ 40 →
      ∃ rate : ℤ,
        (Gradebook.fetchGradebookWith binary64 (.ok data) st).1.stats.completionRate =
          .fin rate ∧
        0 ≤ rate ∧ rate ≤ 100 ∧
        |((gradebookScores (data.flatMap (fun r => r.assignments))).length : ℚ) /
          (data.flatMap (fun r => r.assignments)).length * 100 - rate| ≤ 1 / 2 ∧
        ((¬ ∃ m : ℤ, ((gradebookScores (data.flatMap (fun r => r.assignments))).length : ℚ) /
            (data.flatMap (fun r => r.assignments)).length * 100 = m + 1 / 2) →
          rate = round (((gradebookScores (data.flatMap (fun r => r.assignments))).length : ℚ) /
            (data.flatMap (fun r => r.assignments)).length * 100))) ∧
    ((∀ r ∈ data, ∀ a ∈ r.assignments, a.score ≠ none) →
      (Gradebook.fetchGradebookWith binary64 (.ok data) st).1.stats.completionRate = .fin 100) ∧
    ((∀ r ∈ data, ∀ a ∈ r.assignments, a.score = none) →
      (Gradebook.fetchGradebookWith binary64 (.ok data) st).1.stats.completionRate = .fin 0) := by
  have hrate := (fetchGradebookWith_stats binary64 data st).2.1
  rw [if_pos hrecords] at hrate
  have hn : (0 : ℚ) < ((data.flatMap (fun r => r.assignments)).length : ℚ) :=
    Nat.cast_pos.mpr hrecords
  have hle := (gradebookScores_length (data.flatMap (fun r => r.assignments))).1
  have hleq : ((gradebookScores (data.flatMap (fun r => r.assignments))).length : ℚ) ≤
      (data.flatMap (fun r => r.assignments)).length := Nat.cast_le.mpr hle
  have hk : (0 : ℚ) ≤ ((gradebookScores (data.flatMap (fun r => r.assignments))).length : ℚ) :=
    Nat.cast_nonneg _
  refine ⟨?_, ?_, ?_⟩
  · intro hsize
    obtain ⟨rate, hr, hnear⟩ := round_percent_binary64 _ _ hrecords hle hsize
    have hx0 : (0 : ℚ) ≤ ((gradebookScores (data.flatMap (fun r => r.assignments))).length : ℚ) /
        (data.flatMap (fun r => r.assignments)).length * 100 := by positivity
    have hx100 : ((gradebookScores (data.flatMap (fun r => r.assignments))).length : ℚ) /
        (data.flatMap (fun r => r.assignments)).length * 100 ≤ 100 := by
      rw [div_mul_eq_mul_div, div_le_iff₀ hn]
      linarith
    have hnear2 := hnear
    rw [abs_le] at hnear2
    refine ⟨rate, by rw [hrate, hr], ?_, ?_, hnear, eq_round_of_abs_le_half _ _ hnear⟩
    · have h1 : (-1 : ℚ) < ((rate : ℤ) : ℚ) := by linarith
      have h2 : (-1 : ℤ) < rate := by exact_mod_cast h1
      omega
    · have h1 : ((rate : ℤ) : ℚ) < 101 := by linarith
      have h2 : rate < 101 := by exact_mod_cast h1
      omega
  · intro hall
    have heq : (gradebookScores (data.flatMap (fun r => r.assignments))).length =
        (data.flatMap (fun r => r.assignments)).length := by
      apply (gradebookScores_length _).2
      intro a ha
      obtain ⟨r, hr, har⟩ := List.mem_flatMap.mp ha
      exact hall r hr a har
    rw [hrate, heq, round_percent_binary64_all _ hrecords]
  · intro hnone
    have hnil : gradebookScores (data.flatMap (fun r => r.assignments)) = [] := by
      apply gradebookScores_eq_nil
      intro a ha
      obtain ⟨r, hr, har⟩ := List.mem_flatMap.mp ha
      exact hnone r hr a har
    rw [hrate, hnil]
    exact round_percent_binary64_none _ hrecords

/-- C15 on the sample gradebook: four of five records have a score, so the rate
is 80. -/
theorem C15_completionRate_binary64_witness :
    (Gradebook.fetchGradebookWith binary64 (.ok sampleGradebook)
      initialGradebook).1.stats.completionRate = .fin 80 := by
  obtain ⟨rate, hr, -, -, -, hround⟩ :=
    (C15_completionRate_binary64 sampleGradebook initialGradebook (by decide)).1 (by decide)
  have hs : (gradebookScores (sampleGradebook.flatMap (fun r => r.assignments))).length = 4 := by
    decide
  have hn : (sampleGradebook.flatMap (fun r => r.assignments)).length = 5 := by decide
  rw [hs, hn] at hround
  have h80 : rate = 80 := by
    rw [hround, round_eq]
    · rw [Int.floor_eq_iff]
      constructor <;> norm_num
    · rintro ⟨m, hm⟩
      have h1 : ((2 * m : ℤ) : ℚ) = ((159 : ℤ) : ℚ) := by
        push_cast
        norm_num at hm
        linarith
      have h2 : 2 * m = 159 := by exact_mod_cast h1
      omega
  rw [hr, h80]
  norm_num

/-- The counts of the gradebook with 23 graded entries out of 40. -/
theorem partialGradebook_counts :
    (partialGradebook.flatMap (fun r => r.assignments)).length = 40 ∧
    (gradebookScores (partialGradebook.flatMap (fun r => r.assignments))).length = 23 := by
  constructor <;> decide

/-- C15 fails at a tie: with 23 graded entries out of 40 the exact percentage is
57.5, which rounds to 58 (a tie going up, as `Math.round` does), while binary64
computes `23 / 40 * 100` as 57.49999999999999 and the stored rate is 57. -/
theorem C15_tie_counterexample :
    (Gradebook.fetchGradebookWith binary64 (.ok partialGradebook)
      initialGradebook).1.stats.completionRate = .fin 57 ∧
    JSNum.mulWith binary64 (JSNum.divWith binary64 (.fin 23) 40) 100 =
      .fin (8092405580431359 / 140737488355328) ∧
    ((gradebookScores (partialGradebook.flatMap (fun r => r.assignments))).length : ℚ) /
      (partialGradebook.flatMap (fun r => r.assignments)).length * 100 = 115 / 2 ∧
    round (((gradebookScores (partialGradebook.flatMap (fun r => r.assignments))).length : ℚ) /
      (partialGradebook.flatMap (fun r => r.assignments)).length * 100) = 58 := by
  obtain ⟨hn, hk⟩ := partialGradebook_counts
  have hprod : JSNum.mulWith binary64 (JSNum.divWith binary64 (.fin 23) 40) 100 =
      .fin (8092405580431359 / 140737488355328) := by
    rw [divWith_fin _ _ _ (by norm_num), binary64_ratio_23_of_40, mulWith_fin,
      binary64_percent_23_of_40]
  refine ⟨?_, hprod, ?_, ?_⟩
  · rw [(fetchGradebookWith_stats binary64 partialGradebook initialGradebook).2.1, hn, hk,
      if_pos (by norm_num)]
    have hcast : (((23 : ℕ) : ℚ) = 23) ∧ (((40 : ℕ) : ℚ) = 40) := by norm_num
    rw [hcast.1, hcast.2, hprod, round_fin]
    congr 1
    have : ⌊(8092405580431359 : ℚ) / 140737488355328 + 1 / 2⌋ = 57 := by
      rw [Int.floor_eq_iff]
      constructor <;> norm_num
    rw [this]
    norm_num
  · rw [hn, hk]
    norm_num
  · rw [hn, hk, round_eq, Int.floor_eq_iff]
    constructor <;> norm_num

/-! ### Fetching and submitting: failures and refresh -/

/-- C16: when the GET of the student's assignments fails, each fetch shows an
error notification and changes no state cell except `loading`, which ends
false: `StudentAssignments` keeps its list, `StudentGrades` and
`StudentOverview` keep list and stats, `AssignmentView` keeps assignment and
answers. -/
theorem C16_fetch_failure_keeps_state (error : AxiosError) :
    (∀ st : StudentAssignments.State,
      (StudentAssignments.fetchAssignments (.error error) st).1 = { st with loading := false } ∧
      Effect.toastError "Failed to load assignments" ∈
        (StudentAssignments.fetchAssignments (.error error) st).2) ∧
    (∀ st : StudentGrades.State,
      (StudentGrades.fetchGrades (.error error) st).1 = { st with loading := false } ∧
      Effect.toastError "Failed to load grades" ∈
        (StudentGrades.fetchGrades (.error error) st).2) ∧
    (∀ st : StudentOverview.State,
      (StudentOverview.fetchAssignments (.error error) st).1 = { st with loading := false } ∧
      Effect.toastError "Failed to load assignments" ∈
        (StudentOverview.fetchAssignments (.error error) st).2) ∧
    (∀ (assignmentId : String) (st : AssignmentView.State),
      (AssignmentView.fetchAssignment assignmentId (.error error) st).1 =
        { st with loading := false } ∧
      Effect.toastError "Failed to load assignment" ∈
        (AssignmentView.fetchAssignment assignmentId (.error error) st).2) := by
  refine ⟨fun st => ⟨rfl, ?_⟩, fun st => ⟨rfl, ?_⟩, fun st => ⟨rfl, ?_⟩,
    fun assignmentId st => ⟨rfl, ?_⟩⟩
  · simp [StudentAssignments.fetchAssignments]
  · simp [StudentGrades.fetchGrades]
  · simp [StudentOverview.fetchAssignments]
  · simp [AssignmentView.fetchAssignment]

/-- C16 on a `StudentAssignments` view that shows the sample list and an
`AssignmentView` with three answers: after a failed fetch the list and the
answers are still there. -/
theorem C16_fetch_failure_keeps_state_witness :
    (StudentAssignments.fetchAssignments (.error { detail := none })
      loadedAssignments).1.assignments = sampleGrades ∧
    (AssignmentView.fetchAssignment "sa-1" (.error { detail := none })
      answeredView).1.answers.get 2 = some 2 := by
  obtain ⟨h1, -, -, h4⟩ := C16_fetch_failure_keeps_state { detail := none }
  rw [(h1 loadedAssignments).1, (h4 "sa-1" answeredView).1]
  exact ⟨rfl, by decide⟩

/-- What `handleSubmit` does when its request fails: the request, the log line
and one error notification, with `submitting` back to false. -/
theorem handleSubmit_failure (assignmentId : String) (error : AxiosError)
    (getResponse : Except AxiosError (List StudentAssignment))
    (st : AssignmentView.State) (assignment : StudentAssignment)
    (hloaded : st.assignment = some assignment)
    (hpending : assignment.completed = false)
    (hall : assignment.assignment.questions.length ≤ st.answers.keys.length) :
    AssignmentView.handleSubmit assignmentId (.error error) getResponse st =
      ({ st with submitting := false },
        [Effect.axiosPost "/student/assignments/submit"
            { student_assignment_id := assignmentId
              answers := AssignmentView.fillAnswers st.answers
                assignment.assignment.questions.length 0 [] },
         Effect.consoleError "Error submitting assignment:",
         Effect.toastError (match error.detail with
           | some detail => if detail = "" then "Failed to submit assignment" else detail
           | none => "Failed to submit assignment")]) := by
  have hnot : ¬ st.answers.keys.length < assignment.assignment.questions.length :=
    Nat.not_lt.mpr hall
  simp [AssignmentView.handleSubmit, hloaded, hpending, hnot]

/-- C17, as stated, fails: on the answered sample view, a failed submit whose
response carries the detail `""` shows the fixed text, not the detail. -/
theorem C17_empty_detail_counterexample :
    (AssignmentView.handleSubmit "sa-1" (.error { detail := some "" }) (.ok [sampleRecord])
        answeredView).2 =
      [Effect.axiosPost "/student/assignments/submit"
          { student_assignment_id := "sa-1", answers := [1, 0, 2] },
       Effect.consoleError "Error submitting assignment:",
       Effect.toastError "Failed to submit assignment"] ∧
    Effect.toastError "" ∉
      (AssignmentView.handleSubmit "sa-1" (.error { detail := some "" }) (.ok [sampleRecord])
        answeredView).2 := by
  decide

/-- C17, amended: when the submit request fails, the one error notification is
the detail of the error response when it carries a non-empty one, and the fixed
text `Failed to submit assignment` when it carries none or an empty one; every
state cell but `submitting` is as before (so the answers and the assignment are),
`submitting` ends false, and no GET is issued. -/
theorem C17_submit_failure_notification (assignmentId : String) (error : AxiosError)
    (getResponse : Except AxiosError (List StudentAssignment))
    (st : AssignmentView.State) (assignment : StudentAssignment)
    (hloaded : st.assignment = some assignment)
    (hpending : assignment.completed = false)
    (hall : assignment.assignment.questions.length ≤ st.answers.keys.length) :
    (∀ detail : String, error.detail = some detail → detail ≠ "" →
      (AssignmentView.handleSubmit assignmentId (.error error) getResponse st).2.filter
        (fun e => match e with
          | .toastError _ => true
          | _ => false) = [Effect.toastError detail]) ∧
    (error.detail = none ∨ error.detail = some "" →
      (AssignmentView.handleSubmit assignmentId (.error error) getResponse st).2.filter
        (fun e => match e with
          | .toastError _ => true
          | _ => false) = [Effect.toastError "Failed to submit assignment"]) ∧
    (AssignmentView.handleSubmit assignmentId (.error error) getResponse st).1 =
      { st with submitting := false } ∧
    (∀ path, Effect.axiosGet path ∉
      (AssignmentView.handleSubmit assignmentId (.error error) getResponse st).2) ∧
    (∀ message, Effect.toastSuccess message ∉
      (AssignmentView.handleSubmit assignmentId (.error error) getResponse st).2) := by
  rw [handleSubmit_failure assignmentId error getResponse st assignment hloaded hpending hall]
  refine ⟨?_, ?_, rfl, ?_, ?_⟩
  · intro detail hd hne
    simp [hd, hne, List.filter_cons]
  · rintro (hd | hd) <;> simp [hd, List.filter_cons]
  · intro path
    simp
  · intro message
    simp

/-- C17, amended, on the answered sample view: the detail `Already submitted`
is the notification shown, and the answers are still there. -/
theorem C17_submit_failure_notification_witness :
    (AssignmentView.handleSubmit "sa-1" (.error { detail := some "Already submitted" })
        (.ok [sampleRecord]) answeredView).2.filter
      (fun e => match e with
        | .toastError _ => true
        | _ => false) = [Effect.toastError "Already submitted"] ∧
    (AssignmentView.handleSubmit "sa-1" (.error { detail := some "Already submitted" })
        (.ok [sampleRecord]) answeredView).1 = { answeredView with submitting := false } :=
  ⟨(C17_submit_failure_notification "sa-1" { detail := some "Already submitted" }
      (.ok [sampleRecord]) answeredView sampleRecord rfl rfl (by decide)).1
      "Already submitted" rfl (by decide),
   (C17_submit_failure_notification "sa-1" { detail := some "Already submitted" }
      (.ok [sampleRecord]) answeredView sampleRecord rfl rfl (by decide)).2.2.1⟩

/-- What `handleSubmit` does when its request succeeds: the request, the success
message, then everything `fetchAssignment` does, with `submitting` back to
false. -/
theorem handleSubmit_success (assignmentId : String) (response : SubmitResponse)
    (getResponse : Except AxiosError (List StudentAssignment))
    (st : AssignmentView.State) (assignment : StudentAssignment)
    (hloaded : st.assignment = some assignment)
    (hpending : assignment.completed = false)
    (hall : assignment.assignment.questions.length ≤ st.answers.keys.length) :
    AssignmentView.handleSubmit assignmentId (.ok response) getResponse st =
      ({ (AssignmentView.fetchAssignment assignmentId getResponse
            { st with submitting := true }).1 with submitting := false },
        Effect.axiosPost "/student/assignments/submit"
            { student_assignment_id := assignmentId
              answers := AssignmentView.fillAnswers st.answers
                assignment.assignment.questions.length 0 [] } ::
          Effect.toastSuccess ("Assignment submitted! Score: " ++
            roundedText (JSNum.round (.fin response.score)) ++ "%") ::
          (AssignmentView.fetchAssignment assignmentId getResponse
            { st with submitting := true }).2) := by
  have hnot : ¬ st.answers.keys.length < assignment.assignment.questions.length :=
    Nat.not_lt.mpr hall
  simp [AssignmentView.handleSubmit, hloaded, hpending, hnot]

/-- Every run of `fetchAssignment` starts with the GET of the assignment list. -/
theorem fetchAssignment_effects_head (assignmentId : String)
    (getResponse : Except AxiosError (List StudentAssignment)) (st : AssignmentView.State) :
    ∃ rest, (AssignmentView.fetchAssignment assignmentId getResponse st).2 =
      Effect.axiosGet "/student/assignments" :: rest := by
  unfold AssignmentView.fetchAssignment
  cases getResponse with
  | error e => exact ⟨_, rfl⟩
  | ok data =>
    simp only
    split <;> exact ⟨_, rfl⟩

/-- The record `fetchAssignment` stores when the fetched list holds one with the
route's id. -/
theorem fetchAssignment_found (assignmentId : String) (data : List StudentAssignment)
    (st : AssignmentView.State) (record : StudentAssignment)
    (hfound : data.find? (fun a => a.student_assignment_id == assignmentId) = some record) :
    AssignmentView.fetchAssignment assignmentId (.ok data) st =
      ({ st with assignment := some record, loading := false },
        [Effect.axiosGet "/student/assignments"]) := by
  simp [AssignmentView.fetchAssignment, hfound]

/-- C18: when the submit request succeeds, `handleSubmit` issues the GET of the
assignment list after the POST and the success message; whenever the list that
comes back holds a record with the route's `assignmentId`, the assignment state
afterwards is the first such record of that list, whatever score the submit
response carried; `submitting` ends false. -/
theorem C18_submit_success_refetch (assignmentId : String) (response : SubmitResponse)
    (getResponse : Except AxiosError (List StudentAssignment))
    (st : AssignmentView.State) (assignment : StudentAssignment)
    (hloaded : st.assignment = some assignment)
    (hpending : assignment.completed = false)
    (hall : assignment.assignment.questions.length ≤ st.answers.keys.length) :
    (∃ body message rest,
      (AssignmentView.handleSubmit assignmentId (.ok response) getResponse st).2 =
        Effect.axiosPost "/student/assignments/submit" body :: Effect.toastSuccess message ::
          Effect.axiosGet "/student/assignments" :: rest) ∧
    (AssignmentView.handleSubmit assignmentId (.ok response) getResponse st).1.submitting =
      false ∧
    (∀ (data : List StudentAssignment) (record : StudentAssignment),
      getResponse = .ok data →
      data.find? (fun a => a.student_assignment_id == assignmentId) = some record →
      (AssignmentView.handleSubmit assignmentId (.ok response) getResponse st).1.assignment =
        some record ∧
      record ∈ data ∧ record.student_assignment_id = assignmentId) ∧
    (∀ response' : SubmitResponse,
      (AssignmentView.handleSubmit assignmentId (.ok response') getResponse st).1 =
        (AssignmentView.handleSubmit assignmentId (.ok response) getResponse st).1) := by
  have h := handleSubmit_success assignmentId response getResponse st assignment hloaded
    hpending hall
  refine ⟨?_, ?_, ?_, ?_⟩
  · obtain ⟨rest, hrest⟩ := fetchAssignment_effects_head assignmentId getResponse
      { st with submitting := true }
    rw [h, hrest]
    exact ⟨_, _, rest, rfl⟩
  · rw [h]
  · intro data record hget hfound
    subst hget
    rw [h, fetchAssignment_found assignmentId data _ record hfound]
    refine ⟨rfl, List.mem_of_find?_eq_some hfound, ?_⟩
    have hp := List.find?_some hfound
    simpa using hp
  · intro response'
    rw [h, handleSubmit_success assignmentId response' getResponse st assignment hloaded
      hpending hall]

/-- C18 on the answered sample view: the backend returns score 50 for the
submit and the graded record (completed, score 200/3) on the re-fetch; the view
then holds the re-fetched record. -/
theorem C18_submit_success_refetch_witness :
    (AssignmentView.handleSubmit "sa-1" (.ok { score := 50 })
        (.ok [gradedRecord "g-1" true (some 100), submittedRecord]) answeredView).1.assignment =
      some submittedRecord :=
  ((C18_submit_success_refetch "sa-1" { score := 50 }
      (.ok [gradedRecord "g-1" true (some 100), submittedRecord]) answeredView sampleRecord
      rfl rfl (by decide)).2.2.1
    [gradedRecord "g-1" true (some 100), submittedRecord] submittedRecord rfl rfl).1

/-- The assignment after any run of `fetchAssignment`: the one before, or the
first record of the fetched list with the route's id. -/
theorem fetchAssignment_assignment_cases (assignmentId : String)
    (getResponse : Except AxiosError (List StudentAssignment)) (st : AssignmentView.State) :
    (AssignmentView.fetchAssignment assignmentId getResponse st).1.assignment = st.assignment ∨
    ∃ data record, getResponse = .ok data ∧
      data.find? (fun a => a.student_assignment_id == assignmentId) = some record ∧
      (AssignmentView.fetchAssignment assignmentId getResponse st).1.assignment =
        some record := by
  cases getResponse with
  | error e => exact Or.inl rfl
  | ok data =>
    cases hfound : data.find? (fun a => a.student_assignment_id == assignmentId) with
    | none =>
      left
      simp [AssignmentView.fetchAssignment, hfound]
    | some record =>
      right
      exact ⟨data, record, rfl, hfound, by rw [fetchAssignment_found _ _ _ _ hfound]⟩

/-- The assignment after any run of `handleSubmit`: the one before, or, after a
successful submit of a pending assignment, the first record with the route's id
of the list that the refresh fetched. -/
theorem handleSubmit_assignment_cases (assignmentId : String)
    (postResponse : Except AxiosError SubmitResponse)
    (getResponse : Except AxiosError (List StudentAssignment)) (st : AssignmentView.State) :
    (AssignmentView.handleSubmit assignmentId postResponse getResponse st).1.assignment =
      st.assignment ∨
    ∃ response data record assignment,
      postResponse = .ok response ∧ getResponse = .ok data ∧
      data.find? (fun a => a.student_assignment_id == assignmentId) = some record ∧
      st.assignment = some assignment ∧ assignment.completed = false ∧
      assignment.assignment.questions.length ≤ st.answers.keys.length ∧
      (AssignmentView.handleSubmit assignmentId postResponse getResponse st).1.assignment =
        some record := by
  cases hs : st.assignment with
  | none =>
    left
    simp [AssignmentView.handleSubmit, hs]
  | some a =>
    cases hc : a.completed with
    | true =>
      left
      simp [AssignmentView.handleSubmit, hs, hc]
    | false =>
      by_cases hlt : st.answers.keys.length < a.assignment.questions.length
      · left
        simp [AssignmentView.handleSubmit, hs, hc, hlt]
      · have hall := Nat.not_lt.mp hlt
        cases postResponse with
        | error e =>
          left
          rw [handleSubmit_failure assignmentId e getResponse st a hs hc hall]
          exact hs
        | ok response =>
          rw [handleSubmit_success assignmentId response getResponse st a hs hc hall]
          rcases fetchAssignment_assignment_cases assignmentId getResponse
            { st with submitting := true } with h | ⟨data, record, hget, hfound, h⟩
          · left
            exact h.trans hs
          · right
            exact ⟨response, data, record, a, rfl, hget, hfound, rfl, hc, hall, h⟩

/-- C19: the loaded record is never derived or altered locally.
`handleAnswerChange` leaves it as it was; so does every run of `handleSubmit`
that sends no request or whose request fails; whenever a run of `handleSubmit`
changes it, the submit succeeded and the new record is one of the list that the
refresh fetched; a completed record is left as it was by every run of
`handleSubmit`, so `completed` never goes from true to false; and
`fetchAssignment` stores either the former record or one of the fetched list. -/
theorem C19_record_only_from_fetch :
    (∀ (q a : Int) (st : AssignmentView.State),
      (AssignmentView.handleAnswerChange q a st).assignment = st.assignment) ∧
    (∀ (assignmentId : String) (postResponse : Except AxiosError SubmitResponse)
        (getResponse : Except AxiosError (List StudentAssignment)) (st : AssignmentView.State),
      (∀ path body, Effect.axiosPost path body ∉
        (AssignmentView.handleSubmit assignmentId postResponse getResponse st).2) →
      (AssignmentView.handleSubmit assignmentId postResponse getResponse st).1.assignment =
        st.assignment) ∧
    (∀ (assignmentId : String) (error : AxiosError)
        (getResponse : Except AxiosError (List StudentAssignment)) (st : AssignmentView.State),
      (AssignmentView.handleSubmit assignmentId (.error error) getResponse st).1.assignment =
        st.assignment) ∧
    (∀ (assignmentId : String) (postResponse : Except AxiosError SubmitResponse)
        (getResponse : Except AxiosError (List StudentAssignment)) (st : AssignmentView.State),
      (AssignmentView.handleSubmit assignmentId postResponse getResponse st).1.assignment ≠
        st.assignment →
      ∃ response data record,
        postResponse = .ok response ∧ getResponse = .ok data ∧ record ∈ data ∧
        (AssignmentView.handleSubmit assignmentId postResponse getResponse st).1.assignment =
          some record ∧
        (∃ body, Effect.axiosPost "/student/assignments/submit" body ∈
          (AssignmentView.handleSubmit assignmentId postResponse getResponse st).2)) ∧
    (∀ (assignmentId : String) (postResponse : Except AxiosError SubmitResponse)
        (getResponse : Except AxiosError (List StudentAssignment)) (st : AssignmentView.State)
        (assignment : StudentAssignment),
      st.assignment = some assignment → assignment.completed = true →
      (AssignmentView.handleSubmit assignmentId postResponse getResponse st).1.assignment =
        some assignment) ∧
    (∀ (assignmentId : String) (getResponse : Except AxiosError (List StudentAssignment))
        (st : AssignmentView.State),
      (AssignmentView.fetchAssignment assignmentId getResponse st).1.assignment =
        st.assignment ∨
      ∃ data record, getResponse = .ok data ∧ record ∈ data ∧
        (AssignmentView.fetchAssignment assignmentId getResponse st).1.assignment =
          some record) := by
  refine ⟨fun _ _ _ => rfl, ?_, ?_, ?_, ?_, ?_⟩
  · intro assignmentId postResponse getResponse st hnone
    rcases handleSubmit_assignment_cases assignmentId postResponse getResponse st with
      h | ⟨response, data, record, a, hpost, -, -, hs, hc, hall, -⟩
    · exact h
    · subst hpost
      rw [handleSubmit_success assignmentId response getResponse st a hs hc hall] at hnone
      exact absurd (List.mem_cons_self _ _) (hnone _ _)
  · intro assignmentId error getResponse st
    rcases handleSubmit_assignment_cases assignmentId (.error error) getResponse st with
      h | ⟨response, _, _, _, hpost, _⟩
    · exact h
    · cases hpost
  · intro assignmentId postResponse getResponse st hchanged
    rcases handleSubmit_assignment_cases assignmentId postResponse getResponse st with
      h | ⟨response, data, record, a, hpost, hget, hfound, hs, hc, hall, h⟩
    · exact absurd h hchanged
    · refine ⟨response, data, record, hpost, hget, List.mem_of_find?_eq_some hfound, h, ?_⟩
      subst hpost
      rw [handleSubmit_success assignmentId response getResponse st a hs hc hall]
      exact ⟨_, List.mem_cons_self _ _⟩
  · intro assignmentId postResponse getResponse st assignment hs hc
    simp [AssignmentView.handleSubmit, hs, hc]
  · intro assignmentId getResponse st
    rcases fetchAssignment_assignment_cases assignmentId getResponse st with
      h | ⟨data, record, hget, hfound, h⟩
    · exact Or.inl h
    · exact Or.inr ⟨data, record, hget, List.mem_of_find?_eq_some hfound, h⟩

/-- C19 on the answered sample view: a submit that the backend rejects leaves
the pending record, although a refresh would have returned the graded one. -/
theorem C19_record_only_from_fetch_witness :
    (AssignmentView.handleSubmit "sa-1" (.error { detail := none }) (.ok [submittedRecord])
        answeredView).1.assignment = some sampleRecord :=
  C19_record_only_from_fetch.2.2.1 "sa-1" { detail := none } (.ok [submittedRecord])
    answeredView

/-- C20: when the fetched list holds no record with the route's `assignmentId`,
`fetchAssignment` shows `Assignment not found`, navigates to
`/student/assignments`, sets no state cell but `loading`, which ends false; when
the list holds such a record, the assignment becomes the first of them,
`loading` ends false, and the GET is the only effect (no navigation, no
notification). -/
theorem C20_fetchAssignment_not_found (assignmentId : String) (st : AssignmentView.State) :
    (∀ data : List StudentAssignment,
      (∀ a ∈ data, a.student_assignment_id ≠ assignmentId) →
      AssignmentView.fetchAssignment assignmentId (.ok data) st =
        ({ st with loading := false },
          [Effect.axiosGet "/student/assignments", Effect.toastError "Assignment not found",
           Effect.navigate "/student/assignments"])) ∧
    (∀ (before after : List StudentAssignment) (record : StudentAssignment),
      (∀ a ∈ before, a.student_assignment_id ≠ assignmentId) →
      record.student_assignment_id = assignmentId →
      AssignmentView.fetchAssignment assignmentId (.ok (before ++ record :: after)) st =
        ({ st with assignment := some record, loading := false },
          [Effect.axiosGet "/student/assignments"])) := by
  refine ⟨?_, ?_⟩
  · intro data hnone
    have hfind : data.find? (fun a => a.student_assignment_id == assignmentId) = none := by
      rw [List.find?_eq_none]
      intro a ha
      simpa using hnone a ha
    simp [AssignmentView.fetchAssignment, hfind]
  · intro before after record hbefore hid
    apply fetchAssignment_found
    rw [List.find?_eq_some]
    refine ⟨by simpa using hid, before, after, rfl, ?_⟩
    intro a ha
    simpa using hbefore a ha

/-- C20 on the sample view: a list without the id `sa-9` sends the user back to
the assignment list with the record on screen unchanged; a list with two records
of id `sa-1` loads the first of them. -/
theorem C20_fetchAssignment_not_found_witness :
    AssignmentView.fetchAssignment "sa-9" (.ok [sampleRecord, submittedRecord])
        (sampleView AnswerMap.empty) =
      ({ sampleView AnswerMap.empty with loading := false },
        [Effect.axiosGet "/student/assignments", Effect.toastError "Assignment not found",
         Effect.navigate "/student/assignments"]) ∧
    (AssignmentView.fetchAssignment "sa-1"
        (.ok ([gradedRecord "g-1" true (some 100)] ++ submittedRecord :: [sampleRecord]))
        { sampleView AnswerMap.empty with assignment := none }).1.assignment =
      some submittedRecord :=
  ⟨(C20_fetchAssignment_not_found "sa-9" (sampleView AnswerMap.empty)).1
      [sampleRecord, submittedRecord] (by decide),
   congrArg (fun r => r.1.assignment)
     ((C20_fetchAssignment_not_found "sa-1"
        { sampleView AnswerMap.empty with assignment := none }).2
        [gradedRecord "g-1" true (some 100)] [sampleRecord] submittedRecord (by decide) rfl)⟩

/-! ### The completeness check by key count -/

/-- C23: the completeness check by key count passes on sparse keys.  There is a
view with a pending assignment of `N` questions and an answer mapping of at
least `N` keys that lacks an index below `N` (here `N = 2` and `{0: 1, 5: 0}`)
on which `handleSubmit`, whatever the backend answers, does not stop at the
incomplete-submission error: its first effect is the POST, of an array that
contains the sentinel `-1` (here `[1, -1]`). -/
theorem C23_count_check_passes_on_sparse_keys :
    ∃ (st : AssignmentView.State) (assignment : StudentAssignment) (i : Nat),
      st.assignment = some assignment ∧ assignment.completed = false ∧
      assignment.assignment.questions.length ≤ st.answers.keys.length ∧
      i < assignment.assignment.questions.length ∧ st.answers.get (i : Int) = none ∧
      ∀ (postResponse : Except AxiosError SubmitResponse)
        (getResponse : Except AxiosError (List StudentAssignment)),
        AssignmentView.handleSubmit "sa-2" postResponse getResponse st ≠
          (st, [Effect.toastError ("Please answer all " ++
            toString assignment.assignment.questions.length ++
            " questions before submitting.")]) ∧
        ∃ body rest,
          (AssignmentView.handleSubmit "sa-2" postResponse getResponse st).2 =
            Effect.axiosPost "/student/assignments/submit" body :: rest ∧
          body.answers = [1, -1] ∧ (-1 : Int) ∈ body.answers := by
  refine ⟨sparseView, twoQuestionRecord, 1, rfl, rfl, by decide, by decide, by decide, ?_⟩
  intro postResponse getResponse
  cases postResponse with
  | error e =>
    rw [handleSubmit_failure "sa-2" e getResponse sparseView twoQuestionRecord rfl rfl
      (by decide)]
    refine ⟨?_, _, _, rfl, by decide, by decide⟩
    intro h
    have h2 := congrArg (fun r => r.2.length) h
    simp at h2
  | ok response =>
    rw [handleSubmit_success "sa-2" response getResponse sparseView twoQuestionRecord rfl rfl
      (by decide)]
    refine ⟨?_, _, _, rfl, by decide, by decide⟩
    intro h
    have h2 := congrArg (fun r => r.2.head?) h
    simp at h2

/-- A mapping with at least `N` keys, all of them in `0..N-1`, has every index
of `0..N-1` as a key. -/
theorem AnswerMap.covers_range (m : AnswerMap) (N : Nat)
    (hrange : ∀ k ∈ m.keys, 0 ≤ k ∧ k < (N : Int)) (hcount : N ≤ m.keys.length)
    (i : Nat) (hi : i < N) : (i : Int) ∈ m.keys := by
  have hsub : m.keys.toFinset ⊆ Finset.Ico (0 : Int) N := by
    intro k hk
    rw [Finset.mem_Ico]
    exact hrange k (List.mem_toFinset.mp hk)
  have hcard : (Finset.Ico (0 : Int) N).card ≤ m.keys.toFinset.card := by
    rw [Int.card_Ico, ← AnswerMap.keys_length]
    simpa using hcount
  have heq := Finset.eq_of_subset_of_card_le hsub hcard
  have hmem : (i : Int) ∈ Finset.Ico (0 : Int) N := by
    rw [Finset.mem_Ico]
    exact ⟨Int.natCast_nonneg i, Int.ofNat_lt.mpr hi⟩
  rw [← heq] at hmem
  exact List.mem_toFinset.mp hmem

/-- C26: for a pending assignment of `N` questions and an answer mapping whose
keys all lie in `0..N-1`, passing the completeness check means that every
question has a stored option, and the array that `handleSubmit` posts holds at
each index below `N` the option stored for that question, never the fallback. -/
theorem C26_in_range_keys_no_sentinel (assignmentId : String)
    (postResponse : Except AxiosError SubmitResponse)
    (getResponse : Except AxiosError (List StudentAssignment))
    (st : AssignmentView.State) (assignment : StudentAssignment)
    (hloaded : st.assignment = some assignment)
    (hpending : assignment.completed = false)
    (hrange : ∀ k ∈ st.answers.keys,
      0 ≤ k ∧ k < (assignment.assignment.questions.length : Int))
    (hall : assignment.assignment.questions.length ≤ st.answers.keys.length) :
    ∃ (body : SubmitBody) (rest : List Effect),
      (AssignmentView.handleSubmit assignmentId postResponse getResponse st).2 =
        Effect.axiosPost "/student/assignments/submit" body :: rest ∧
      body.answers.length = assignment.assignment.questions.length ∧
      ∀ i : Nat, i < assignment.assignment.questions.length →
        ∃ option, st.answers.get (i : Int) = some option ∧ body.answers[i]? = some option := by
  have hbody : ∀ i : Nat, i < assignment.assignment.questions.length →
      ∃ option, st.answers.get (i : Int) = some option ∧
        (AssignmentView.fillAnswers st.answers assignment.assignment.questions.length 0 [])[i]? =
          some option := by
    intro i hi
    obtain ⟨option, hopt⟩ := (AnswerMap.mem_keys_iff st.answers i).mp
      (AnswerMap.covers_range st.answers _ hrange hall i hi)
    refine ⟨option, hopt, ?_⟩
    rw [fillAnswers_getElem? _ _ _ hi, hopt]
    rfl
  cases postResponse with
  | error e =>
    rw [handleSubmit_failure assignmentId e getResponse st assignment hloaded hpending hall]
    exact ⟨_, _, rfl, fillAnswers_length _ _, hbody⟩
  | ok response =>
    rw [handleSubmit_success assignmentId response getResponse st assignment hloaded hpending
      hall]
    exact ⟨_, _, rfl, fillAnswers_length _ _, hbody⟩

/-- C26 on the answered sample view (keys 0, 1, 2 for three questions): entry 2
of the posted array is the stored option 2. -/
theorem C26_in_range_keys_no_sentinel_witness :
    ∃ (body : SubmitBody) (rest : List Effect),
      (AssignmentView.handleSubmit "sa-1" (.error { detail := none }) (.ok [])
        answeredView).2 = Effect.axiosPost "/student/assignments/submit" body :: rest ∧
      body.answers[2]? = some 2 := by
  obtain ⟨body, rest, heff, -, hentries⟩ :=
    C26_in_range_keys_no_sentinel "sa-1" (.error { detail := none }) (.ok []) answeredView
      sampleRecord rfl rfl (by decide) (by decide)
  obtain ⟨option, hget, hentry⟩ := hentries 2 (by decide)
  have h2 : answeredView.answers.get ((2 : Nat) : Int) = some 2 := by decide
  rw [h2] at hget
  exact ⟨body, rest, heff, by rw [hentry, ← Option.some.inj hget]⟩

/-! ### Bounds of the average -/

/-- A lower bound of the elements bounds the sum. -/
theorem sum_ge_of_forall_ge (xs : List ℚ) (a : ℚ) (h : ∀ x ∈ xs, a ≤ x) :
    a * xs.length ≤ xs.sum := by
  induction xs with
  | nil => simp
  | cons x rest ih =>
    have h1 := h x (List.mem_cons_self x rest)
    have h2 := ih (fun y hy => h y (List.mem_cons_of_mem x hy))
    simp only [List.length_cons, List.sum_cons, Nat.cast_add, Nat.cast_one]
    linarith

/-- An upper bound of the elements bounds the sum. -/
theorem sum_le_of_forall_le (xs : List ℚ) (b : ℚ) (h : ∀ x ∈ xs, x ≤ b) :
    xs.sum ≤ b * xs.length := by
  induction xs with
  | nil => simp
  | cons x rest ih =>
    have h1 := h x (List.mem_cons_self x rest)
    have h2 := ih (fun y hy => h y (List.mem_cons_of_mem x hy))
    simp only [List.length_cons, List.sum_cons, Nat.cast_add, Nat.cast_one]
    linarith

/-- The mean of a non-empty list lies between any two bounds of its elements. -/
theorem mean_mem_bounds (xs : List ℚ) (a b : ℚ) (hne : xs ≠ [])
    (ha : ∀ x ∈ xs, a ≤ x) (hb : ∀ x ∈ xs, x ≤ b) : a ≤ mean xs ∧ mean xs ≤ b := by
  have hpos : (0 : ℚ) < xs.length := Nat.cast_pos.mpr (List.length_pos.mpr hne)
  unfold mean
  exact ⟨(le_div_iff₀ hpos).mpr (sum_ge_of_forall_ge xs a ha),
    (div_le_iff₀ hpos).mpr (sum_le_of_forall_le xs b hb)⟩

/-- Rounding keeps a value between two integer bounds. -/
theorem round_mem_int_bounds (x : ℚ) (n m : ℤ) (hn : (n : ℚ) ≤ x) (hm : x ≤ m) :
    n ≤ round x ∧ round x ≤ m := by
  rw [round_eq]
  constructor
  · apply Int.le_floor.mpr
    linarith
  · have h : ⌊x + 1 / 2⌋ < m + 1 := by
      apply Int.floor_lt.mpr
      push_cast
      linarith
    omega

/-- C27: for a fetched list with at least one completed, scored record whose
scores are all integers, the stats of `fetchGrades` are finite numbers with
`lowestGrade ≤ averageGrade ≤ highestGrade`, the two bounds being scores of the
list; so the average lies in `[0, 100]` whenever every score does. -/
theorem C27_average_between_bounds (data : List StudentAssignment) (st : StudentGrades.State)
    (hscored : ∃ a ∈ data, a.completed = true ∧ a.score ≠ none)
    (hint : ∀ x ∈ scoredScores data, ∃ n : ℤ, x = n) :
    ∃ lowest average highest : ℚ,
      (StudentGrades.fetchGrades (.ok data) st).1.stats.lowestGrade = .fin lowest ∧
      (StudentGrades.fetchGrades (.ok data) st).1.stats.averageGrade = .fin average ∧
      (StudentGrades.fetchGrades (.ok data) st).1.stats.highestGrade = .fin highest ∧
      lowest ≤ average ∧ average ≤ highest ∧
      lowest ∈ scoredScores data ∧ highest ∈ scoredScores data ∧
      ((∀ x ∈ scoredScores data, 0 ≤ x ∧ x ≤ 100) → 0 ≤ average ∧ average ≤ 100) := by
  have hne : scoredScores data ≠ [] := by
    obtain ⟨a, ha, hc, hs⟩ := hscored
    obtain ⟨q, hq⟩ := Option.ne_none_iff_exists'.mp hs
    have hmem : q ∈ scoredScores data :=
      List.mem_filterMap.mpr ⟨a, ha, by simp [hc, hq]⟩
    exact List.ne_nil_of_mem hmem
  have hpos : 0 < (scoredScores data).length := List.length_pos.mpr hne
  have hstats := fetchGrades_stats data st
  rw [if_pos hpos] at hstats
  obtain ⟨hi, hhi, hhigh, hmax⟩ := mathMax_spec _ hne
  obtain ⟨lo, hlo, hlow, hmin⟩ := mathMin_spec _ hne
  obtain ⟨n, hn⟩ := hint lo hlo
  obtain ⟨m, hm⟩ := hint hi hhi
  obtain ⟨hmean1, hmean2⟩ := mean_mem_bounds _ lo hi hne hmin hmax
  obtain ⟨hr1, hr2⟩ := round_mem_int_bounds (mean (scoredScores data)) n m
    (by rw [← hn]; exact hmean1) (by rw [← hm]; exact hmean2)
  refine ⟨lo, ((round (mean (scoredScores data)) : ℤ) : ℚ), hi, ?_, ?_, ?_, ?_, ?_, hlo, hhi, ?_⟩
  · rw [hstats]; exact hlow
  · rw [hstats]; exact round_div_length _ _ (Nat.pos_iff_ne_zero.mp hpos)
  · rw [hstats]; exact hhigh
  · rw [hn]; exact_mod_cast hr1
  · rw [hm]; exact_mod_cast hr2
  · intro hbounds
    have h0 : (0 : ℚ) ≤ lo := (hbounds lo hlo).1
    have h100 : hi ≤ (100 : ℚ) := (hbounds hi hhi).2
    constructor
    · have : lo ≤ ((round (mean (scoredScores data)) : ℤ) : ℚ) := by
        rw [hn]; exact_mod_cast hr1
      linarith
    · have : ((round (mean (scoredScores data)) : ℤ) : ℚ) ≤ hi := by
        rw [hm]; exact_mod_cast hr2
      linarith

/-- C27 on the sample list (scores 100, 80, 60): the three stats are finite and
ordered, and the average lies in `[0, 100]`. -/
theorem C27_average_between_bounds_witness :
    ∃ lowest average highest : ℚ,
      (StudentGrades.fetchGrades (.ok sampleGrades) initialGrades).1.stats.lowestGrade =
        .fin lowest ∧
      (StudentGrades.fetchGrades (.ok sampleGrades) initialGrades).1.stats.averageGrade =
        .fin average ∧
      (StudentGrades.fetchGrades (.ok sampleGrades) initialGrades).1.stats.highestGrade =
        .fin highest ∧
      lowest ≤ average ∧ average ≤ highest ∧ 0 ≤ average ∧ average ≤ 100 := by
  obtain ⟨lo, avg, hi, h1, h2, h3, h4, h5, -, -, h6⟩ :=
    C27_average_between_bounds sampleGrades initialGrades
      ⟨gradedRecord "g-1" true (some 100), by decide, rfl, by decide⟩
      (by
        rw [scoredScores_sampleGrades]
        intro x hx
        simp only [List.mem_cons, List.mem_singleton, List.not_mem_nil, or_false] at hx
        rcases hx with h | h | h
        · exact ⟨100, by rw [h]; norm_num⟩
        · exact ⟨80, by rw [h]; norm_num⟩
        · exact ⟨60, by rw [h]; norm_num⟩)
  have hb := h6 (by
    rw [scoredScores_sampleGrades]
    intro x hx
    simp only [List.mem_cons, List.mem_singleton, List.not_mem_nil, or_false] at hx
    rcases hx with h | h | h <;> rw [h] <;> norm_num)
  exact ⟨lo, avg, hi, h1, h2, h3, h4, h5, hb.1, hb.2⟩

/-! ### The letter beside the rounded percentage -/

/-- An integer is at most the floor of `x` when it is at most `x`. -/
theorem le_floor_cast (k : ℤ) (x : ℚ) : (k : ℚ) ≤ ((⌊x⌋ : ℤ) : ℚ) ↔ (k : ℚ) ≤ x := by
  rw [Int.cast_le, Int.le_floor]

/-- The tests `Math.round(s) >= k` for the four thresholds, as tests on `s`. -/
theorem round_ge_thresholds (s : ℚ) :
    ((90 : ℚ) ≤ ((⌊s + 1 / 2⌋ : ℤ) : ℚ) ↔ 179 / 2 ≤ s) ∧
    ((80 : ℚ) ≤ ((⌊s + 1 / 2⌋ : ℤ) : ℚ) ↔ 159 / 2 ≤ s) ∧
    ((70 : ℚ) ≤ ((⌊s + 1 / 2⌋ : ℤ) : ℚ) ↔ 139 / 2 ≤ s) ∧
    ((60 : ℚ) ≤ ((⌊s + 1 / 2⌋ : ℤ) : ℚ) ↔ 119 / 2 ≤ s) := by
  have h : ∀ k : ℤ, (k : ℚ) ≤ ((⌊s + 1 / 2⌋ : ℤ) : ℚ) ↔ (k : ℚ) - 1 / 2 ≤ s := by
    intro k
    rw [le_floor_cast]
    constructor <;> intro h <;> linarith
  have h90 := h 90
  have h80 := h 80
  have h70 := h 70
  have h60 := h 60
  norm_num at h90 h80 h70 h60
  exact ⟨h90, h80, h70, h60⟩

/-- The letter of the rounded score, by comparisons of the raw score. -/
theorem getLetterGrade_round (s : ℚ) :
    AssignmentView.getLetterGrade (JSNum.round (.fin s)) =
      if 179 / 2 ≤ s then "A" else if 159 / 2 ≤ s then "B" else if 139 / 2 ≤ s then "C"
      else if 119 / 2 ≤ s then "D" else "F" := by
  obtain ⟨h90, h80, h70, h60⟩ := round_ge_thresholds s
  simp only [JSNum.round, getLetterGrade_fin, h90, h80, h70, h60]

/-- The colour class of a finite score, by comparisons of rationals. -/
theorem getGradeColor_fin (s : ℚ) :
    AssignmentView.getGradeColor (.fin s) =
      if 90 ≤ s then "text-green-400" else if 80 ≤ s then "text-blue-400"
      else if 70 ≤ s then "text-yellow-400" else if 60 ≤ s then "text-orange-400"
      else "text-red-400" := by
  simp only [AssignmentView.getGradeColor, JSNum.ge_fin, decide_eq_true_eq]

/-- The colour class of the rounded score, by comparisons of the raw score. -/
theorem getGradeColor_round (s : ℚ) :
    AssignmentView.getGradeColor (JSNum.round (.fin s)) =
      if 179 / 2 ≤ s then "text-green-400" else if 159 / 2 ≤ s then "text-blue-400"
      else if 139 / 2 ≤ s then "text-yellow-400" else if 119 / 2 ≤ s then "text-orange-400"
      else "text-red-400" := by
  obtain ⟨h90, h80, h70, h60⟩ := round_ge_thresholds s
  simp only [JSNum.round, getGradeColor_fin, h90, h80, h70, h60]

/-- The raw score and the rounded score have the same letter exactly when the
score is not just below a band edge. -/
theorem letter_round_iff (s : ℚ) :
    AssignmentView.getLetterGrade (.fin s) =
        AssignmentView.getLetterGrade (JSNum.round (.fin s)) ↔ ¬ nearThreshold s := by
  rw [getLetterGrade_fin, getLetterGrade_round]
  simp only [nearThreshold, List.mem_cons, List.mem_singleton, List.not_mem_nil, or_false,
    exists_eq_or_imp, exists_eq_left]
  norm_num
  split_ifs <;> constructor <;> intro h <;>
    first
    | (exfalso; linarith)
    | (exfalso; revert h; decide)
    | rfl
    | (refine ⟨?_, ?_, ?_, ?_⟩ <;> intro _ <;> linarith)
    | (exfalso
       obtain ⟨h1, h2, h3, h4⟩ := h
       first
       | linarith [h1 (by linarith)]
       | linarith [h2 (by linarith)]
       | linarith [h3 (by linarith)]
       | linarith [h4 (by linarith)])

/-- The raw score and the rounded score have the same colour class exactly when
the score is not just below a band edge. -/
theorem colour_round_iff (s : ℚ) :
    AssignmentView.getGradeColor (.fin s) =
        AssignmentView.getGradeColor (JSNum.round (.fin s)) ↔ ¬ nearThreshold s := by
  rw [getGradeColor_fin, getGradeColor_round]
  simp only [nearThreshold, List.mem_cons, List.mem_singleton, List.not_mem_nil, or_false,
    exists_eq_or_imp, exists_eq_left]
  norm_num
  split_ifs <;> constructor <;> intro h <;>
    first
    | (exfalso; linarith)
    | (exfalso; revert h; decide)
    | rfl
    | (refine ⟨?_, ?_, ?_, ?_⟩ <;> intro _ <;> linarith)
    | (exfalso
       obtain ⟨h1, h2, h3, h4⟩ := h
       first
       | linarith [h1 (by linarith)]
       | linarith [h2 (by linarith)]
       | linarith [h3 (by linarith)]
       | linarith [h4 (by linarith)])

/-- The badge is determined by the letter: two scores with the same letter have
the same badge. -/
theorem badge_eq_of_letter_eq (x y : JSNum)
    (h : AssignmentView.getLetterGrade x = AssignmentView.getLetterGrade y) :
    StudentGrades.getGradeBadge x = StudentGrades.getGradeBadge y := by
  revert h
  simp only [StudentGrades.getGradeBadge, AssignmentView.getLetterGrade]
  cases x.ge (.fin 90) <;> cases x.ge (.fin 80) <;> cases x.ge (.fin 70) <;>
    cases x.ge (.fin 60) <;> cases y.ge (.fin 90) <;> cases y.ge (.fin 80) <;>
    cases y.ge (.fin 70) <;> cases y.ge (.fin 60) <;> decide

/-- The text of the badge is the letter. -/
theorem getGradeBadge_text (x : JSNum) :
    (StudentGrades.getGradeBadge x).text = AssignmentView.getLetterGrade x := by
  simp only [StudentGrades.getGradeBadge, AssignmentView.getLetterGrade]
  cases x.ge (.fin 90) <;> cases x.ge (.fin 80) <;> cases x.ge (.fin 70) <;>
    cases x.ge (.fin 60) <;> rfl

/-- C28, as stated, fails at the score 89.5, which lies in `[0, 100]`: the
percentage displayed is 90, whose letter is A and whose colour is green, while
the letter and colour shown are B and blue, those of the raw score. -/
theorem C28_rounded_letter_counterexample :
    (0 : ℚ) ≤ 179 / 2 ∧ (179 / 2 : ℚ) ≤ 100 ∧
    JSNum.round (.fin (179 / 2)) = .fin 90 ∧
    AssignmentView.getLetterGrade (.fin (179 / 2)) = "B" ∧
    AssignmentView.getLetterGrade (JSNum.round (.fin (179 / 2))) = "A" ∧
    AssignmentView.getGradeColor (.fin (179 / 2)) = "text-blue-400" ∧
    AssignmentView.getGradeColor (JSNum.round (.fin (179 / 2))) = "text-green-400" ∧
    (StudentGrades.getGradeBadge (.fin (179 / 2))).text = "B" := by
  have hround : JSNum.round (.fin (179 / 2)) = .fin 90 := by
    simp only [JSNum.round]
    norm_num
  refine ⟨by norm_num, by norm_num, hround, ?_, ?_, ?_, ?_, ?_⟩
  · rw [getLetterGrade_fin]; norm_num
  · rw [getLetterGrade_round]; norm_num
  · rw [getGradeColor_fin]; norm_num
  · rw [getGradeColor_round]; norm_num
  · rw [getGradeBadge_text, getLetterGrade_fin]; norm_num

/-- C28, amended: the letter, badge and colour shown are those of the raw score;
they are those of the rounded percentage displayed beside them exactly when the
score is not just below a band edge (not in `[59.5, 60)`, `[69.5, 70)`,
`[79.5, 80)` or `[89.5, 90)`); in particular for every whole-number score. -/
theorem C28_rounded_letter_away_from_edges (s : ℚ) :
    (¬ nearThreshold s →
      AssignmentView.getLetterGrade (.fin s) =
        AssignmentView.getLetterGrade (JSNum.round (.fin s)) ∧
      AssignmentView.getGradeColor (.fin s) =
        AssignmentView.getGradeColor (JSNum.round (.fin s)) ∧
      StudentGrades.getGradeBadge (.fin s) =
        StudentGrades.getGradeBadge (JSNum.round (.fin s)) ∧
      Gradebook.getGradeBadge (.fin s) = Gradebook.getGradeBadge (JSNum.round (.fin s))) ∧
    (nearThreshold s →
      AssignmentView.getLetterGrade (.fin s) ≠
        AssignmentView.getLetterGrade (JSNum.round (.fin s)) ∧
      AssignmentView.getGradeColor (.fin s) ≠
        AssignmentView.getGradeColor (JSNum.round (.fin s))) ∧
    ((∃ n : ℤ, s = n) → ¬ nearThreshold s) := by
  refine ⟨?_, ?_, ?_⟩
  · intro h
    have hl := (letter_round_iff s).mpr h
    exact ⟨hl, (colour_round_iff s).mpr h, badge_eq_of_letter_eq _ _ hl,
      badge_eq_of_letter_eq _ _ hl⟩
  · intro h
    exact ⟨fun hl => (letter_round_iff s).mp hl h, fun hc => (colour_round_iff s).mp hc h⟩
  · rintro ⟨n, rfl⟩ ⟨k, hk, h1, h2⟩
    simp only [List.mem_cons, List.mem_singleton, List.not_mem_nil, or_false] at hk
    rcases hk with rfl | rfl | rfl | rfl
    · have a1 : (59 : ℤ) < n := by exact_mod_cast (by linarith : (59 : ℚ) < n)
      have a2 : n < (60 : ℤ) := by exact_mod_cast h2
      omega
    · have a1 : (69 : ℤ) < n := by exact_mod_cast (by linarith : (69 : ℚ) < n)
      have a2 : n < (70 : ℤ) := by exact_mod_cast h2
      omega
    · have a1 : (79 : ℤ) < n := by exact_mod_cast (by linarith : (79 : ℚ) < n)
      have a2 : n < (80 : ℤ) := by exact_mod_cast h2
      omega
    · have a1 : (89 : ℤ) < n := by exact_mod_cast (by linarith : (89 : ℚ) < n)
      have a2 : n < (90 : ℤ) := by exact_mod_cast h2
      omega

/-- C28, amended, at the score 89.4, which is not near an edge: it is displayed
as 89 and both the raw and the rounded score have the letter B. -/
theorem C28_rounded_letter_away_from_edges_witness :
    AssignmentView.getLetterGrade (.fin (447 / 5)) =
      AssignmentView.getLetterGrade (JSNum.round (.fin (447 / 5))) :=
  ((C28_rounded_letter_away_from_edges (447 / 5)).1 (by
    simp only [nearThreshold, List.mem_cons, List.mem_singleton, List.not_mem_nil, or_false,
      exists_eq_or_imp, exists_eq_left]
    norm_num)).1

/-! ### The student selection (`AssignmentGenerator.handleStudentToggle`) -/

/-- The toggle of an id that is selected removes it. -/
theorem toggleStudent_mem (studentId : String) (prev : List String) (h : studentId ∈ prev) :
    AssignmentGenerator.toggleStudent studentId prev =
      prev.filter (fun id => id != studentId) := by
  simp [AssignmentGenerator.toggleStudent, h]

/-- The toggle of an id that is not selected appends it. -/
theorem toggleStudent_not_mem (studentId : String) (prev : List String)
    (h : studentId ∉ prev) :
    AssignmentGenerator.toggleStudent studentId prev = prev ++ [studentId] := by
  simp [AssignmentGenerator.toggleStudent, h]

/-- Filtering out an id that does not occur changes nothing. -/
theorem filter_ne_of_not_mem (studentId : String) (l : List String) (h : studentId ∉ l) :
    l.filter (fun id => id != studentId) = l := by
  rw [List.filter_eq_self]
  intro a ha
  have : a ≠ studentId := fun e => h (e ▸ ha)
  simpa using this

/-- C30: for every duplicate-free selection and every student id, the toggle
yields a duplicate-free list in which that id is selected exactly when it was
not before, every other id is selected exactly when it was before, and the other
ids keep their order; toggling the same id twice gives a list with the same ids
as the original, and the original list itself when the id was absent. -/
theorem C30_handleStudentToggle (studentId : String) (st : AssignmentGenerator.State)
    (hnodup : st.selectedStudents.Nodup) :
    (AssignmentGenerator.handleStudentToggle studentId st).selectedStudents.Nodup ∧
    (studentId ∈ (AssignmentGenerator.handleStudentToggle studentId st).selectedStudents ↔
      studentId ∉ st.selectedStudents) ∧
    (∀ other, other ≠ studentId →
      (other ∈ (AssignmentGenerator.handleStudentToggle studentId st).selectedStudents ↔
        other ∈ st.selectedStudents)) ∧
    ((AssignmentGenerator.handleStudentToggle studentId st).selectedStudents.filter
        (fun id => id != studentId) =
      st.selectedStudents.filter (fun id => id != studentId)) ∧
    (∀ id, id ∈ (AssignmentGenerator.handleStudentToggle studentId
          (AssignmentGenerator.handleStudentToggle studentId st)).selectedStudents ↔
        id ∈ st.selectedStudents) ∧
    (studentId ∉ st.selectedStudents →
      AssignmentGenerator.handleStudentToggle studentId
        (AssignmentGenerator.handleStudentToggle studentId st) = st) := by
  simp only [AssignmentGenerator.handleStudentToggle]
  by_cases h : studentId ∈ st.selectedStudents
  · have hnot : studentId ∉ st.selectedStudents.filter (fun id => id != studentId) := by
      simp
    rw [toggleStudent_mem _ _ h, toggleStudent_not_mem _ _ hnot]
    refine ⟨hnodup.filter _, ?_, ?_, ?_, ?_, fun hn => absurd h hn⟩
    · simp [h]
    · intro other hne
      simp [hne]
    · simp
    · intro id
      by_cases hid : id = studentId
      · subst hid
        simp [h]
      · simp [hid]
  · rw [toggleStudent_not_mem _ _ h]
    have hmem : studentId ∈ st.selectedStudents ++ [studentId] := by simp
    have hback : (st.selectedStudents ++ [studentId]).filter (fun id => id != studentId) =
        st.selectedStudents := by
      rw [List.filter_append, filter_ne_of_not_mem _ _ h]
      simp
    rw [toggleStudent_mem _ _ hmem, hback]
    refine ⟨?_, ?_, ?_, ?_, fun id => Iff.rfl, fun _ => rfl⟩
    · exact List.Nodup.append hnodup (List.nodup_singleton _) (by simpa using h)
    · simp [h]
    · intro other hne
      simp [hne]
    · exact (filter_ne_of_not_mem _ _ h).symm

/-- C30 on a selection of `s-1` and `s-2`: toggling `s-3` selects it, toggling
`s-1` deselects it and leaves `s-2` selected. -/
theorem C30_handleStudentToggle_witness :
    "s-3" ∈ (AssignmentGenerator.handleStudentToggle "s-3" sampleGenerator).selectedStudents ∧
    "s-1" ∉ (AssignmentGenerator.handleStudentToggle "s-1" sampleGenerator).selectedStudents ∧
    "s-2" ∈ (AssignmentGenerator.handleStudentToggle "s-1" sampleGenerator).selectedStudents :=
  ⟨(C30_handleStudentToggle "s-3" sampleGenerator (by decide)).2.1.mpr (by decide),
   fun h => ((C30_handleStudentToggle "s-1" sampleGenerator (by decide)).2.1.mp h) (by decide),
   ((C30_handleStudentToggle "s-1" sampleGenerator (by decide)).2.2.1 "s-2" (by decide)).mpr
     (by decide)⟩

/-! ### The Average Grade card -/

/-- C29 fails on a list whose only record is completed with the score 0: a
completed, scored assignment exists, the stored average is 0, and the card of
`StudentGrades` and of `StudentOverview` reads `N/A`, not `0%`. -/
theorem C29_zero_average_shows_na :
    (∃ a ∈ zeroGrades, a.completed = true ∧ a.score ≠ none) ∧
    (StudentGrades.fetchGrades (.ok zeroGrades) initialGrades).1.stats.averageGrade = .fin 0 ∧
    StudentGrades.averageGradeText
      (StudentGrades.fetchGrades (.ok zeroGrades) initialGrades).1.stats = "N/A" ∧
    StudentOverview.averageGradeText
      (StudentOverview.fetchAssignments (.ok zeroGrades) initialOverview).1.stats = "N/A" := by
  have hs : scoredScores zeroGrades = [0] := by decide
  have hm : roundedMean [0] = .fin 0 := by
    rw [roundedMean, if_neg (by simp)]
    norm_num [mean]
  have h1 : (StudentGrades.fetchGrades (.ok zeroGrades) initialGrades).1.stats.averageGrade =
      .fin 0 := by
    rw [grades_averageGrade, hs, hm]
  have h2 : (StudentOverview.fetchAssignments (.ok zeroGrades)
      initialOverview).1.stats.averageGrade = .fin 0 := by
    rw [overview_averageGrade_eq, hs, hm]
  refine ⟨⟨gradedRecord "z-1" true (some 0), by decide, rfl, by decide⟩, h1, ?_, ?_⟩
  · rw [StudentGrades.averageGradeText, h1]
    decide
  · rw [StudentOverview.averageGradeText, h2]
    decide

/-! ### Sorting -/

/-- When the comparator of `filteredAssignments` is not positive: `a` is pending
and `b` completed, or they have the same status and `b` was not assigned later. -/
theorem compareAssignments_le_iff (a b : StudentAssignment) :
    StudentAssignments.compareAssignments a b ≤ 0 ↔
      (a.completed = false ∧ b.completed = true) ∨
      (a.completed = b.completed ∧ b.assigned_at ≤ a.assigned_at) := by
  unfold StudentAssignments.compareAssignments
  cases a.completed <;> cases b.completed <;> simp

/-- The comparator orders any two records one way or the other. -/
theorem compareAssignments_total (a b : StudentAssignment) :
    StudentAssignments.compareAssignments a b ≤ 0 ∨
      StudentAssignments.compareAssignments b a ≤ 0 := by
  rw [compareAssignments_le_iff, compareAssignments_le_iff]
  cases a.completed <;> cases b.completed <;> simp <;> omega

/-- The comparator is transitive. -/
theorem compareAssignments_trans (a b c : StudentAssignment)
    (hab : StudentAssignments.compareAssignments a b ≤ 0)
    (hbc : StudentAssignments.compareAssignments b c ≤ 0) :
    StudentAssignments.compareAssignments a c ≤ 0 := by
  rw [compareAssignments_le_iff] at hab hbc ⊢
  revert hab hbc
  cases a.completed <;> cases b.completed <;> cases c.completed <;> simp <;> omega

/-- C24: for every assignments list (timestamps being valid), search term and
filter value, `filteredAssignments` is a permutation of the records that match
the search and, for the filter `pending` / `completed`, are pending /
completed; in it no completed record precedes a pending one, and among records
of the same status an earlier one in the list was not assigned before a later
one (most recent first). -/
theorem C24_filteredAssignments_sorted (st : StudentAssignments.State) :
    (StudentAssignments.filteredAssignments st).Perm
      (st.assignments.filter (fun a =>
        StudentAssignments.matchesSearch st.searchTerm a &&
        (decide (st.filter = "pending" → a.completed = false)) &&
        (decide (st.filter = "completed" → a.completed = true)))) ∧
    (StudentAssignments.filteredAssignments st).Pairwise
      (fun a b => a.completed = true → b.completed = true) ∧
    (StudentAssignments.filteredAssignments st).Pairwise
      (fun a b => a.completed = b.completed → b.assigned_at ≤ a.assigned_at) := by
  have hfilter : st.assignments.filter (fun assignment =>
      if st.filter = "pending" then
        StudentAssignments.matchesSearch st.searchTerm assignment && !assignment.completed
      else if st.filter = "completed" then
        StudentAssignments.matchesSearch st.searchTerm assignment && assignment.completed
      else StudentAssignments.matchesSearch st.searchTerm assignment) =
      st.assignments.filter (fun a =>
        StudentAssignments.matchesSearch st.searchTerm a &&
        (decide (st.filter = "pending" → a.completed = false)) &&
        (decide (st.filter = "completed" → a.completed = true))) := by
    apply List.filter_congr
    intro a _
    by_cases hp : st.filter = "pending"
    · have hc : st.filter ≠ "completed" := by rw [hp]; decide
      cases a.completed <;> simp [hp]
    · by_cases hc : st.filter = "completed"
      · cases a.completed <;> simp [hc]
      · simp [hp, hc]
  have hsorted : (StudentAssignments.filteredAssignments st).Sorted
      (fun a b => StudentAssignments.compareAssignments a b ≤ 0) :=
    @List.sorted_insertionSort _ (fun a b => StudentAssignments.compareAssignments a b ≤ 0) _
      ⟨compareAssignments_total⟩ ⟨compareAssignments_trans⟩ _
  refine ⟨?_, ?_, ?_⟩
  · rw [← hfilter]
    exact List.perm_insertionSort _ _
  · refine List.Pairwise.imp ?_ hsorted
    intro a b hab hdone
    rw [compareAssignments_le_iff] at hab
    rcases hab with ⟨h, _⟩ | ⟨h, _⟩
    · rw [h] at hdone; cases hdone
    · rw [← h]; exact hdone
  · refine List.Pairwise.imp ?_ hsorted
    intro a b hab hsame
    rw [compareAssignments_le_iff] at hab
    rcases hab with ⟨h1, h2⟩ | ⟨_, h⟩
    · rw [h1, h2] at hsame; cases hsame
    · exact h

/-- C24 on four records (completed at 30, pending at 10, completed at 40,
pending at 20) with the filter `all`: the pending ones come first, latest
first, then the completed ones, latest first. -/
theorem C24_filteredAssignments_sorted_witness :
    (StudentAssignments.filteredAssignments datedAssignments).map
        (fun a => a.student_assignment_id) = ["d-4", "d-2", "d-3", "d-1"] ∧
    (StudentAssignments.filteredAssignments datedAssignments).Pairwise
      (fun a b => a.completed = true → b.completed = true) :=
  ⟨by decide, (C24_filteredAssignments_sorted datedAssignments).2.1⟩

/-- The inner activity loop appends the activities of the submitted entries of
one student. -/
theorem foldl_pushActivity (student : StudentRecord) (l : List GradebookAssignment)
    (activities : List Overview.Activity) :
    l.foldl (Overview.pushActivity student) activities =
      activities ++ l.filterMap (submissionActivity student) := by
  induction l generalizing activities with
  | nil => simp
  | cons a rest ih =>
    rw [List.foldl_cons, ih]
    cases hs : a.submitted_at <;>
      simp [Overview.pushActivity, submissionActivity, List.filterMap_cons, hs]

/-- The outer activity loop collects the submissions of the gradebook. -/
theorem foldl_pushStudent (gradebook : List StudentRecord)
    (activities : List Overview.Activity) :
    gradebook.foldl Overview.pushStudent activities = activities ++ submissions gradebook := by
  induction gradebook generalizing activities with
  | nil => simp [submissions]
  | cons r rest ih =>
    rw [List.foldl_cons, ih, Overview.pushStudent, foldl_pushActivity]
    simp [submissions, List.flatMap_cons]

/-- The recent activity that the teacher `Overview` stores when its three
fetches succeed: the first five of the sorted submissions. -/
theorem fetchOverviewData_recentActivity (students : List Student)
    (assignments : List Assignment) (gradebook : List StudentRecord) (st : Overview.State) :
    (Overview.fetchOverviewData (.ok students) (.ok assignments) (.ok gradebook)
        st).1.recentActivity =
      (Overview.sortActivities (submissions gradebook)).take 5 := by
  simp only [Overview.fetchOverviewData, foldl_pushStudent, List.nil_append]

/-- The sorted submissions are in non-increasing order of timestamp. -/
theorem sortActivities_sorted (activities : List Overview.Activity) :
    (Overview.sortActivities activities).Pairwise (fun a b => b.timestamp ≤ a.timestamp) :=
  @List.sorted_insertionSort _ (fun a b : Overview.Activity => b.timestamp ≤ a.timestamp) _
    ⟨fun a b => le_total b.timestamp a.timestamp⟩
    ⟨fun _ _ _ hab hbc => le_trans hbc hab⟩ activities

/-- The activities collected per student are as many as the entries with a
`submitted_at`. -/
theorem filterMap_submissionActivity_length (student : StudentRecord)
    (l : List GradebookAssignment) :
    (l.filterMap (submissionActivity student)).length =
      (l.filter (fun entry => entry.submitted_at.isSome)).length := by
  induction l with
  | nil => rfl
  | cons a l ihl =>
    cases hs : a.submitted_at <;>
      simp [submissionActivity, List.filterMap_cons, List.filter_cons, hs, ihl]

/-- The submissions of a gradebook are as many as its entries with a
`submitted_at`. -/
theorem submissions_length (gradebook : List StudentRecord) :
    (submissions gradebook).length =
      ((gradebook.flatMap (fun r => r.assignments)).filter
        (fun entry => entry.submitted_at.isSome)).length := by
  unfold submissions
  induction gradebook with
  | nil => rfl
  | cons r rest ih =>
    simp only [List.flatMap_cons, List.length_append, List.filter_append, ih,
      filterMap_submissionActivity_length]

/-- C25: for every gradebook (timestamps being valid), the recent activity of
the teacher `Overview` holds only activities of entries that have a
`submitted_at`, has length `min 5 n` for the `n` submissions of the gradebook,
is in non-increasing order of timestamp, and together with a list of submissions
left out, none of which is later than any one included, makes up the
submissions of the gradebook. -/
theorem C25_recentActivity_five_latest (students : List Student)
    (assignments : List Assignment) (gradebook : List StudentRecord) (st : Overview.State) :
    (∀ activity ∈ (Overview.fetchOverviewData (.ok students) (.ok assignments) (.ok gradebook)
        st).1.recentActivity,
      ∃ student ∈ gradebook, ∃ entry ∈ student.assignments,
        entry.submitted_at = some activity.timestamp ∧
        submissionActivity student entry = some activity) ∧
    (Overview.fetchOverviewData (.ok students) (.ok assignments) (.ok gradebook)
        st).1.recentActivity.length =
      min 5 ((gradebook.flatMap (fun r => r.assignments)).filter
        (fun entry => entry.submitted_at.isSome)).length ∧
    (Overview.fetchOverviewData (.ok students) (.ok assignments) (.ok gradebook)
        st).1.recentActivity.Pairwise (fun a b => b.timestamp ≤ a.timestamp) ∧
    ∃ leftOut : List Overview.Activity,
      ((Overview.fetchOverviewData (.ok students) (.ok assignments) (.ok gradebook)
        st).1.recentActivity ++ leftOut).Perm (submissions gradebook) ∧
      ∀ included ∈ (Overview.fetchOverviewData (.ok students) (.ok assignments)
          (.ok gradebook) st).1.recentActivity,
        ∀ other ∈ leftOut, other.timestamp ≤ included.timestamp := by
  rw [fetchOverviewData_recentActivity]
  have hperm : (Overview.sortActivities (submissions gradebook)).Perm (submissions gradebook) :=
    List.perm_insertionSort _ _
  have hsorted := sortActivities_sorted (submissions gradebook)
  have hlen := submissions_length gradebook
  refine ⟨?_, ?_, ?_, ?_⟩
  · intro activity hmem
    have hin : activity ∈ submissions gradebook :=
      hperm.subset (List.mem_of_mem_take hmem)
    obtain ⟨student, hstudent, hact⟩ := List.mem_flatMap.mp hin
    obtain ⟨entry, hentry, hsome⟩ := List.mem_filterMap.mp hact
    refine ⟨student, hstudent, entry, hentry, ?_, hsome⟩
    unfold submissionActivity at hsome
    cases hs : entry.submitted_at with
    | none => rw [hs] at hsome; cases hsome
    | some t =>
      rw [hs] at hsome
      simp only [Option.map_some', Option.some.injEq] at hsome
      rw [← hsome]
  · rw [List.length_take, hperm.length_eq, hlen]
  · exact hsorted.sublist (List.take_sublist _ _)
  · refine ⟨(Overview.sortActivities (submissions gradebook)).drop 5, ?_, ?_⟩
    · rw [List.take_append_drop]
      exact hperm
    · have h := hsorted
      rw [← List.take_append_drop 5 (Overview.sortActivities (submissions gradebook)),
        List.pairwise_append] at h
      exact h.2.2

/-- C25 on a gradebook with six submissions at the times 10, 60, 30, 50, 20, 40:
the recent activity is the five latest, latest first. -/
theorem C25_recentActivity_five_latest_witness :
    (Overview.fetchOverviewData (.ok []) (.ok []) (.ok activeGradebook)
        initialTeacherOverview).1.recentActivity.length = 5 ∧
    (Overview.fetchOverviewData (.ok []) (.ok []) (.ok activeGradebook)
        initialTeacherOverview).1.recentActivity.map (fun a => a.timestamp) =
      [60, 50, 40, 30, 20] :=
  ⟨(C25_recentActivity_five_latest [] [] activeGradebook initialTeacherOverview).2.1.trans
      (by decide),
   by decide⟩

/-! ### Error notifications and reconciliation of the handlers -/

/-- The expression `detail || fallback` for a non-empty detail. -/
theorem detailOr_some (error : AxiosError) (fallback detail : String)
    (hd : error.detail = some detail) (hne : detail ≠ "") :
    detailOr error fallback = detail := by
  simp [detailOr, hd, hne]

/-- The form check of the two generators passes on a filled form. -/
theorem form_filled (formData : FormData) (hs : formData.subject ≠ "")
    (hg : formData.grade_level ≠ "") (ht : jsTrim formData.topic ≠ "") :
    (formData.subject = "" || formData.grade_level = "" || jsTrim formData.topic = "") =
      false := by
  simp [hs, hg, ht]

/-- What `AssignmentGenerator.handleGenerate` does on a filled form when the
request fails. -/
theorem assignment_handleGenerate_failure (error : AxiosError)
    (st : AssignmentGenerator.State) (hs : st.formData.subject ≠ "")
    (hg : st.formData.grade_level ≠ "") (ht : jsTrim st.formData.topic ≠ "") :
    AssignmentGenerator.handleGenerate (.error error) st =
      ({ st with generating := false },
        [Effect.axiosPostJson "/assignments/generate" (.form st.formData),
         Effect.consoleError "Error generating assignment:",
         Effect.toastError (detailOr error "Failed to generate assignment")]) := by
  simp [AssignmentGenerator.handleGenerate, hs, hg, ht]

/-- What `AssignmentGenerator.handleGenerate` does on a filled form when the
request succeeds. -/
theorem assignment_handleGenerate_success (data : TeacherAssignment)
    (st : AssignmentGenerator.State) (hs : st.formData.subject ≠ "")
    (hg : st.formData.grade_level ≠ "") (ht : jsTrim st.formData.topic ≠ "") :
    AssignmentGenerator.handleGenerate (.ok data) st =
      ({ st with generatedAssignment := some data, assignments := data :: st.assignments
                 showAssignDialog := true, generating := false },
        [Effect.axiosPostJson "/assignments/generate" (.form st.formData),
         Effect.toastSuccess "Assignment generated successfully!"]) := by
  simp [AssignmentGenerator.handleGenerate, hs, hg, ht]

/-- What `LessonPlanGenerator.handleGenerate` does on a filled form when the
request fails. -/
theorem lessonPlan_handleGenerate_failure (error : AxiosError)
    (st : LessonPlanGenerator.State) (hs : st.formData.subject ≠ "")
    (hg : st.formData.grade_level ≠ "") (ht : jsTrim st.formData.topic ≠ "") :
    LessonPlanGenerator.handleGenerate (.error error) st =
      ({ st with generating := false },
        [Effect.axiosPostJson "/lesson-plans/generate" (.form st.formData),
         Effect.consoleError "Error generating lesson plan:",
         Effect.toastError (detailOr error "Failed to generate lesson plan")]) := by
  simp [LessonPlanGenerator.handleGenerate, hs, hg, ht]

/-- What `LessonPlanGenerator.handleGenerate` does on a filled form when the
request succeeds. -/
theorem lessonPlan_handleGenerate_success (data : LessonPlan)
    (st : LessonPlanGenerator.State) (hs : st.formData.subject ≠ "")
    (hg : st.formData.grade_level ≠ "") (ht : jsTrim st.formData.topic ≠ "") :
    LessonPlanGenerator.handleGenerate (.ok data) st =
      ({ st with lessonPlans := data :: st.lessonPlans, expandedPlan := some data.id
                 formData := { subject := "", grade_level := "", topic := "" }
                 generating := false },
        [Effect.axiosPostJson "/lesson-plans/generate" (.form st.formData),
         Effect.toastSuccess "Lesson plan generated successfully!"]) := by
  simp [LessonPlanGenerator.handleGenerate, hs, hg, ht]

/-- The handlers that show a fixed text when their request fails, whatever the
error response carries: assign to students, delete student, send message. -/
theorem fixed_text_handlers (error : AxiosError) :
    (∀ (st : AssignmentGenerator.State) (generated : TeacherAssignment),
      st.selectedStudents ≠ [] → st.generatedAssignment = some generated →
      AssignmentGenerator.handleAssignToStudents (.error error) st =
        (st, [Effect.axiosPostJson "/assignments/assign"
                (.assign generated.id st.selectedStudents),
              Effect.consoleError "Error assigning assignment:",
              Effect.toastError "Failed to assign assignment"])) ∧
    (∀ (studentId : String) (st : StudentManagement.State),
      StudentManagement.handleDeleteStudent studentId true (.error error) st =
        (st, [Effect.confirm
                "Are you sure you want to delete this student? This action cannot be undone.",
              Effect.axiosDelete ("/students/" ++ studentId),
              Effect.consoleError "Error deleting student:",
              Effect.toastError "Failed to delete student"])) ∧
    (∀ (messagesResponse : Except AxiosError (List Message))
        (conversationsResponse : Except AxiosError (List Conversation))
        (st : Messaging.State) (active : Conversation),
      st.activeConversation = some active → jsTrim st.newMessage ≠ "" →
      Messaging.sendMessage (.error error) messagesResponse conversationsResponse st =
        (st, [Effect.axiosPostJson "/messages" (.message active.contact.id (jsTrim st.newMessage)),
              Effect.consoleError "Error sending message:",
              Effect.toastError "Failed to send message"])) ∧
    (∀ (messagesResponse : Except AxiosError (List Message))
        (conversationsResponse : Except AxiosError (List Conversation))
        (st : StudentMessages.State) (teacher : Contact),
      st.teacher = some teacher → jsTrim st.newMessage ≠ "" →
      StudentMessages.sendMessage (.error error) messagesResponse conversationsResponse st =
        (st, [Effect.axiosPostJson "/messages" (.message teacher.id (jsTrim st.newMessage)),
              Effect.consoleError "Error sending message:",
              Effect.toastError "Failed to send message"])) := by
  refine ⟨?_, ?_, ?_, ?_⟩
  · intro st generated hsel hgen
    have hlen : ¬ st.selectedStudents.length = 0 := by
      rw [List.length_eq_zero]; exact hsel
    simp [AssignmentGenerator.handleAssignToStudents, hlen, hgen]
  · intro studentId st
    simp [StudentManagement.handleDeleteStudent]
  · intro messagesResponse conversationsResponse st active hactive htrim
    simp [Messaging.sendMessage, hactive, htrim]
  · intro messagesResponse conversationsResponse st teacher hteacher htrim
    simp [StudentMessages.sendMessage, hteacher, htrim]

/-- C21, as stated, fails on a list fetch: the GET of `StudentAssignments` fails
with the detail `Session expired`, and the notification is the fixed text
`Failed to load assignments`, not the detail. -/
theorem C21_list_fetch_counterexample :
    (StudentAssignments.fetchAssignments (.error { detail := some "Session expired" })
        loadedAssignments).2 =
      [Effect.axiosGet "/student/assignments", Effect.consoleError "Error fetching assignments:",
       Effect.toastError "Failed to load assignments"] ∧
    Effect.toastError "Session expired" ∉
      (StudentAssignments.fetchAssignments (.error { detail := some "Session expired" })
        loadedAssignments).2 := by
  decide

/-- C21, amended: when the error response carries a non-empty detail, that
detail is the one error notification of a failed submit assignment, generate
assignment, generate lesson plan and add student; a failed list fetch shows its
own fixed text, whatever the response carries: the student's assignment list
(`StudentAssignments`, `StudentGrades`, `StudentOverview`, `AssignmentView`),
the gradebook, the student list, the generator's students and assignments, the
lesson plans, each of the three fetches of the teacher `Overview`, and the
conversations and messages of `Messaging` and of `StudentMessages`. -/
theorem C21_detail_surfaced :
    (∀ (error : AxiosError) (detail : String), error.detail = some detail → detail ≠ "" →
      (∀ (assignmentId : String) (getResponse : Except AxiosError (List StudentAssignment))
          (st : AssignmentView.State) (assignment : StudentAssignment),
        st.assignment = some assignment → assignment.completed = false →
        assignment.assignment.questions.length ≤ st.answers.keys.length →
        errorToasts (AssignmentView.handleSubmit assignmentId (.error error) getResponse st).2 =
          [detail]) ∧
      (∀ st : AssignmentGenerator.State,
        st.formData.subject ≠ "" → st.formData.grade_level ≠ "" →
        jsTrim st.formData.topic ≠ "" →
        errorToasts (AssignmentGenerator.handleGenerate (.error error) st).2 = [detail]) ∧
      (∀ st : LessonPlanGenerator.State,
        st.formData.subject ≠ "" → st.formData.grade_level ≠ "" →
        jsTrim st.formData.topic ≠ "" →
        errorToasts (LessonPlanGenerator.handleGenerate (.error error) st).2 = [detail]) ∧
      (∀ st : StudentManagement.State,
        errorToasts (StudentManagement.handleAddStudent (.error error) st).2 = [detail])) ∧
    (∀ error : AxiosError,
      (∀ st : StudentAssignments.State,
        errorToasts (StudentAssignments.fetchAssignments (.error error) st).2 =
          ["Failed to load assignments"]) ∧
      (∀ st : StudentGrades.State,
        errorToasts (StudentGrades.fetchGrades (.error error) st).2 =
          ["Failed to load grades"]) ∧
      (∀ st : StudentOverview.State,
        errorToasts (StudentOverview.fetchAssignments (.error error) st).2 =
          ["Failed to load assignments"]) ∧
      (∀ (assignmentId : String) (st : AssignmentView.State),
        errorToasts (AssignmentView.fetchAssignment assignmentId (.error error) st).2 =
          ["Failed to load assignment"]) ∧
      (∀ st : Gradebook.State,
        errorToasts (Gradebook.fetchGradebook (.error error) st).2 =
          ["Failed to load gradebook"]) ∧
      (∀ st : StudentManagement.State,
        errorToasts (StudentManagement.fetchStudents (.error error) st).2 =
          ["Failed to load students"]) ∧
      (∀ st : AssignmentGenerator.State,
        errorToasts (AssignmentGenerator.fetchStudents (.error error) st).2 =
          ["Failed to load students"] ∧
        errorToasts (AssignmentGenerator.fetchAssignments (.error error) st).2 =
          ["Failed to load assignments"]) ∧
      (∀ st : LessonPlanGenerator.State,
        errorToasts (LessonPlanGenerator.fetchLessonPlans (.error error) st).2 =
          ["Failed to load lesson plans"]) ∧
      (∀ (students : List Student) (assignments : List Assignment)
          (assignmentsResponse : Except AxiosError (List Assignment))
          (gradebookResponse : Except AxiosError (List StudentRecord)) (st : Overview.State),
        errorToasts (Overview.fetchOverviewData (.error error) assignmentsResponse
          gradebookResponse st).2 = ["Failed to load overview data"] ∧
        errorToasts (Overview.fetchOverviewData (.ok students) (.error error)
          gradebookResponse st).2 = ["Failed to load overview data"] ∧
        errorToasts (Overview.fetchOverviewData (.ok students) (.ok assignments)
          (.error error) st).2 = ["Failed to load overview data"]) ∧
      (∀ (contactId : String) (st : Messaging.State),
        errorToasts (Messaging.fetchConversations (.error error) st).2 =
          ["Failed to load conversations"] ∧
        errorToasts (Messaging.fetchMessages contactId (.error error) st).2 =
          ["Failed to load messages"]) ∧
      (∀ (teacherId : String) (st : StudentMessages.State),
        errorToasts (StudentMessages.fetchConversations (.error error) st).2 =
          ["Failed to load conversations"] ∧
        errorToasts (StudentMessages.fetchMessages teacherId (.error error) st).2 =
          ["Failed to load messages"])) := by
  refine ⟨fun error detail hd hne => ⟨?_, ?_, ?_, ?_⟩,
    fun error => ⟨fun _ => rfl, fun _ => rfl, fun _ => rfl, fun _ _ => rfl,
      fun _ => rfl, fun _ => rfl, fun _ => ⟨rfl, rfl⟩, fun _ => rfl,
      fun _ _ _ _ _ => ⟨rfl, rfl, rfl⟩, fun _ _ => ⟨rfl, rfl⟩, fun _ _ => ⟨rfl, rfl⟩⟩⟩
  · intro assignmentId getResponse st assignment hloaded hpending hall
    rw [handleSubmit_failure assignmentId error getResponse st assignment hloaded hpending hall]
    simp [errorToasts, hd, hne]
  · intro st hs hg ht
    rw [assignment_handleGenerate_failure error st hs hg ht]
    simp [errorToasts, detailOr_some error _ detail hd hne]
  · intro st hs hg ht
    rw [lessonPlan_handleGenerate_failure error st hs hg ht]
    simp [errorToasts, detailOr_some error _ detail hd hne]
  · intro st
    simp [StudentManagement.handleAddStudent, errorToasts, detailOr_some error _ detail hd hne]

/-- C21, amended, on a failed add student whose response carries the detail
`Username already exists`: that text is the notification; and on a failed fetch
of the gradebook by the teacher `Overview` whose response carries the detail
`Session expired`: the notification is the fixed text. -/
theorem C21_detail_surfaced_witness :
    errorToasts (StudentManagement.handleAddStudent
      (.error { detail := some "Username already exists" }) sampleManagement).2 =
      ["Username already exists"] ∧
    errorToasts (Overview.fetchOverviewData (.ok []) (.ok [])
      (.error { detail := some "Session expired" }) initialTeacherOverview).2 =
      ["Failed to load overview data"] :=
  ⟨(C21_detail_surfaced.1 { detail := some "Username already exists" }
      "Username already exists" rfl (by decide)).2.2.2 sampleManagement,
   ((C21_detail_surfaced.2 { detail := some "Session expired" }).2.2.2.2.2.2.2.2.1
      [] [] (.ok []) (.ok []) initialTeacherOverview).2.2⟩

/-- Every run of `AssignmentView.fetchAssignment` issues exactly one GET, of the
assignment list. -/
theorem fetchAssignment_getRequests (assignmentId : String)
    (getResponse : Except AxiosError (List StudentAssignment)) (st : AssignmentView.State) :
    getRequests (AssignmentView.fetchAssignment assignmentId getResponse st).2 =
      ["/student/assignments"] := by
  unfold AssignmentView.fetchAssignment
  cases getResponse with
  | error e => rfl
  | ok data =>
    simp only
    split <;> rfl

/-- Every run of `Messaging.fetchMessages` and of `Messaging.fetchConversations`
issues exactly one GET. -/
theorem messaging_getRequests (contactId : String)
    (messagesResponse : Except AxiosError (List Message))
    (conversationsResponse : Except AxiosError (List Conversation)) (st st' : Messaging.State) :
    getRequests (Messaging.fetchMessages contactId messagesResponse st).2 =
      ["/messages/" ++ contactId] ∧
    getRequests (Messaging.fetchConversations conversationsResponse st').2 = ["/messages"] := by
  cases messagesResponse <;> cases conversationsResponse <;> exact ⟨rfl, rfl⟩

/-- Every run of `StudentMessages.fetchMessages` and of
`StudentMessages.fetchConversations` issues exactly one GET. -/
theorem studentMessages_getRequests (teacherId : String)
    (messagesResponse : Except AxiosError (List Message))
    (conversationsResponse : Except AxiosError (List Conversation))
    (st st' : StudentMessages.State) :
    getRequests (StudentMessages.fetchMessages teacherId messagesResponse st).2 =
      ["/messages/" ++ teacherId] ∧
    getRequests (StudentMessages.fetchConversations conversationsResponse st').2 =
      ["/messages"] := by
  cases messagesResponse <;> cases conversationsResponse <;> exact ⟨rfl, rfl⟩

/-- The GET requests of two runs of effects, one after the other. -/
theorem getRequests_append (xs ys : List Effect) :
    getRequests (xs ++ ys) = getRequests xs ++ getRequests ys := by
  simp [getRequests, List.filterMap_append]

/-- C22, as stated, fails on add student: after a successful POST the handler
issues no GET, and the list is the former list with the returned record
appended. -/
theorem C22_add_student_counterexample :
    getRequests (StudentManagement.handleAddStudent (.ok addedStudent) sampleManagement).2 =
      [] ∧
    (StudentManagement.handleAddStudent (.ok addedStudent) sampleManagement).1.students =
      sampleManagement.students ++ [addedStudent] := by
  decide

/-- C22, amended: after a successful write, submit assignment and send message
(teacher and student) reconcile by re-fetching: submit issues the GET of the
assignment list and takes its state from that fetch, send message issues the
GET of the thread and of the conversation list and stores what they return;
add student, delete student, generate assignment and generate lesson plan issue
no GET and patch the local list (the returned student appended, the deleted id
filtered out, the returned assignment or lesson plan put in front). -/
theorem C22_reconcile_after_write :
    (∀ (assignmentId : String) (response : SubmitResponse)
        (getResponse : Except AxiosError (List StudentAssignment))
        (st : AssignmentView.State) (assignment : StudentAssignment),
      st.assignment = some assignment → assignment.completed = false →
      assignment.assignment.questions.length ≤ st.answers.keys.length →
      getRequests (AssignmentView.handleSubmit assignmentId (.ok response) getResponse st).2 =
        ["/student/assignments"] ∧
      (AssignmentView.handleSubmit assignmentId (.ok response) getResponse st).1 =
        { (AssignmentView.fetchAssignment assignmentId getResponse
            { st with submitting := true }).1 with submitting := false }) ∧
    (∀ (messages : List Message) (conversations : List Conversation)
        (st : Messaging.State) (active : Conversation),
      st.activeConversation = some active → jsTrim st.newMessage ≠ "" →
      getRequests (Messaging.sendMessage (.ok ()) (.ok messages) (.ok conversations) st).2 =
        ["/messages/" ++ active.contact.id, "/messages"] ∧
      (Messaging.sendMessage (.ok ()) (.ok messages) (.ok conversations) st).1.messages =
        messages ∧
      (Messaging.sendMessage (.ok ()) (.ok messages) (.ok conversations) st).1.conversations =
        conversations) ∧
    (∀ (messages : List Message) (conversations : List Conversation)
        (st : StudentMessages.State) (teacher : Contact),
      st.teacher = some teacher → jsTrim st.newMessage ≠ "" →
      getRequests (StudentMessages.sendMessage (.ok ()) (.ok messages) (.ok conversations)
          st).2 = ["/messages/" ++ teacher.id, "/messages"] ∧
      (StudentMessages.sendMessage (.ok ()) (.ok messages) (.ok conversations) st).1.messages =
        messages ∧
      (StudentMessages.sendMessage (.ok ()) (.ok messages) (.ok conversations)
          st).1.conversations = conversations) ∧
    (∀ (data : StudentAccount) (st : StudentManagement.State),
      getRequests (StudentManagement.handleAddStudent (.ok data) st).2 = [] ∧
      (StudentManagement.handleAddStudent (.ok data) st).1.students = st.students ++ [data]) ∧
    (∀ (studentId : String) (st : StudentManagement.State),
      getRequests (StudentManagement.handleDeleteStudent studentId true (.ok ()) st).2 = [] ∧
      (StudentManagement.handleDeleteStudent studentId true (.ok ()) st).1.students =
        st.students.filter (fun student => student.id != studentId)) ∧
    (∀ (data : TeacherAssignment) (st : AssignmentGenerator.State),
      st.formData.subject ≠ "" → st.formData.grade_level ≠ "" →
      jsTrim st.formData.topic ≠ "" →
      getRequests (AssignmentGenerator.handleGenerate (.ok data) st).2 = [] ∧
      (AssignmentGenerator.handleGenerate (.ok data) st).1.assignments =
        data :: st.assignments) ∧
    (∀ (data : LessonPlan) (st : LessonPlanGenerator.State),
      st.formData.subject ≠ "" → st.formData.grade_level ≠ "" →
      jsTrim st.formData.topic ≠ "" →
      getRequests (LessonPlanGenerator.handleGenerate (.ok data) st).2 = [] ∧
      (LessonPlanGenerator.handleGenerate (.ok data) st).1.lessonPlans =
        data :: st.lessonPlans) := by
  refine ⟨?_, ?_, ?_, ?_, ?_, ?_, ?_⟩
  · intro assignmentId response getResponse st assignment hloaded hpending hall
    rw [handleSubmit_success assignmentId response getResponse st assignment hloaded hpending
      hall]
    refine ⟨?_, rfl⟩
    have h := fetchAssignment_getRequests assignmentId getResponse { st with submitting := true }
    simp only [getRequests, List.filterMap_cons] at h ⊢
    exact h
  · intro messages conversations st active hactive htrim
    simp [Messaging.sendMessage, hactive, htrim, Messaging.fetchMessages,
      Messaging.fetchConversations, getRequests]
  · intro messages conversations st teacher hteacher htrim
    refine ⟨?_, ?_, ?_⟩
    · simp [StudentMessages.sendMessage, hteacher, htrim, StudentMessages.fetchMessages,
        StudentMessages.fetchConversations, getRequests]
    · simp only [StudentMessages.sendMessage, hteacher, htrim, if_false,
        StudentMessages.fetchMessages, StudentMessages.fetchConversations]
      cases conversations <;> rfl
    · simp only [StudentMessages.sendMessage, hteacher, htrim, if_false,
        StudentMessages.fetchMessages, StudentMessages.fetchConversations]
      cases conversations <;> rfl
  · intro data st
    exact ⟨rfl, rfl⟩
  · intro studentId st
    exact ⟨rfl, rfl⟩
  · intro data st hs hg ht
    rw [assignment_handleGenerate_success data st hs hg ht]
    exact ⟨rfl, rfl⟩
  · intro data st hs hg ht
    rw [lessonPlan_handleGenerate_success data st hs hg ht]
    exact ⟨rfl, rfl⟩

/-- C22, amended, on the teacher `Messaging` view: after the message is sent the
thread and the conversation list are fetched again, and the thread shows what
the backend returned. -/
theorem C22_reconcile_after_write_witness :
    getRequests (Messaging.sendMessage (.ok ()) (.ok [sentMessage]) (.ok []) sampleMessaging).2 =
      ["/messages/s-1", "/messages"] ∧
    (Messaging.sendMessage (.ok ()) (.ok [sentMessage]) (.ok []) sampleMessaging).1.messages =
      [sentMessage] := by
  obtain ⟨hget, hmessages, -⟩ :=
    C22_reconcile_after_write.2.1 [sentMessage] [] sampleMessaging
      { contact := { id := "s-1", name := "Ada Byron", type := "student" }
        last_message := none } rfl (by decide)
  exact ⟨hget, hmessages⟩
